import Mathlib

/-!
Verification of the `snakes` game engine (`snakes/state.go`, `snakes/server.go`).

The Go code is shallowly embedded: pure functions become Lean functions,
Go `int` becomes `Int`, Go `uint64` arithmetic becomes `Nat` arithmetic
with explicit reduction `% 2^64`, fallible code (Go `panic`, and loops
that need not terminate) returns `Option` (with a fuel parameter for the
rejection-sampling loops of `math/rand` and apple placement).

The deterministic apple placement uses Go's `hash/crc64` (ISO polynomial)
and `math/rand`; both are embedded bit-exactly, including the 607-entry
`rng_cooked` seeding table of `math/rand/rng.go` (reconstructed from its
documented generation procedure and cross-checked against the well-known
output stream of `rand.New(rand.NewSource(1))`).
-/

namespace Snakes

/-! ## Grid model (`state.go`) -/

/-- `Location` represents a 2D location (`state.go` lines 57-61). -/
structure Location where
  X : Int
  Y : Int
deriving DecidableEq, Repr

instance : Inhabited Location := ⟨⟨0, 0⟩⟩

/-- `Direction` with its four valid values (`state.go` lines 11-25). -/
inductive Direction where
  | North
  | East
  | South
  | West
deriving DecidableEq, Repr

/-- `Location.IsInsideBounds` (`state.go` lines 63-66). -/
def Location.IsInsideBounds (l : Location) (width height : Int) : Bool :=
  0 ≤ l.X && l.X < width && 0 ≤ l.Y && l.Y < height

/-- `NextLocation` (`state.go` lines 68-84).  The Go function panics on an
invalid direction; the Lean `Direction` type has exactly the four valid
values, so the function is total. -/
def NextLocation (base : Location) (direction : Direction) : Location :=
  match direction with
  | .North => { base with Y := base.Y - 1 }
  | .East  => { base with X := base.X + 1 }
  | .South => { base with Y := base.Y + 1 }
  | .West  => { base with X := base.X - 1 }

/-- `locationPair` (`state.go` line 87). -/
abbrev locationPair := Location × Location

/-- `locationPair.Swap` (`state.go` lines 89-92). -/
def locationPair.Swap (l : locationPair) : locationPair := (l.2, l.1)

/-- `Snake` (`state.go` lines 94-99); `Pieces[0]` is the head. -/
structure Snake where
  Alive : Bool
  Length : Int
  Pieces : List Location
deriving DecidableEq, Repr

instance : Inhabited Snake := ⟨⟨false, 0, []⟩⟩

/-- `Snake.HasPieceAt` (`state.go` lines 101-108). -/
def Snake.HasPieceAt (s : Snake) (x y : Int) : Bool :=
  s.Pieces.any (fun piece => piece.X == x && piece.Y == y)

/-- `StateConfig` (`state.go` lines 114-118). -/
structure StateConfig where
  Width : Int
  Height : Int
  SnakeCount : Int
  InitialSnakeLength : Int
deriving DecidableEq, Repr

/-- `State` (`state.go` lines 120-124).  In Go the apple is `*Apple`; every
state the package constructs carries exactly one apple (the spec's data
model), so the location is embedded directly. -/
structure State where
  Width : Int
  Height : Int
  Snakes : List Snake
  Apple : Location
deriving DecidableEq, Repr

/-! ## `hash/crc64`, ISO polynomial

`GenerateAppleLocation` seeds `math/rand` with
`crc64.New(crc64.MakeTable(crc64.ISO))` over 16 bytes per snake. -/

/-- The ISO polynomial of `hash/crc64` (reversed representation). -/
def crc64ISO : Nat := 0xD800000000000000

/-- One entry of `crc64.MakeTable`: 8 steps of the reflected CRC division. -/
def crc64TableEntry (n : Nat) : Nat :=
  (List.range 8).foldl
    (fun crc _ => if crc % 2 = 1 then (crc / 2) ^^^ crc64ISO else crc / 2) n

/-- The 256-entry table of `crc64.MakeTable(crc64.ISO)`. -/
def crc64Table : List Nat := (List.range 256).map crc64TableEntry

/-- One byte of the crc64 update loop. -/
def crc64UpdateByte (crc b : Nat) : Nat :=
  (crc64Table.getD ((crc ^^^ b) % 256) 0) ^^^ (crc >>> 8)

/-- `crc64`'s `update` as used by `digest.Write`: complement, process the
bytes, complement again. -/
def crc64Write (crc : Nat) (bs : List Nat) : Nat :=
  let c := crc ^^^ (2 ^ 64 - 1)
  let c := bs.foldl crc64UpdateByte c
  c ^^^ (2 ^ 64 - 1)

/-- `binary.BigEndian.PutUint64`: the 8 bytes of `x`, most significant
first. -/
def be8 (x : Nat) : List Nat :=
  [(x >>> 56) % 256, (x >>> 48) % 256, (x >>> 40) % 256, (x >>> 32) % 256,
   (x >>> 24) % 256, (x >>> 16) % 256, (x >>> 8) % 256, x % 256]

/-- Go's `uint64(i)` conversion of an `int`: two's-complement wraparound. -/
def uint64OfInt (x : Int) : Nat := (x % (2 ^ 64 : Int)).toNat

/-- The 16 bytes one snake contributes to the apple seed
(`state.go` lines 169-178): the head coordinates if alive, zeros if dead.
An alive snake with no pieces makes the Go code panic (`Pieces[0]`). -/
def snakeSeedBytes (snake : Snake) : Option (List Nat) :=
  if snake.Alive then
    match snake.Pieces with
    | [] => none
    | p :: _ => some (be8 (uint64OfInt p.X) ++ be8 (uint64OfInt p.Y))
  else
    some (be8 0 ++ be8 0)

/-- The crc64 checksum seeding the apple generator (`state.go` lines
167-180): one 16-byte `Write` per snake, in slot order. -/
def appleSeed (snakes : List Snake) : Option Nat :=
  snakes.foldl
    (fun acc snake =>
      match acc, snakeSeedBytes snake with
      | some crc, some bs => some (crc64Write crc bs)
      | _, _ => none)
    (some 0)

/-! ## `math/rand` (`rng.go`, `rand.go`)

The generator behind `rand.New(rand.NewSource(seed))`: an additive
lagged-Fibonacci generator with lags 607/273 over `uint64`, seeded from a
Lehmer LCG xored against the constant `rng_cooked` table. -/

/-- The 607-word `rng_cooked` table of `math/rand/rng.go` (as `uint64`
values): the state of the lagged-Fibonacci generator after the documented
7.8e12-step warmup from seed 1. -/
def rngCooked : List Nat := [
  14264951931575795690,
  13869761123581321051,
  1395769623340756751,
  5333664234075297259,
  12099064557210750862,
  9033628115061424579,
  7143218595135194537,
  4812947590706362721,
  7937252194349799378,
  5307299880338848416,
  8209348851763925077,
  11339113636173589852,
  4593015457530856296,
  8140875735541888011,
  12542801278119864834,
  17843187685045096842,
  10950446080338395308,
  113108499721038619,
  4569519971459345583,
  14286205895930090539,
  11610990808113840232,
  11939503381211461920,
  6559392774825876886,
  7650093201692370310,
  7684323884043752161,
  9481239872850807198,
  15816828556263790972,
  271327514973697897,
  12012758484194894092,
  1065192797246149621,
  3344507881999356393,
  13683169978634842441,
  7465081662728599889,
  1014950805555097187,
  13672812766200766583,
  12704481403293278451,
  2418672789110888383,
  5796562887576294778,
  4484266064449540171,
  3738982361971787048,
  13746969221367130231,
  10530508058128498,
  17857205820137121926,
  11848681966483567436,
  8660405965245884302,
  10162832508971942,
  15764086717816593199,
  7031802312784620857,
  6240911277345944669,
  831864355460801054,
  17227806174396928699,
  2116287251661052151,
  2202309800992166967,
  9161020366945053561,
  4069299552407763864,
  4936383537992622449,
  457351505131524928,
  9565567082782955162,
  12071143719671376317,
  11291392152841152326,
  4368649989588021065,
  887231587095185257,
  14786963543741352304,
  16039597237106726104,
  5616972787034086048,
  17695181340249612374,
  1686575021641186857,
  13268856374929037810,
  13467528252056554731,
  17071589370638353195,
  5632136521049761902,
  10056655178912611080,
  18253098545223853001,
  12466955171518863100,
  13539743138659252895,
  18161222016820773788,
  15670312443665209909,
  1679342092332374735,
  6050638460742422078,
  16216892756364357390,
  16864249889369069417,
  5881353426285907985,
  812786550756860885,
  4541845584483343330,
  11948842253131784894,
  4980675660146853729,
  14434141117458011869,
  18117655355845306629,
  15549814841604860090,
  1495812843684243920,
  16293123615653903827,
  7370257291860230865,
  15980301312211718069,
  4706794511633873654,
  17047892504682674471,
  8549875090542453214,
  9257022866333371964,
  10552290472606098451,
  7297902601803624459,
  1011190183918857495,
  11461397073672630752,
  5147159997473910359,
  10119884128415298790,
  2659470849286379941,
  6097729358393448602,
  10955098023159529492,
  13329627878838588519,
  17550527247576311316,
  17700883657540850210,
  5803876044675762232,
  17658789817714997470,
  15212224893505847052,
  13939209333958727718,
  16789544008119260922,
  505808562678895611,
  14293470217549839178,
  10065482703630647321,
  572156825025677802,
  1791881013492340891,
  3393267094866038768,
  13002093887327012317,
  2352769483186201278,
  10515831620702143266,
  18121279080529864227,
  15005181073998939344,
  11957330830884268321,
  5092019688680754699,
  18219496591627302649,
  4234737173186232084,
  5027558287275472836,
  4635198586344772304,
  17910710930121915159,
  5907508150730407386,
  10008128292328720260,
  972392927514829904,
  14645429731662950920,
  14381792679824059699,
  18271903715413419033,
  2407211146698877100,
  16806654253375875377,
  3940796514530962282,
  12564546667899982183,
  3095313889586102949,
  16628693932543014518,
  5832080132947175283,
  7890064875145919662,
  8184139210799583195,
  10373231898264001938,
  10687969280694987110,
  13865020044042767681,
  3516491885471466898,
  10179660558646433500,
  6657089965014657519,
  5220884358887979358,
  1796677326474620641,
  5340761970648932916,
  1147977171614181568,
  5066037465548252321,
  2574765911837859848,
  1085848279845204775,
  12573479566723166167,
  6116438694366558490,
  2107701075971293812,
  11026666102776045075,
  2469478054175558874,
  16591615317874741792,
  13015280404698453334,
  9408419007971232445,
  11480467793368215456,
  7217693971077460129,
  10132421989934280067,
  7196649268545224266,
  14861032382255645407,
  13178916982282740991,
  8057528650917418961,
  13362640477155903451,
  15845298625368343867,
  10596733173657457249,
  6527366231383600011,
  3507654575162700890,
  9202058512774729859,
  1954818376891585542,
  15863752943984951513,
  8299563319178235687,
  13125239392073730181,
  7046310742295574065,
  16070567428188766040,
  10796010137373643861,
  8850422670118399721,
  3631909142291992901,
  5158881091950831288,
  12106330354197897401,
  4763258931815816403,
  6280052734341785344,
  13467161445059740658,
  2043464728020827976,
  15768672502876861273,
  4562580375758598164,
  5495451168795427352,
  10961684898444926903,
  553004618757816492,
  6895160632757959823,
  17456995959119460979,
  7139506338801360852,
  17774263259242767477,
  5535668688139305547,
  2430933853350256242,
  14625313294717976884,
  17383012075962504607,
  15380865868455546174,
  7632066283658143750,
  6308328381617103346,
  3681878764086140361,
  3289686137190109749,
  6587997200611086848,
  244714774258135476,
  13303160414271911908,
  8090302575944624335,
  2945117363431356361,
  10087696432703516853,
  3009039260312620700,
  17653399496937309839,
  401084700045993341,
  16477994483293470729,
  4707864159563588614,
  14863620567818269759,
  15205879749544773701,
  12538470279136985913,
  14727219615626694234,
  13165343404029969690,
  8118566580304798074,
  3839261274019871296,
  7062410411742090847,
  9964753039834983476,
  6027994129690250817,
  11721202031004839738,
  15474762371281004642,
  10592302284758294641,
  8809096399316380241,
  6492004350391900708,
  2462145737463489636,
  9628200455775074982,
  13376398471086466403,
  9485157752110251748,
  14688087421454847165,
  9816082441233538825,
  6764129236657751224,
  17737027755394133257,
  15043715700656690016,
  9608670561538565719,
  14447507040292975275,
  15526503678193577953,
  16373494598164147200,
  368107899140673753,
  12338558871413087366,
  12139008390439056859,
  4782583894627718279,
  6718292300699989587,
  8387085186914375220,
  3387513132024756289,
  4654329375432538231,
  18154039598218157410,
  14597745473731095081,
  7623042350483453954,
  7725442901813263321,
  9186225467561587250,
  13314399326452279163,
  11581003643347355608,
  2530936820058611833,
  1636551876240043639,
  14788036711189741607,
  1452244145334316253,
  11285014417874466637,
  10502952303350069844,
  9108481583171221009,
  15246650723588825617,
  5007630032676973346,
  2153168792952589781,
  6720334534964750538,
  15264918527989569913,
  3433922409283786309,
  2285479922797300912,
  3110614940896576130,
  15589931627577618701,
  14642163456520912317,
  7163298419643543757,
  4891138053923696990,
  580618510277907015,
  1684034065251686769,
  4429514767357295841,
  9553718615410225813,
  10343010032666950483,
  7177515271653460134,
  4589042248470800257,
  16916660665913780371,
  143607045258444228,
  246994305896273627,
  10089789361657875095,
  6473547110565816071,
  3092379936208876896,
  2058427839513754051,
  14357156745381643746,
  8785882556301281247,
  15372704703695943419,
  17809214218309247943,
  6137678347805511274,
  11293819221291745814,
  5708223427705576541,
  15223029929313020312,
  4358391411789012426,
  325123008708389849,
  6837621693887290924,
  4843721905315627004,
  15234023259004052223,
  14621724235818650460,
  4602025990114250980,
  1044646352569048800,
  9106614159853161675,
  10052628152083369077,
  14142656405957772808,
  2681532557646850893,
  3681559472488511871,
  14531371555812989843,
  15557502425297605082,
  11882080269771313412,
  10386685901906962095,
  581945337509520675,
  3648778920718647903,
  13647045283161320222,
  10844171820851731551,
  220828013409515943,
  17373756736854165569,
  4287360518296753003,
  13813372221700659651,
  5513660857261085186,
  16188201137247550083,
  9702363725205551843,
  8746140185685648781,
  228500091334420247,
  1356187007457302238,
  3019253992034194581,
  3152601605678500003,
  9653524789560778021,
  5559581553696971176,
  4916432985369275664,
  9886946968589330199,
  12644145875782507884,
  2868348622579915573,
  11222691170899194328,
  12552061555491058531,
  2587672709781371173,
  10740627350384175141,
  3092343956317362483,
  12885624555861839916,
  972445599196498113,
  16888237472730735175,
  1708913533482282562,
  16141189199523644302,
  12441001059400088708,
  11793415064076482915,
  17963160876398400421,
  2488075924621352812,
  13917374432242212476,
  13783000518653290164,
  2997203966153298104,
  1282559373026354493,
  240113143146674385,
  8665713329246516443,
  628141331766346752,
  13795322854041546284,
  10696183225007011216,
  7596648026010355826,
  15314591454609200551,
  7834161864828164065,
  7103445518877254909,
  4390861237357459201,
  13666025901095347542,
  18126854441702107176,
  622261699494173647,
  15260633287151989056,
  9727776984920484926,
  16498587563071888869,
  10234548817710777208,
  11418122142478236871,
  2623071828615234808,
  14380685764928611916,
  12961777148821377852,
  11763139560931505378,
  11690656433204045150,
  5256026990536851868,
  7841086888628396109,
  6640857538655893162,
  10425459375893093306,
  11336887029295491786,
  16757722932197707211,
  14148656771753260553,
  14368995808332269613,
  17448512916989748140,
  2719520354384050532,
  9132346697815513771,
  4332154495710163773,
  16361161630949122724,
  6994721091344268833,
  15890600611723824742,
  9878812082581453307,
  59934747298466858,
  15348346064932812213,
  18181146817510141226,
  2332206071942466437,
  10924428749141145435,
  3154897383618636503,
  10861138218242383335,
  11683893314622352341,
  197309393502684135,
  9867049891240043123,
  2543179307861934850,
  4350769010207485119,
  13978024126265443480,
  11238967539496290320,
  17222431495831234416,
  4287946071480840813,
  8362686366770308971,
  6486469209321732151,
  12841099882696571834,
  16777725562689078052,
  4450022655153542367,
  10828567777068311557,
  14550386602160284195,
  13849947850405104128,
  11915594057452480957,
  9464417610572025676,
  14321419011481869818,
  17140254332315506072,
  10108189127152306387,
  5329160409530630596,
  7790979528857726136,
  4955070238059373407,
  14141909312277450110,
  12231448220805180437,
  3007769226071157901,
  11693718272472578828,
  8928702772696731736,
  7856187920214445904,
  13698246622246750693,
  7900176660600710914,
  11363943164771002480,
  11648817094119975779,
  11709427190196623638,
  4186670094382025798,
  1883939007446035042,
  18032038080929643793,
  3734134241178479257,
  4065968871360089196,
  6953124200385847784,
  10529058851593674865,
  10861111135869233455,
  12879497697802769017,
  13190131671487942828,
  3106378204088556331,
  15552271859633225618,
  4565385105440252958,
  1979884289539493806,
  11555165223775641233,
  3783206694208922581,
  8464961209802336085,
  2843963751609577687,
  3030678195484896323,
  14017089610950548412,
  4459239494808162889,
  402587895800087237,
  8057891408711167515,
  4541888170938985079,
  1042662272908816815,
  14780675093977344766,
  2647678726283249984,
  2144477441549833761,
  15029724252210162895,
  16341143040328679431,
  5916597177708541638,
  9685969752307097169,
  8833658097025758785,
  5970273481425315300,
  563813119381731307,
  11991721587507472823,
  1598828206250873866,
  14429765684258333918,
  15458415522564037631,
  12375589438869415304,
  8469693267274066490,
  125672920241807416,
  14534451660878836746,
  15887126969165267395,
  17960220331903527524,
  13711411811846837686,
  5923302823487327109,
  9364263827937879044,
  16638314830248350098,
  7990420780896957397,
  4317817392807076702,
  3625184369705367340,
  11964094802142898511,
  14966472046557534152,
  15221270677363814967,
  18077865378207259971,
  14465580072287683609,
  9924710936745763006,
  7609280429197514109,
  3020985755112334161,
  15874694743910288674,
  2635195723621160615,
  5144520864246028816,
  10258458552582605636,
  1567242097116389047,
  8172389260191636581,
  15561192388284068081,
  11386384603851234733,
  11966562939745038489,
  11129739670076099235,
  6011544915663598137,
  5932255307352610768,
  2241128460406315459,
  10118876933071471396,
  3094483003111372717,
  4583857460292963101,
  9079887171656594975,
  18062661218785487211,
  14986112424097833681,
  4225072055348026230,
  11061592635243808871,
  3801620336801580414,
  18046898656934849664,
  10999989642439876143,
  7899055018877642622,
  5421679761463003041,
  5521102963086275121,
  13471651480414141706,
  8735487530905098534,
  10983899128428468786,
  16365857086512521702,
  17446028909781993931,
  14192903601778480131,
  12617847979051648288,
  6424174453260338141,
  359248545074932887,
  12497023319686506406,
  16020478236651914404,
  3030918217665093212,
  9368972871472089844,
  15259947892920402041,
  740416251634527158,
  16303799672304711390,
  6951781370868335478,
  399922722363687927,
  9518274351302028993,
  17068322973193954331,
  10103692895489484850,
  15416027717663451387,
  9634976723239486196,
  9026808440365124461,
  6440783557497587732,
  4615674634722404292,
  539897290441580544,
  2096238225866883852,
  8751955639408182687,
  11130596944907065411,
  7381039757301768559,
  6157238513393239656,
  16973366268768933383,
  8629571604380892756,
  5280433031239081479,
  7101611890139813254,
  2479018537985767835,
  7169176924412769570,
  17165438534647979110,
  10581131765910333496,
  2278447439451174845,
  3625338785743880657,
  6477479539006708521,
  8976185375579272206,
  14734743591566611928,
  1326024180520890843,
  7537449876596048829,
  5464680203499696154,
  3189671183162196045,
  6346751753565857109,
  9464532024175406115,
  12319165486513457861,
  18201704883591085967,
  12126166699127923024,
  7208698530190629697,
  7276901792339343736,
  10955757266169218948,
  4133292154170828382,
  2918308698224194548,
  10742833434791920266,
  14517306749471367572,
  14146200990878228472,
  12102583570351201449,
  5896236396443472108,
  17688415852206528233,
  16552392433726400548,
  18138843753869264396,
  12168274672532238855,
  16275451110348240942,
  8382142935188824023,
  9103922860780351547,
  4152330101494654406
]

/-- `int32max` of `rng.go`. -/
def int32max : Nat := 2 ^ 31 - 1

/-- `seedrand` of `rng.go`: `x = 48271 * x mod (2^31 - 1)` via
Schrage's trick. -/
def seedrand (x : Nat) : Nat :=
  let hi : Nat := x / 44488
  let lo : Nat := x % 44488
  let x' : Int := 48271 * lo - 3399 * hi
  (if x' < 0 then x' + (int32max : Int) else x').toNat

/-- The state of `rngSource`: the 607-word vector and the two lag
cursors. -/
structure rngSource where
  vec : List Nat
  tap : Nat
  feed : Nat
deriving DecidableEq, Repr

/-- Normalization of the seed at the top of `rngSource.Seed`:
`seed %= int32max` (Go `%` truncates), made positive, `0` replaced by
`89482311`. -/
def seedInit (seed : Int) : Nat :=
  let s := Int.tmod seed (int32max : Int)
  let s := if s < 0 then s + (int32max : Int) else s
  (if s = 0 then (89482311 : Int) else s).toNat

/-- `n` iterations of `seedrand` (the 20 discarded warmup draws of
`rngSource.Seed`). -/
def seedBurn : Nat → Nat → Nat
  | 0, x => x
  | n + 1, x => seedBurn n (seedrand x)

/-- One vector entry of `rngSource.Seed`: three `seedrand` draws packed as
`x1<<40 ^ x2<<20 ^ x3`, xored with the matching `rng_cooked` word. -/
def seedEntry (x cooked : Nat) : Nat × Nat :=
  let x1 := seedrand x
  let x2 := seedrand x1
  let x3 := seedrand x2
  ((((x1 <<< 40) % 2 ^ 64) ^^^ ((x2 <<< 20) % 2 ^ 64) ^^^ x3) ^^^ cooked, x3)

/-- One iteration of the seeding loop: push the new vector word, keep the
evolving LCG value. -/
def seedStep (acc : List Nat × Nat) (c : Nat) : List Nat × Nat :=
  let (u, x') := seedEntry acc.2 c
  (u :: acc.1, x')

/-- `rngSource.Seed` (`rng.go`): `tap = 0`, `feed = 607 - 273`, vector
filled from the LCG and `rng_cooked`. -/
def rngSource.Seed (seed : Int) : rngSource :=
  let x0 := seedBurn 20 (seedInit seed)
  let acc := rngCooked.foldl seedStep ([], x0)
  { vec := acc.1.reverse, tap := 0, feed := 607 - 273 }

/-- The vector built by the seeding loop, in order: entry `i` packs the
LCG values `3 i + 1 .. 3 i + 3` against cooked word `i` (used to evaluate
`rngSource.Seed` with shallow recursion, through the closed form of the
LCG). -/
def seedVecList (x : Nat) : List Nat → List Nat
  | [] => []
  | c :: rest => (seedEntry x c).1 :: seedVecList (seedEntry x c).2 rest

/-- The seeded vector of `rand.NewSource` for checksum
`9957458776116166655` (the seed shared by every single-snake
configuration whose 16 contributed bytes are all zero). -/
def seedVecA : List Nat := [
  12873048119928123638,
  17138973529562845450,
  14442809985258620991,
  9201262730153690409,
  5876066418266928018,
  997286164841986561,
  15483373550420610612,
  5987924412435569764,
  11169454040260670755,
  8473599748151755431,
  11980003522170501609,
  1565744592269872259,
  15226061399098659573,
  8987918168496733808,
  1014997205228090571,
  16039647046788267403,
  3180831392529379664,
  9862168354271467986,
  15559835418360171701,
  9632530123854596740,
  8355303343704703682,
  10107282283692499984,
  5528250196637657183,
  8003275842647732331,
  11446010576217537728,
  9720344161129120355,
  10139283970263112093,
  2131422945060568386,
  17289891888896869299,
  6542315041408064539,
  1366689040898183255,
  17027178327328712421,
  11951762032879728606,
  7182160615240154688,
  14239919174395082044,
  13434186193806683693,
  9655810867212176286,
  16836949853349801551,
  10813755438739321099,
  11363801719002833105,
  11899328179673088192,
  5194364226848175970,
  18130099503305940067,
  5764285644716197579,
  4656315248124118435,
  14766146632354363351,
  8478731571958768754,
  14859933920229251464,
  2572802852681599074,
  369963396189245227,
  2332593764737401911,
  13082810596647672860,
  17489258793545541831,
  11571348825619429028,
  13426870026078993399,
  1817228479681395686,
  393114147655790532,
  16481769607408760575,
  16864151388289091490,
  13757005987353528082,
  17053596215108218889,
  6021051555375806996,
  14928668947237229246,
  2722925432338704063,
  16357313465083539744,
  15188153975292089802,
  11840232177835955434,
  3165002832530731916,
  1586597797942109894,
  12815167410100247024,
  6262029498228455596,
  17838744775554193042,
  14881931206965439597,
  16047513837069079126,
  11729100401773753142,
  8484512199449692530,
  9147060923729669001,
  3768877346869526337,
  16980423848728618977,
  17491602593805769380,
  18247290555912639382,
  2913456530020895269,
  1152573571025200824,
  12005307701100322756,
  143162597206114302,
  13867929903087417763,
  5460735897675661850,
  6363053631674560869,
  7192437342858773027,
  4803344037885686880,
  9625455059277758743,
  6051003416369276424,
  12108376693624089045,
  703615811980594792,
  18445687268530132286,
  18273337956205402211,
  8330650836829857139,
  2264320797924202918,
  12344367142847509372,
  1534665125030589894,
  1743726852009092282,
  61083801316561712,
  1823100711739248825,
  4401201460800276475,
  12039986067086188908,
  13343666763728061022,
  18392629260674785817,
  15077574420690663529,
  15773683485133214699,
  16865890261454323248,
  10479035717992485013,
  10932911631513799682,
  6865471139285740357,
  8276437567410207667,
  16864335934579396160,
  15414150650822462035,
  9050680539122940672,
  2079071564124167867,
  1157401530027415330,
  11868413673571499647,
  9240849363920243516,
  13077987821662949725,
  14255994822647401454,
  13152938150980525409,
  6508173306513187036,
  7727251500722603033,
  5341715664737606810,
  12192032704323936662,
  18038932348580929783,
  2956889444741244121,
  8120672797824935082,
  8922688534849891686,
  4677335565895508522,
  1027645116739622462,
  14053949232467365137,
  11358451306560414625,
  8193701351232299316,
  7024740395182238583,
  12725930082767512156,
  7137757959940880256,
  10957227818120212592,
  14294316280979801841,
  4375121458621182258,
  1848256996345647019,
  6293548240540373453,
  1725295902845923127,
  2089291765970259760,
  4509302558772801434,
  14654361727849616218,
  7899135932955695391,
  16413043865664316162,
  8630997816611163474,
  13620999932525435662,
  14776220444406553539,
  1194745013718361217,
  1456386055757730651,
  1657995464638372829,
  12965352143253724549,
  14635428341838615846,
  5766837518077787182,
  427751307707864363,
  3096774372501660737,
  17987946196211669490,
  13801290917616746378,
  15083752036206787626,
  7042471292898626405,
  7256977632345313962,
  15389978369890058512,
  6067372274636946248,
  4263197784569366757,
  2647492934761373244,
  1716331718647816749,
  8843692346400369884,
  6265119787321918996,
  4490639457873275346,
  7527353684076250642,
  17904229111349496362,
  13504578546862280553,
  13210856504709532494,
  5958889507984373262,
  5929354928664377284,
  10161068183697702855,
  7385922155679084859,
  2146178543401724433,
  717328668817496363,
  11165163485402926694,
  12510418740068311891,
  4329877577165412218,
  2855785788988292897,
  11057885930888615496,
  5723256653257644543,
  10563855459994946942,
  2208944604887116380,
  6722464457638890737,
  11213743243437575616,
  15358640797748770300,
  15305590292236687765,
  12691095776515291807,
  12921953815937801637,
  10777815142451398407,
  8556536858461103872,
  2884436349410605827,
  10770856392978079109,
  18316963068275814000,
  9017037573402442164,
  5598408265532718324,
  7370425663039176992,
  14229515546859958599,
  3489589999774358034,
  16803828096610865511,
  6447921844867091202,
  11688703834358231907,
  10964394708649046988,
  1301969357380260279,
  9861660607876402271,
  7714990213023151402,
  2418825109875468114,
  12993895345243641186,
  7154767415616455887,
  14252553990897665346,
  10586408679144648237,
  11826228153896521914,
  6809027500078374878,
  7844706603904512068,
  15618846053504500719,
  3903253488037353240,
  16816299243666150456,
  8818697610061311268,
  5279830974620444130,
  17761285376165677379,
  1821679607903887822,
  4045379286594240292,
  343543521661338797,
  1742882966085793096,
  1095802401259786776,
  11488607480299697608,
  6765939352192697928,
  1241408980957974666,
  2653711312479019134,
  18383142533931393320,
  10086391854241787020,
  10318999816936232430,
  3915320040671547459,
  18186327861834266544,
  12819609789037606200,
  12299405122183861126,
  13599768481762721751,
  17889008560181481994,
  18274769580062273651,
  7010148028209151131,
  11815162489623416963,
  15532049063246988439,
  14541983648427344355,
  3546553657606868030,
  1770491588235794349,
  8026335650856715564,
  2483172041090983656,
  8260455886685587181,
  4589081373390182304,
  11698424488922986705,
  2076605615765862688,
  14947219903246814206,
  2776811517812241721,
  1745302181091424122,
  3900621148196623833,
  10088518761560938557,
  13252764415175810937,
  4206957165009712919,
  960437199545212791,
  5614127480277395544,
  804056705444497405,
  8953885390166070337,
  13313298773765382007,
  11033801269085416268,
  11749481063085102800,
  4452835127233596492,
  17624724634493007879,
  15685492484181518361,
  4995120317603963013,
  10703479988197601578,
  3296498045893750122,
  16243475220449844390,
  13108484804997565011,
  5284446245535609609,
  4889520847142697782,
  17467982895416291225,
  2255112052598452706,
  8456022605527262235,
  553273668987751460,
  10656672431354759806,
  13126767867834288880,
  5198197788977269904,
  15416750915003587426,
  6859700565290217871,
  1820661861982664377,
  6114879713155040104,
  39502723807886253,
  3852322525139480307,
  12571256537414407528,
  11219638496107359794,
  8903813168860394766,
  9613949115829185623,
  8624465201492817998,
  9908802298207885960,
  11991516998310740672,
  15301697735918479982,
  4005144393023586514,
  17702682990016444832,
  2088004019684916531,
  15978807685203414347,
  4568719393077399930,
  6311881401236940796,
  17498350926302344323,
  18291365065362550098,
  18165996240546229060,
  13968429290248944765,
  13263782369305051276,
  2427340745996535978,
  15373432777680679595,
  16478847936991463742,
  6896962414201531764,
  1324924734395340858,
  14823558590425061288,
  12683573390888965446,
  17320567755796139476,
  5698931138638259040,
  12726520588194599075,
  4248792000286753261,
  8411390186389983627,
  713079453412425123,
  16566996764099642841,
  17395285173471855753,
  4953901729732981759,
  3081498843483591477,
  6685715510582904387,
  17178514486474836392,
  565243687598770671,
  11261962764267931567,
  8163220456951989219,
  17255570155865582848,
  147852892287805802,
  13439667174890458423,
  10078846342608085171,
  7983193827771235213,
  3007810789349231241,
  1792649366688433805,
  18125794235137807913,
  5292716613103860797,
  5052670177237425195,
  8686685951744568132,
  8879464043642195308,
  14878757887952357477,
  6679866186937243710,
  6429965322595185759,
  12461669504789396742,
  14458882503638487932,
  7933512057070069719,
  16016926200053952641,
  9615025279129767510,
  8614963877340075890,
  7216748141644334825,
  7868392763443126208,
  11564871283500998845,
  12827868701962997705,
  7806251099600133382,
  8716191545227131902,
  9488498726383113161,
  12583080144994852516,
  2231915945853888961,
  489062225038540666,
  16048708427451070751,
  3948785297343061838,
  15791543267735306513,
  10023789199799245666,
  15098673436153318908,
  3884220032700705474,
  9757791344982271735,
  11759698109459736513,
  2703671448735891485,
  14419814656503747160,
  1859133726278572705,
  9292428677584106820,
  7853131265264096784,
  8932489382724669153,
  11623978133929628586,
  8982716022073987028,
  16767510152874095645,
  11884673798013271071,
  3581624808153036661,
  1712581609095695872,
  17259461620223088428,
  16483253314620228289,
  411233802162624509,
  12512859393042615470,
  15814253550011859408,
  140901901257218530,
  17731817634292080473,
  4932598918869187842,
  1845182273642193473,
  17095898915332561238,
  12473932054660366894,
  8582344995466923731,
  14014984903730860603,
  3243499491078017480,
  17286997607626253854,
  16737395590355726063,
  17851256098943251528,
  14371907242927259313,
  17910425857490876179,
  2020597247439815375,
  16457710058811425684,
  588621786704141635,
  12079141033001116524,
  12662533777503805851,
  9984457957527055856,
  17484310154492292527,
  14786979936012131547,
  12565124651619927645,
  17602562690542184564,
  17303788785758382579,
  4965705990982101117,
  14463423198380831587,
  6115501845210915732,
  9652499658872637005,
  3839854477678524230,
  5950557959182189758,
  9494519847688809519,
  6975060636489570810,
  323441339436142781,
  14082524448689245941,
  13981838701029943074,
  849333533659188851,
  4060956789878921649,
  13511718878603529315,
  14199792303937058030,
  2910230430470318221,
  6069232496102232740,
  3093998677546735356,
  2071896699096815769,
  4248604227920719218,
  5607923061540539988,
  5333953344061519276,
  9411257215668630639,
  4829141626507822854,
  5615207113244081646,
  1208809592648183070,
  15859296181351849397,
  3339874337090909376,
  5348988983673035565,
  12894538652379392424,
  915285745327284871,
  7383502235225471552,
  1980824319377842611,
  4605347481911872926,
  4794040557976044120,
  16541397724035609789,
  7195162234452186386,
  16209879472095620682,
  4071239542511669538,
  13250632066816846699,
  16301101898339513422,
  12442621409307561567,
  10653100806761340,
  5874571311678935361,
  13072336428433544455,
  223369099507393601,
  14924143390256021305,
  8393135600342645339,
  5907547174141291311,
  4744639667084762367,
  8804158254557379889,
  7738248244792923457,
  4026389068876918610,
  17394682303480188716,
  15361278819365807460,
  12208085745657605007,
  4995544851274902477,
  17877993674323185360,
  11752060647332819376,
  9875587872426866972,
  17278490761641258464,
  884647956342479003,
  16951825191587168235,
  6379087243852140687,
  6591126137011748335,
  9954440983878178716,
  3035488475909986824,
  8453882965851271436,
  1323656695667771015,
  7557897458375818113,
  15075069278318456706,
  294684422814001242,
  13694943713499337950,
  15721675464284742971,
  17433659421268765663,
  3150074632112604505,
  17017787642583790790,
  10089247193677607093,
  4086615471035119728,
  11124656894988805276,
  4651781127295373944,
  2818308792857131264,
  3914186566197355387,
  2124491041672776001,
  8449284876620237223,
  4082511361997826565,
  10664671965723842459,
  6518727674723363122,
  13408985583979334493,
  5204785452107389809,
  17300823420080656011,
  5253616341429511067,
  1554462075779595374,
  3507589664007885942,
  9968238423794362819,
  16059347468539159851,
  17882288482657905202,
  7347079338836699898,
  17014626306335981983,
  5309830910279504775,
  8553107135248277701,
  17611287735268749175,
  9983247203305219660,
  12736857541341614063,
  976346391719848714,
  10732151708542577807,
  12920057756599269992,
  10763882042161482920,
  13549663258132360898,
  10548697854565275348,
  13395771800864300297,
  1405600847860356990,
  15848507432137092527,
  6374516467804884366,
  3383008681910141357,
  6703587438002203679,
  12167356995405703660,
  13340068063135919924,
  17671712247138977907,
  12581566097901543843,
  16321056125511728069,
  16198800033495738232,
  5664032766276987314,
  8728947481569584274,
  11004610031183718608,
  10794317836882643507,
  13479322605321662108,
  15272681574419173805,
  17016595281856262450,
  15049256814146343308,
  8192395117738337144,
  13317273018322100342,
  7494737450156801387,
  8343557066493117614,
  6728025332555980077,
  182709881079177929,
  15231277534848325464,
  1507788621148294890,
  11596689389835520900,
  935440657732657518,
  12284596007743498441,
  10389862179288175371,
  5200799294375179573,
  2189177260781749910,
  6170656026477215527,
  16032218278678250767,
  11003047524167649315,
  7949535136095021369,
  14317751971035679823,
  17768834838843530495,
  18354491900273835917,
  7710492894039997165,
  10472957191078479298,
  1926588126925966772,
  8426305947718951788,
  13155421568852096970,
  15582485198719782991,
  6355497029830056555,
  8704777309948890037,
  11990084526746676478,
  1984948606665958340,
  5405627017450876327,
  10833620379954557985,
  11726130011610569304,
  6893138481161641340,
  15604767109331847756,
  12788316032517840683,
  6875997248205891412,
  18071981317395186974,
  14359645316505193229,
  13854932230311375322,
  8369064257175551987,
  16740038705964529222,
  5936365420393768455,
  6181905044121448221,
  6365361939217797597,
  17815055172238266383,
  16210229777471558737,
  8096377171580202730,
  2483813569349597609,
  6926869726399846491,
  16130560331356587540,
  12490188296924630914,
  7146637461899382449,
  13255957485025214706,
  118607457016012183,
  14263412163894437980]

/-- The seeded vector for checksum `10941249004091998207` (two alive
heads `(0,1)` and `(1,1)`). -/
def seedVecB : List Nat := [
  60838110023170617,
  15742950161331877618,
  454139466917926437,
  13241451726166990088,
  16481045545550392496,
  14145730423211382750,
  2230907965947362144,
  154460885464129389,
  15358901628515124708,
  17637357893648570328,
  10607418947826702142,
  11432219328297537540,
  8514252071098920417,
  938385727424746050,
  15027023284934102366,
  14742411732340798113,
  17133613320968875245,
  11256145751835476281,
  10796280475942371451,
  3088626430161066005,
  3510263785308134101,
  9933633084564842136,
  7444631740934165119,
  3061571996300720793,
  13180043776363410824,
  16715161674058618395,
  8861611633509367317,
  17384474152706352183,
  18376828312403489855,
  8283666971978978121,
  936259933754708526,
  7123470727698603591,
  16345516423735091191,
  494844836447437077,
  9061369137210935279,
  10290008558558577650,
  14092101262775275247,
  2502441699632086675,
  499418016980578539,
  14394578751949018908,
  4736999725398503487,
  5638054701012188522,
  15044097735800420486,
  7857473941872623516,
  11815812895632710061,
  13525584778821010793,
  12968795343331128903,
  14178830106779008805,
  10412667682055721226,
  5398056334983533678,
  9542449580949382633,
  2930069961358938167,
  4514015526011239111,
  15381391420054322205,
  12254344721303692268,
  12464129002420471634,
  2683018075605182260,
  6260330528025070156,
  8906545156902395472,
  16052378664681482093,
  14004737046459067491,
  10571816377338854755,
  5090858177034052931,
  15987429882907588098,
  5250753677300174529,
  6724868997121976327,
  9857157873140429500,
  13131417893400664093,
  16285572652258611577,
  2143365855813841925,
  3989247672899770509,
  5742045579854793418,
  9864479285409995586,
  8023728493407783322,
  10705556737640710604,
  2736829439751946110,
  1704651209297539044,
  6605019622549425460,
  17885594634159886261,
  5235169203994203006,
  2452658135677138457,
  227526813500265547,
  7696648457862588280,
  16856176902211055735,
  9886278685302705302,
  10204294723132784449,
  10024815138595937875,
  1487479874058881484,
  3202232356277622372,
  3584859161947141101,
  6951657709860240383,
  14081178823528489730,
  11245878634692157938,
  6942157971781874985,
  4561607245501466426,
  663667008061464803,
  17467035437788923253,
  12498997858814678761,
  18354814211582457151,
  1213445835835528689,
  17783908915468290901,
  591686589187311385,
  7625952990181064987,
  15807460610130283522,
  12345424505041630660,
  5715753351356245875,
  14807725557654983878,
  2811611052808182711,
  12378425375406458793,
  2615499057767868305,
  1358779323743623038,
  15873741576864382580,
  5908052841563539177,
  9672356662854331886,
  4541701183040015804,
  13918309628100908774,
  18421393247142996745,
  5329322777316901865,
  8980708853496349800,
  8853366846913485914,
  11791266029670628580,
  10991792634906195368,
  9561264221841301726,
  17866047266600787857,
  13286147841152235458,
  12425268862665754365,
  5667960206739384697,
  10742636355642190702,
  14429851947184125838,
  8852320637340017879,
  14326756795758151760,
  2354334193617648854,
  2664906614656764090,
  12685826304516222509,
  12549199076420767876,
  17666852221515814143,
  9236347039190231039,
  12780932183592296340,
  11752947752030422122,
  16906573130382142793,
  1659143320153293885,
  3791825231227264359,
  15787853490296638880,
  9000356989086183136,
  2550484433168072555,
  2572463160294337377,
  9005465455379595779,
  10325953692824613203,
  10952570447754827388,
  4625199690067729023,
  9008550427748011293,
  16405263895418231038,
  8093648854186039242,
  11575658464917094206,
  9636583593537524673,
  2185995626549189122,
  10997440438840393437,
  9012657276326241784,
  4532800839372477393,
  14321364808517441336,
  5178510563672466155,
  17869614366493919738,
  6304479719807063901,
  12084885517904216292,
  2473427706843263231,
  10752295078380792110,
  7727723759620796691,
  2151218880267707130,
  9873070652700825735,
  4057731564598386388,
  10523216315825427838,
  17229711514594946529,
  11321071449741722452,
  9819693085480928472,
  12753884344363998096,
  4012089847663563312,
  2087275820465141248,
  9424498825625647456,
  8047257591786690482,
  14870947093346089389,
  12138375848224798885,
  5985317367614523282,
  267170813922682792,
  12900312364245974659,
  834481320313241280,
  11050064651020632753,
  15317046360332179075,
  3369903094993088463,
  2524337461308334930,
  15358788463935807307,
  673659693762567191,
  14952245329857828694,
  16937535499885710042,
  1393959118029999297,
  17150076967108358451,
  6760909986311003960,
  9933207785422591570,
  13758585052479041956,
  2144415500243260351,
  13480500018448842651,
  17456076107918958915,
  948328139945895618,
  2928919100355227130,
  17183085737379515597,
  5603011849338588735,
  14038587156106734943,
  9629390317267754172,
  9439376500575784882,
  9396374319688666532,
  15224988450578283667,
  17880463221256892731,
  2216192111632964079,
  9310855563955437887,
  16728206564935226867,
  11901395598913435110,
  10223402854942961901,
  5618381648377098882,
  18049023760679585282,
  5850629241673642121,
  2436431643010381131,
  14912723901725167965,
  3625746112111629566,
  2090020418102953964,
  11173555350949791026,
  7697805642217801656,
  7944289467871112064,
  6949822381038290448,
  7504696477308642459,
  7033748575417025829,
  5284342438064176288,
  731056385376946829,
  12908870475943056711,
  4812623015836693644,
  2590567968538121636,
  979168739619255112,
  11793025362423427465,
  12167159139368683707,
  9065656223429030106,
  13309746185691721985,
  9586996223825446833,
  12512710980400023989,
  16249607935678649847,
  17600001046327431730,
  14943762256799603511,
  12716445271712272818,
  14375991065205932645,
  15032971411818519601,
  8792766590692307361,
  13051916539446881149,
  16321411805538463653,
  8683744562523993654,
  2085969984394882534,
  5621637775797544466,
  11564133839046587836,
  8157144573619246937,
  2033231542671452332,
  1133742827832171666,
  11820783168840030651,
  3362514389808112713,
  12482750833093714737,
  884687934730437226,
  13149299061722900464,
  1176259458259196812,
  14282989743788197231,
  5608474490524403026,
  14090478106734991275,
  11361301796269935658,
  4115567127190711649,
  12389253377693540202,
  2370132035046466661,
  6442095936558625451,
  1474304092036245073,
  14499141172788986439,
  7082074899497379835,
  15715481286624707223,
  2785207780805269812,
  1840121774620885401,
  11612906850198606879,
  5173087656842876791,
  8342138518091497973,
  5838707631745868252,
  5389892453769425118,
  6282977753125903542,
  5016624183518553925,
  6119712284128723900,
  1499754133808539509,
  6324327273698159010,
  7183613831035308708,
  13304252297162850548,
  2357324355723693747,
  4068814854240820668,
  13433287357401851343,
  5813696153006540832,
  15468651614325332156,
  5422055492264149997,
  18043616899824405557,
  6160905617447385217,
  16379875766423545192,
  12813145718747312439,
  1531938781473499687,
  8949291181902768576,
  13597733910474267709,
  7259284378162575392,
  12594004187097308542,
  6302296746549567591,
  7890655630989411245,
  1716905353333663722,
  3906068764507087365,
  4408443035928554100,
  17013478385560095085,
  17214923499681109740,
  13286595977068249431,
  17595280521166768630,
  5563483899130629762,
  3819589401333515479,
  1205563607852554374,
  4190748755670282127,
  17373150980999628859,
  13662501383027293570,
  8011147238272747747,
  15089482825218430046,
  2502748384614323909,
  11157923268273825974,
  17301526012976717888,
  1860565987935663877,
  9599564325641531450,
  10215029596002137079,
  15539040544929720639,
  17730290384938135226,
  2779809963370929951,
  14317123540676780301,
  17130917196823625093,
  15016453174760612372,
  18362846939314951403,
  15987887365853357594,
  13409718815627557599,
  9597152594539523868,
  16058998362817371900,
  16661914537111648125,
  5806824976233681056,
  15958420894274963054,
  12597462635279679691,
  8477104891151813786,
  1253568671502603340,
  12335922430145661053,
  13449717553951357548,
  13026983680064090693,
  1301704897139468816,
  4761539496950715040,
  8949389704272977719,
  584258997045497873,
  16737480420355009060,
  7998097919316320771,
  11604060177356818096,
  6119584371904273506,
  4374579973924748739,
  3275635355814010488,
  4430894629200940110,
  12309246642356115600,
  18061287920597238303,
  16847535886975665126,
  13638532098025299493,
  2986704883101756805,
  11442068517276246956,
  18337019898884531328,
  8144309788050186585,
  8269230626808149507,
  606278444848481659,
  13550454376691328978,
  7490512691244774566,
  5976014462512982275,
  16097633500554069262,
  1830802729000610079,
  502067819882374860,
  2787632230852558916,
  15226313391403898220,
  14988549844091219457,
  13688179593515271644,
  13454772028702385744,
  1504913778056793498,
  8547758713282144030,
  7517562133497361970,
  14585652040516074868,
  7112699990564616881,
  15131174929582980126,
  14399160533896939718,
  2765992885637591197,
  9089489083708420519,
  14625353364679326628,
  10886173641296541875,
  14664174484094047267,
  17856999356554975803,
  15185803182487759759,
  7584324775897883059,
  4408022977974260403,
  8409578778402702601,
  6909822417531626085,
  18389939046008972208,
  3361019461338256152,
  8669583457203298268,
  2360520947348929631,
  3033233638411468957,
  6161985204302708395,
  17701004021370693021,
  12809552919736846640,
  13815177396910147342,
  16434831058045333856,
  14032726313502773580,
  18061392800244576855,
  5246605960498742553,
  13970624790104012183,
  18141576061889315354,
  17914805154148104641,
  17726153713690643574,
  14373413211169932804,
  2003584356957336189,
  16434196052996939971,
  17828913450979242448,
  4754352298116700148,
  18061198054752780221,
  4779967444449072284,
  9152588946186930280,
  13553373562921580841,
  3758326704219968197,
  3703234954873308192,
  6398429323255353962,
  4713239869008386958,
  2445505408271269167,
  1662819786665949839,
  6313633200718766990,
  6554283430573637649,
  8422043826868414456,
  2850140659643698350,
  11534803625368588868,
  8844867359165778744,
  15822459834820043195,
  17807966933056943549,
  742547124216018527,
  13849589956390612089,
  11382789626876702135,
  7761010293415379980,
  5517022513971877756,
  5612770241517217074,
  14784720856178836891,
  13354984654509632682,
  12732314551244639138,
  8500955630667128919,
  5039526026911480516,
  17858207730923795708,
  12557319447606205880,
  8561650149348574726,
  15909741970168513913,
  6567467181588737337,
  16581403346217671683,
  9581065662322890242,
  10579091341085345451,
  8255706425095382742,
  17927640999535777478,
  9108503796845538130,
  910992853411331369,
  15168710048878245993,
  11895794346484905394,
  15210533122985152600,
  2662548167117081734,
  16738367056621772161,
  8233781522427109923,
  15025972508120280806,
  826976995109553107,
  2634607663060166354,
  5889347509344343389,
  10323178032664162337,
  15761362650563910592,
  14118105658974912320,
  12798032148942275701,
  15580579454247083276,
  14140439128504858607,
  2364930676990997855,
  1712374757639150341,
  4960185868617148850,
  9079694536748395420,
  8813189449592645971,
  12920336215430771368,
  1921169502404235684,
  5154083270469018411,
  2299969556226136753,
  9990632082880679611,
  2624417137741685869,
  2496969324851776253,
  17728669567104960639,
  13095370042568946809,
  15672964642034117375,
  15158816428637733729,
  8567114824741740067,
  6201904951779317591,
  1867062923366107376,
  15807007844396665668,
  1898103076184901978,
  8409648387031607498,
  11614193500545145743,
  799165639181004543,
  9872418127086851211,
  17986191349314715636,
  17901197225392818132,
  4244432834988778262,
  4318174918898754706,
  8689591287412284027,
  9795576392323310444,
  1941969383725719124,
  2504422579077441954,
  15716990416383264080,
  12896461624764093155,
  9563449611749462342,
  7403414472109002039,
  6496495921798792989,
  1741443576129211718,
  11900665885667678945,
  479873305268585973,
  4720215749076904279,
  13207926174006854817,
  13563883162399001575,
  18390545932800935821,
  13463302700057411997,
  15802218344769130318,
  2059177419727223291,
  6204154896624983752,
  17350096506941522775,
  7203332655081441529,
  17880905614197588846,
  2744346140786929367,
  7865708484624632693,
  5737577990712265191,
  11977578413836045138,
  8421017303999998426,
  8389521482367515408,
  3567355482400014592,
  10934939228818130696,
  17450082940161528044,
  3849404812818008801,
  3180955952519116614,
  8997500300415405562,
  15805849135407788357,
  10858590800775934910,
  13434831287218182163,
  15201624401350429501,
  4985454626904578519,
  3631346235979327210,
  7415096257530694452,
  1224367137978393654,
  1986391933990080315,
  9217235221224677797,
  17230924136212962788,
  16688223695234758087,
  1835330556500990820,
  5524110232176019668,
  3649546371255273827,
  302429362408141315,
  3785987388938999966,
  15192985602502286064,
  5681666100395781029,
  4474091012313954161,
  5344454725977603273,
  2897212809504519285,
  1839072203617766236,
  1452481304623276415,
  1579364511762437136,
  7771992217746020433,
  17222176016187912506,
  8179203229464140413,
  12434016977824309802,
  6401146284280190873,
  2815710575005321,
  5487252073011971111,
  13188128229170669467,
  8962368194321420758,
  12420460967288392124,
  14068504310778203783,
  15747986313765595300,
  628231178711559621,
  13639027428732468929,
  9614258564338712162,
  2505839359464105827,
  6832215746907872313,
  8158884738384441005,
  7497662623297778729,
  979603580879205749,
  17579441823133657835,
  14882487914534347702,
  17665176790054525567,
  16512875484850421675,
  7735589439162028709,
  17582188936835729606,
  17591467684635913377,
  2098093776327484006,
  4041639082262889261,
  11676462967920669350,
  15716222178275789671,
  3268526490995688803,
  16606130259816261436,
  2596123248427005668,
  1729457174904955923,
  15487218699394751824,
  9409019458738330290,
  5326055854619953391,
  16424402298325576467,
  12926615598365581781,
  17211941263651764239,
  16884249759458400472]

/-- The sequence of LCG values at the start of each seeding entry (three
`seedrand` steps apart); a literal checkpoint list of this chain lets the
kernel evaluate the seeding loop one shallow step at a time. -/
def xchainList (x : Nat) : Nat → List Nat
  | 0 => []
  | n + 1 => x :: xchainList (seedBurn 3 x) n

/-- The LCG chain for checksum `9957458776116166655`. -/
def xChainA : List Nat := [
  975443161,
  443256604,
  1373425233,
  157263664,
  146378946,
  1161182236,
  1861663682,
  849365917,
  119760133,
  2131829489,
  649934855,
  731965884,
  744890847,
  1117868445,
  1724172923,
  566501065,
  757722113,
  1630302716,
  1551905481,
  441802778,
  1260084911,
  324305578,
  535305520,
  199275977,
  2031785453,
  1304768033,
  2103315453,
  1000587489,
  769149483,
  1032069823,
  1998311406,
  501678526,
  1378473900,
  272862863,
  1201344547,
  477435211,
  10997470,
  507665441,
  1234729781,
  1433133376,
  912565753,
  193276087,
  994297616,
  1809249509,
  1946498439,
  1157358125,
  1619270769,
  1401208669,
  1495725233,
  1510865983,
  348990773,
  1235424908,
  214385899,
  1947696368,
  567090653,
  1358725231,
  1229134487,
  92208260,
  822026341,
  1717759519,
  127656020,
  454090560,
  657227133,
  1535122382,
  1925821031,
  787966848,
  2037003676,
  1296558787,
  1094445694,
  999287341,
  2085346011,
  1509970114,
  11464090,
  835571620,
  1323484330,
  2023524777,
  1231145710,
  502215100,
  1749656974,
  1560553951,
  369882538,
  1906361599,
  506223156,
  1573258605,
  2050409510,
  1731108160,
  219561666,
  1883198663,
  698636384,
  1477339801,
  580820400,
  1635318980,
  317875417,
  385066592,
  686978206,
  2092477465,
  312965565,
  1905650511,
  1319239093,
  1314554743,
  1149802705,
  542807386,
  1624866151,
  420766815,
  926342750,
  277887478,
  1890615882,
  633910910,
  574742141,
  1881326025,
  1256732168,
  886925387,
  417919758,
  616166243,
  1152544073,
  89546171,
  487584025,
  1599666969,
  962860881,
  746409913,
  1755132303,
  184274657,
  173781987,
  1373718732,
  991148866,
  1774904332,
  509750584,
  1611633297,
  2077153135,
  806363107,
  485970717,
  1666283130,
  906155633,
  1562517488,
  564416954,
  1660479809,
  470553001,
  196021255,
  841469806,
  287853296,
  1071177393,
  80894746,
  566056854,
  1955672983,
  1022065117,
  1958508222,
  1793758105,
  1612726507,
  1393521160,
  281213500,
  1879970910,
  1394697872,
  2056985486,
  228094689,
  1050583709,
  1097763424,
  95711599,
  897102621,
  806238500,
  1035531566,
  220172041,
  1016625916,
  472030555,
  83057542,
  586178969,
  408940784,
  1887525189,
  15894524,
  896961453,
  1354732776,
  765573188,
  354251711,
  747330663,
  491007491,
  2025546475,
  2003090947,
  1430618569,
  1468075793,
  1984240904,
  424747205,
  704463444,
  859596615,
  2045012929,
  1636282850,
  1897751862,
  987156910,
  1472297047,
  31333387,
  1945338671,
  65655240,
  1345914637,
  1062567751,
  837774791,
  509179535,
  2032724977,
  1745342002,
  155945652,
  253668044,
  311757451,
  828858301,
  1600559280,
  2132387756,
  1326204812,
  1891280886,
  393277860,
  1556192705,
  1133248191,
  277241682,
  1660612723,
  857493389,
  1111563353,
  648356612,
  1720078993,
  1701473797,
  1514554242,
  689872479,
  1252918430,
  280694966,
  222444973,
  114488070,
  369931767,
  1879318705,
  1016845877,
  730626723,
  838758477,
  807495657,
  256516903,
  1990728829,
  1717218845,
  732113848,
  1897860185,
  1670627508,
  967968100,
  1716163314,
  51698044,
  964680793,
  365550322,
  1093758506,
  367620347,
  936610351,
  1591524108,
  1656309992,
  1938042696,
  979236128,
  1704544596,
  1469577605,
  1036979343,
  1231354735,
  2066284291,
  1544692499,
  1477302988,
  1453859368,
  1528867702,
  1682238947,
  1170119911,
  29281067,
  1990553847,
  1971516015,
  97202366,
  79708564,
  1347567760,
  682377559,
  1964496540,
  1000840976,
  914886520,
  798404096,
  484682255,
  1708046338,
  771322063,
  265977614,
  289932847,
  1955383258,
  1272084636,
  92039226,
  744100120,
  1672896705,
  2101685853,
  559010597,
  1945609676,
  1274267727,
  1080944723,
  816397103,
  1852510230,
  403015889,
  1792000516,
  57460363,
  2131451732,
  314654908,
  1506915932,
  1508660565,
  649393823,
  726038629,
  236730307,
  1872696260,
  1973933582,
  556719658,
  1652965036,
  1926720886,
  1107207268,
  511488623,
  67148626,
  404982989,
  1169058229,
  1668415377,
  1525984371,
  374759687,
  312222724,
  1109607108,
  589538813,
  286233771,
  1977143425,
  1524611747,
  334985680,
  884820863,
  438636461,
  1309024280,
  433269913,
  2122145388,
  2010350689,
  927317726,
  1046089526,
  1836877369,
  1066770757,
  2144013371,
  1044169884,
  295034064,
  94029263,
  603714944,
  952320946,
  2094758549,
  2044584444,
  409877630,
  1421266120,
  239181972,
  15370998,
  1489556545,
  221967147,
  307786508,
  1003627042,
  1017292020,
  1279081438,
  331677183,
  260687252,
  350551446,
  751378981,
  1728931737,
  989815194,
  1491782469,
  644245256,
  341421555,
  1311627303,
  1856517193,
  1776246848,
  1571209485,
  653239411,
  1505097159,
  1761997115,
  1432422805,
  1509323535,
  84062930,
  2074717713,
  23074124,
  1251590316,
  680001217,
  992061821,
  1490980286,
  994303683,
  534194968,
  1619749503,
  1268395457,
  1373802838,
  1769016463,
  1877874492,
  479581366,
  1945160835,
  1908369665,
  2054020547,
  674218913,
  1904447465,
  1649056722,
  195207960,
  697284255,
  839805089,
  491722088,
  1526690342,
  1448777554,
  1338517912,
  1385621281,
  671320317,
  1353912875,
  1619300252,
  711571297,
  687289451,
  2074528839,
  298002020,
  250940443,
  381300715,
  804542324,
  1343315630,
  1855658789,
  741557245,
  585740563,
  1288793207,
  1599532058,
  788193198,
  237871077,
  1897538245,
  687604221,
  1558221723,
  1692744854,
  194459028,
  247589187,
  1397735588,
  834668729,
  1634509436,
  1620283267,
  2067312301,
  453324900,
  1439367877,
  1812799588,
  348196483,
  460446224,
  882545672,
  362519459,
  317636087,
  988443746,
  1861455969,
  1378273322,
  51952601,
  2070960829,
  63285064,
  244983918,
  751981449,
  1087736873,
  1027294384,
  529036586,
  642810933,
  614330875,
  447060866,
  1083536524,
  1425883647,
  6337880,
  1396270580,
  23755583,
  1563119331,
  255269612,
  503727470,
  975926998,
  1818717654,
  1223382891,
  1725727690,
  966172566,
  1611288793,
  1265528287,
  1052994678,
  1450537,
  438214034,
  69912427,
  258801382,
  698894857,
  214521081,
  2050543696,
  1947353585,
  1747973613,
  437334676,
  1735701074,
  1937331350,
  1472336762,
  1574773223,
  934492518,
  749329978,
  1101108010,
  1179778870,
  371384061,
  1408132562,
  1698638884,
  830799278,
  689620738,
  1024822999,
  940296054,
  1809442637,
  2002246561,
  2029780351,
  635553792,
  1371306296,
  1691740645,
  842068802,
  2016952823,
  1961448580,
  1673211069,
  1265064889,
  1923586952,
  300198297,
  27492026,
  989032589,
  298459226,
  292315485,
  1029449044,
  1397850976,
  564992814,
  1469993904,
  2085468983,
  506195656,
  1150964044,
  1043829762,
  1903873470,
  814353083,
  236913382,
  1074301539,
  803505791,
  1729760726,
  334681243,
  921102559,
  1329701593,
  526714899,
  1660328242,
  18872454,
  819550891,
  1058840665,
  1103328166,
  309642327,
  124549382,
  765307987,
  1831113185,
  925189362,
  538287381,
  2091304420,
  1028282553,
  534714334,
  1828513445,
  18633642,
  350581129,
  642681169,
  787253969,
  654182959,
  1608266652,
  483873045,
  544649418,
  1071412486,
  1773201813,
  2402408,
  665366470,
  483943000,
  1879321199,
  530221061,
  915935094,
  168693399,
  2122789056,
  783620953,
  1434235211,
  1659632186,
  1975129510,
  1455596288,
  170000028,
  1593076335,
  1120500022,
  1047808763,
  1083342755,
  367217694,
  11927785,
  1257171322,
  1750290189,
  465285899,
  1247917625,
  32801545,
  1168631652,
  1259709536,
  895061579,
  968884030,
  1483780635,
  1238631160,
  200436235,
  251822966,
  1466429664,
  2064044498,
  780356436,
  1857175671,
  618418590,
  586744130,
  494354363,
  300824870,
  684560927,
  2040016410,
  94028859,
  718707221,
  1736865833,
  1635001967,
  1190893038,
  119560411,
  1390863438,
  176181324,
  420202658,
  321271927,
  680316952,
  1131304435,
  846966167,
  303132745,
  2067533815,
  498452728,
  1310768646,
  516435776,
  809005183,
  1100251160,
  1223015813,
  1056454303,
  1090592549,
  1462250924]

/-- The LCG chain for checksum `10941249004091998207`. -/
def xChainB : List Nat := [
  2106503103,
  211043795,
  2060134825,
  684816682,
  1901660387,
  325083966,
  1934923293,
  719208137,
  2041046540,
  865653302,
  986393976,
  723715947,
  511556952,
  1832742537,
  1075897929,
  1416832860,
  1418044203,
  1995680833,
  658385442,
  1824845012,
  572722238,
  2028346045,
  1387339704,
  989335529,
  1926799135,
  1622632297,
  586555269,
  377546601,
  300831582,
  1283036467,
  317194428,
  1438745543,
  1442836238,
  1648584358,
  1651076982,
  1514661784,
  2111251201,
  431380816,
  1257466857,
  1196695712,
  393810484,
  1191237704,
  1831243032,
  563859456,
  1929432272,
  1182629411,
  923102927,
  273984872,
  1277235740,
  1832920407,
  190936688,
  1673918290,
  1674987712,
  1043377904,
  1934940004,
  1155979380,
  1838704163,
  1778185332,
  290806998,
  1915205613,
  206356523,
  1568293674,
  1637939722,
  381365299,
  281977562,
  1180587105,
  850184273,
  1220725909,
  1622688239,
  301899154,
  1720186670,
  1367503075,
  1998942658,
  576436363,
  1481219942,
  364673875,
  1766194402,
  300086737,
  249436155,
  1437974923,
  702577776,
  76702064,
  42140762,
  40289453,
  1134652309,
  314764840,
  1280587808,
  1457113230,
  221143241,
  265617118,
  1989007933,
  1087833644,
  2085937619,
  1536011847,
  2130022367,
  1674657309,
  1677197629,
  1785301833,
  1186509562,
  736003380,
  183449830,
  462863029,
  846670158,
  768390653,
  178460071,
  1376496990,
  318007143,
  2045690017,
  847789475,
  1185273227,
  149106601,
  2107486112,
  260866424,
  1529519823,
  957102868,
  490856007,
  1385459116,
  2077403920,
  1264044547,
  1236360435,
  1500287914,
  1739749689,
  172480278,
  1162159100,
  1241987506,
  1084011282,
  1340403676,
  1588373362,
  978148759,
  1315653786,
  1947390739,
  1006443136,
  2013120449,
  1769354592,
  1351920041,
  1795683540,
  224634615,
  2093206220,
  1854618509,
  552021190,
  1711375480,
  1233399639,
  666176512,
  198577925,
  1196742806,
  607688728,
  1728354255,
  334351832,
  570911937,
  1549975322,
  134010686,
  357501071,
  965545506,
  1257618981,
  1548306016,
  1181613344,
  1916041270,
  1310381597,
  678494553,
  301134809,
  2027037727,
  446991676,
  1970958560,
  61560105,
  1128210167,
  582073381,
  322697998,
  1778148421,
  1308682311,
  542603047,
  2075799157,
  381499645,
  962974635,
  1313915275,
  1691361319,
  1532775489,
  1453479403,
  1651962683,
  664005377,
  866991161,
  976080375,
  1085450278,
  1326748564,
  1208051569,
  807334308,
  1026356805,
  1443132544,
  328034779,
  2118220698,
  815140283,
  1892421134,
  619854511,
  231077871,
  1625757193,
  1340206017,
  2115334849,
  1213063280,
  1810097419,
  1705066928,
  844747175,
  1118363692,
  1882497519,
  1190189645,
  1809389449,
  408015641,
  1558227530,
  1809952532,
  1329414862,
  1742458502,
  1793546299,
  1419620781,
  466213181,
  59422749,
  1989156086,
  1501300678,
  172025830,
  112509273,
  946865510,
  695152333,
  1164003136,
  926090750,
  585965505,
  124310129,
  2021843601,
  12240187,
  734487486,
  599449535,
  1349832277,
  1107011490,
  1348225919,
  2033924538,
  2030070775,
  1127427847,
  216589011,
  103020944,
  164625673,
  774561459,
  747561177,
  908611755,
  196025168,
  1040637333,
  837774801,
  538226513,
  1811314513,
  948757971,
  1452809487,
  80125292,
  206198921,
  766631080,
  591214621,
  1374603762,
  1197917341,
  2072887815,
  173902354,
  1393141093,
  1826016223,
  113646967,
  1485785109,
  513191912,
  663630461,
  1482513264,
  1554840093,
  1669724818,
  1003844005,
  1587035501,
  553156235,
  139208089,
  3025745,
  1371761337,
  1886895891,
  33458706,
  50786956,
  658721420,
  204846346,
  1840078255,
  1357591686,
  715897637,
  323267259,
  887921098,
  1285488573,
  1029331084,
  209598361,
  982711406,
  586784308,
  805688904,
  1064582657,
  778868664,
  636721404,
  336648419,
  1807407493,
  1687433810,
  2027646761,
  839179932,
  941228166,
  1765736253,
  96562046,
  2011935217,
  1015361114,
  519467007,
  77076016,
  62463815,
  1907642371,
  1749653983,
  174047231,
  1739746181,
  1149715360,
  235048391,
  651798012,
  1410711128,
  371672044,
  2111083687,
  473627957,
  1917951867,
  201553418,
  53537917,
  1870925707,
  557877346,
  997863791,
  1008813296,
  1779085815,
  2004700907,
  658505491,
  1350070202,
  717501221,
  1217147290,
  1925293569,
  1544083093,
  1722554068,
  1271130976,
  251839908,
  1715192640,
  1471584426,
  1115911620,
  2128114047,
  1237044520,
  2138108952,
  1584185436,
  525080063,
  1901132657,
  732237930,
  1970816638,
  1855886075,
  802228328,
  219550143,
  1054117348,
  1138353517,
  472866171,
  1926983465,
  174666021,
  1693885304,
  1437281364,
  1751427380,
  2120122881,
  176995120,
  1160648348,
  1991054499,
  649863044,
  1307619386,
  1148178368,
  2074256404,
  1378122620,
  2112835651,
  722354505,
  1169355769,
  496289048,
  11383864,
  590513252,
  1212600018,
  69251488,
  1569612754,
  2055887498,
  347479187,
  850464124,
  1495497912,
  1348530477,
  1490117817,
  1036919405,
  1505250135,
  722939380,
  1394916767,
  78167258,
  534334240,
  717908951,
  138608140,
  230213238,
  966064358,
  1261858442,
  1371120545,
  2018608453,
  702897914,
  1838414127,
  1983837294,
  585739409,
  1372745781,
  1809992569,
  2090180472,
  903639808,
  1738025544,
  2131640348,
  1867295356,
  489014647,
  25399138,
  1737564729,
  1485635722,
  2098785275,
  264319179,
  1990740772,
  1618789589,
  1730575462,
  1658059218,
  1105654338,
  1582276416,
  201662461,
  680907284,
  457428881,
  723231863,
  136622463,
  150178940,
  1788441928,
  1850499044,
  529979597,
  904144625,
  1777020675,
  1318912286,
  797256063,
  1267353348,
  1455031989,
  870449035,
  2133057292,
  1794257039,
  25266739,
  699060061,
  2052356610,
  996268342,
  122329751,
  1012927228,
  1191316739,
  1623283426,
  845429537,
  1475854444,
  2080244026,
  1570012928,
  1363281700,
  164407906,
  1305414782,
  377031592,
  292430802,
  1412533044,
  228369362,
  1746712762,
  364820442,
  579287831,
  860123104,
  1039606101,
  730643947,
  188659315,
  1272704900,
  891729071,
  178521706,
  18919545,
  1454211771,
  373890167,
  60160540,
  1001377481,
  226651987,
  1895840468,
  1498927860,
  1704805029,
  1604999279,
  2059924635,
  31741848,
  2131140154,
  1942319543,
  1163906799,
  1987079819,
  277697612,
  1002070478,
  1410832784,
  699276034,
  1893932916,
  715142605,
  1482268434,
  1214764876,
  65906255,
  324192924,
  1015484091,
  1677699685,
  1105870738,
  946171765,
  2062721605,
  453710913,
  1274519285,
  1206977186,
  772633671,
  25363169,
  1626194805,
  1589997376,
  1085462728,
  983014175,
  429930705,
  1197660627,
  714128836,
  130771004,
  2051651043,
  1954741845,
  458973323,
  1196669637,
  1963226641,
  845921541,
  1233675392,
  204411895,
  1323108595,
  1548589570,
  1045566336,
  398973816,
  1514044855,
  261310284,
  171013484,
  317416436,
  1630303896,
  684481591,
  85171790,
  1752449721,
  882899171,
  1532097254,
  628271319,
  1131424316,
  313698856,
  731633688,
  895051440,
  723930635,
  915563879,
  2085574013,
  643927716,
  1401650353,
  1118040881,
  1375959554,
  1308445130,
  1804718291,
  336828064,
  1783317553,
  1298867526,
  1551103646,
  1373199310,
  1478715306,
  1687584369,
  2128372302,
  1917982056,
  703639234,
  1222889282,
  1600834067,
  1871162170,
  1934653105,
  165746835,
  108160533,
  670166392,
  1772476977,
  2113319013,
  718084100,
  798892232,
  174047077,
  433429261,
  693965941,
  1335527504,
  7447776,
  1076792403,
  1997273406,
  492402514,
  1414646906,
  1132420222,
  1747683742,
  1122261775,
  524844476,
  62395065,
  1925647792,
  1380688260,
  605960506,
  5499253,
  255227628,
  100469455,
  1114696634,
  2135578296,
  341303172,
  1471667895,
  1761473636,
  443551776,
  194922184,
  392046963,
  1303160304,
  2054364923,
  1543539172,
  1055895998,
  733440805,
  2003289144,
  2036887769,
  1347186732,
  294759155,
  1718868635,
  1837480853,
  370271752,
  1590522618,
  323368308,
  1058462910,
  1203354344,
  1899303741,
  2017492482,
  556206132]

/-- `rngSource.Uint64`: decrement both cursors (wrapping), add the two
lagged words mod `2^64`, store and return the sum. -/
def rngSource.Uint64 (r : rngSource) : Nat × rngSource :=
  let tap := if r.tap = 0 then 606 else r.tap - 1
  let feed := if r.feed = 0 then 606 else r.feed - 1
  let x := ((r.vec.getD feed 0) + (r.vec.getD tap 0)) % 2 ^ 64
  (x, { vec := r.vec.set feed x, tap := tap, feed := feed })

/-- `rngSource.Int63`: `Uint64` masked to 63 bits. -/
def rngSource.Int63 (r : rngSource) : Nat × rngSource :=
  let (u, r') := r.Uint64
  (u &&& (2 ^ 63 - 1), r')

/-- `Rand.Int31`: the top 31 bits of `Int63`. -/
def rngSource.Int31 (r : rngSource) : Nat × rngSource :=
  let (v, r') := r.Int63
  (v >>> 32, r')

/-- The rejection loop of `Rand.Int31n`, with fuel: draw `Int31` until the
value is at most `maxv`, then reduce `% n`. -/
def int31nLoop (n maxv : Nat) : Nat → rngSource → Option (Nat × rngSource)
  | 0, _ => none
  | fuel + 1, r =>
    let (v, r') := r.Int31
    if maxv < v then int31nLoop n maxv fuel r' else some (v % n, r')

/-- `Rand.Int31n` for `0 < n < 2^31`: the power-of-two fast path masks an
`Int31` draw; otherwise rejection sampling below
`2^31 - 1 - (2^31) % n`. -/
def rngSource.Int31n (r : rngSource) (n : Nat) (fuel : Nat) :
    Option (Nat × rngSource) :=
  if n &&& (n - 1) = 0 then
    let (v, r') := r.Int31
    some (v &&& (n - 1), r')
  else
    int31nLoop n (2 ^ 31 - 1 - (2 ^ 31) % n) fuel r

/-- The rejection loop of `Rand.Int63n`, with fuel. -/
def int63nLoop (n maxv : Nat) : Nat → rngSource → Option (Nat × rngSource)
  | 0, _ => none
  | fuel + 1, r =>
    let (v, r') := r.Int63
    if maxv < v then int63nLoop n maxv fuel r' else some (v % n, r')

/-- `Rand.Int63n` for `0 < n`. -/
def rngSource.Int63n (r : rngSource) (n : Nat) (fuel : Nat) :
    Option (Nat × rngSource) :=
  if n &&& (n - 1) = 0 then
    let (v, r') := r.Int63
    some (v &&& (n - 1), r')
  else
    int63nLoop n (2 ^ 63 - 1 - (2 ^ 63) % n) fuel r

/-- `Rand.Intn`: panics (`none`) for `n ≤ 0`; `Int31n` for values that fit
in an `int32`, `Int63n` beyond. -/
def rngSource.Intn (r : rngSource) (n : Int) (fuel : Nat) :
    Option (Nat × rngSource) :=
  if n ≤ 0 then none
  else if n ≤ (2 ^ 31 - 1 : Int) then r.Int31n n.toNat fuel
  else r.Int63n n.toNat fuel

/-- Go's `int64(u)` reading of a `uint64` checksum (the seed passed to
`rand.NewSource`). -/
def int64OfUint64 (u : Nat) : Int :=
  if u < 2 ^ 63 then (u : Int) else (u : Int) - 2 ^ 64

/-! ## Apple placement (`state.go` lines 166-200) -/

/-- The rejection loop of `GenerateAppleLocation`: draw `(x, y)` with
`Intn(width)`, `Intn(height)` and accept the first cell on which no snake
(alive or dead) has a piece. -/
def appleLoop (width height : Int) (snakes : List Snake) :
    Nat → rngSource → Option Location
  | 0, _ => none
  | fuel + 1, r =>
    match r.Intn width (fuel + 1) with
    | none => none
    | some (x, r) =>
      match r.Intn height (fuel + 1) with
      | none => none
      | some (y, r) =>
        let ok := snakes.all (fun snake => !snake.HasPieceAt (x : Int) (y : Int))
        if ok then some ⟨(x : Int), (y : Int)⟩
        else appleLoop width height snakes fuel r

/-- `GenerateAppleLocation` (`state.go` lines 166-200): crc64 checksum of
the alive heads, seed `math/rand` with it, rejection-sample an
unoccupied cell. -/
def GenerateAppleLocation (width height : Int) (snakes : List Snake)
    (fuel : Nat) : Option Location :=
  match appleSeed snakes with
  | none => none
  | some seed => appleLoop width height snakes fuel (rngSource.Seed (int64OfUint64 seed))

/-! ## `NewState` (`state.go` lines 126-164) -/

/-- `NewState`: panics (`none`) when `SnakeCount < 2` or
`SnakeCount > Width`; places one single-piece snake per slot, evenly
spaced on the horizontal centerline, then generates the apple. -/
def NewState (cfg : StateConfig) (fuel : Nat) : Option State :=
  if cfg.SnakeCount < 2 then none
  else if cfg.Width < cfg.SnakeCount then none
  else
    let xSpaceBetween := Int.tdiv cfg.Width cfg.SnakeCount
    let xInitialSpace := Int.tdiv xSpaceBetween 2
    let yLine := Int.tdiv cfg.Height 2
    let snakes := (List.range cfg.SnakeCount.toNat).map (fun (i : Nat) =>
      { Alive := true
        Length := cfg.InitialSnakeLength
        Pieces := [⟨xInitialSpace + xSpaceBetween * (i : Int), yLine⟩] : Snake })
    match GenerateAppleLocation cfg.Width cfg.Height snakes fuel with
    | none => none
    | some a =>
      some { Width := cfg.Width, Height := cfg.Height, Snakes := snakes, Apple := a }

/-! ## `State.Next` (`state.go` lines 231-290), value-level model

`Next` first deep-copies the state (`clone`) and then mutates only the
copy; this model works directly on values (the aliasing discipline of the
pointer code is modeled separately below, for the frame property).  The
Go `map` values (`tails`, `headLocations`, `nextHeadLocations`) become
association lists; a new binding is consed to the front, so a lookup
finds the latest binding first, matching Go's overwrite semantics. -/

/-- Association-list lookup (Go `m[k]`, `ok` form). -/
def alookup {α β : Type} [DecidableEq α] : List (α × β) → α → Option β
  | [], _ => none
  | (k, v) :: rest, a => if a = k then some v else alookup rest a

/-- The per-tick mutable context of the loop in `Next`: the snake array
being updated in place, the three maps, and the apple flag. -/
structure TickState where
  Snakes : List Snake
  tails : List (Location × Nat)
  headLocations : List (locationPair × Nat)
  nextHeadLocations : List (Location × Nat)
  repositionApple : Bool
deriving DecidableEq, Repr

/-- The body of `for snakeNo, snake := range next.Snakes` in `Next`
(`state.go` lines 243-276) for one slot `snakeNo`: skip dead snakes, eat
the apple, grow, shift the body (recording post-shift segments in
`tails`), move the head, then resolve wall / same-head / head-swap
collisions.  `none` models the Go panics (an alive snake with no pieces,
a slot without a direction). -/
def NextStep (width height : Int) (apple : Location) (dirs : List Direction)
    (acc : TickState) (snakeNo : Nat) : Option TickState :=
  match acc.Snakes[snakeNo]? with
  | none => none
  | some snake =>
    if !snake.Alive then some acc else
    match snake.Pieces with
    | [] => none
    | p0 :: _ =>
      match dirs[snakeNo]? with
      | none => none
      | some dir =>
        let nextLoc := NextLocation p0 dir
        let ate := nextLoc = apple
        let snake := if ate then { snake with Length := snake.Length + 1 } else snake
        let repositionApple := acc.repositionApple || ate
        let snake :=
          if (snake.Pieces.length : Int) < snake.Length then
            { snake with Pieces := snake.Pieces ++ [⟨0, 0⟩] }
          else snake
        -- After `Pieces[i] = Pieces[i-1]` for `i = len-1 … 1`, the segments
        -- at indices ≥ 1 are the old segments without the last one; each is
        -- recorded in `tails`.
        let body := snake.Pieces.dropLast
        let tails := body.map (fun l => (l, snakeNo)) ++ acc.tails
        let locPair : locationPair := (p0, nextLoc)
        let snake := { snake with Pieces := nextLoc :: body }
        if !nextLoc.IsInsideBounds width height then
          -- collided with wall
          some { acc with
                 Snakes := acc.Snakes.set snakeNo { snake with Alive := false }
                 tails := tails
                 repositionApple := repositionApple }
        else
          match alookup acc.nextHeadLocations nextLoc with
          | some otherSnakeNo =>
            -- two snakes tried to go to the same location
            let snakes := acc.Snakes.set snakeNo { snake with Alive := false }
            let snakes :=
              match snakes[otherSnakeNo]? with
              | some other => snakes.set otherSnakeNo { other with Alive := false }
              | none => snakes
            some { acc with
                   Snakes := snakes
                   tails := tails
                   repositionApple := repositionApple }
          | none =>
            match alookup acc.headLocations locPair.Swap with
            | some otherSnakeNo =>
              -- two snake heads "swapped" locations
              let snakes := acc.Snakes.set snakeNo { snake with Alive := false }
              let snakes :=
                match snakes[otherSnakeNo]? with
                | some other => snakes.set otherSnakeNo { other with Alive := false }
                | none => snakes
              some { acc with
                     Snakes := snakes
                     tails := tails
                     repositionApple := repositionApple }
            | none =>
              some { Snakes := acc.Snakes.set snakeNo snake
                     tails := tails
                     headLocations := (locPair, snakeNo) :: acc.headLocations
                     nextHeadLocations := (nextLoc, snakeNo) :: acc.nextHeadLocations
                     repositionApple := repositionApple }

/-- The loop of `Next` over the slot numbers. -/
def NextLoop (width height : Int) (apple : Location) (dirs : List Direction) :
    TickState → List Nat → Option TickState
  | acc, [] => some acc
  | acc, n :: ns =>
    match NextStep width height apple dirs acc n with
    | none => none
    | some acc' => NextLoop width height apple dirs acc' ns

/-- The tail-collision pass of `Next` (`state.go` lines 278-283): every
planned head that lands on a recorded post-shift segment kills its snake.
Go iterates the `nextHeadLocations` map in unspecified order; the result
is order-independent because the pass only clears `Alive` flags. -/
def tailCollisions (tails : List (Location × Nat)) (nhl : List (Location × Nat))
    (snakes : List Snake) : List Snake :=
  nhl.foldl
    (fun snakes entry =>
      if (alookup tails entry.1).isSome then
        match snakes[entry.2]? with
        | some sn => snakes.set entry.2 { sn with Alive := false }
        | none => snakes
      else snakes)
    snakes

/-- `State.Next` (`state.go` lines 231-290).  `none` models the Go panic
on a direction-vector length mismatch (and fuel exhaustion of the apple
rejection loop). -/
def State.Next (s : State) (snakeDirections : List Direction) (fuel : Nat) :
    Option State :=
  if snakeDirections.length ≠ s.Snakes.length then none
  else
    let init : TickState :=
      { Snakes := s.Snakes, tails := [], headLocations := [],
        nextHeadLocations := [], repositionApple := false }
    match NextLoop s.Width s.Height s.Apple snakeDirections init
        (List.range s.Snakes.length) with
    | none => none
    | some acc =>
      let snakes := tailCollisions acc.tails acc.nextHeadLocations acc.Snakes
      if acc.repositionApple then
        match GenerateAppleLocation s.Width s.Height snakes fuel with
        | none => none
        | some a =>
          some { Width := s.Width, Height := s.Height, Snakes := snakes, Apple := a }
      else
        some { Width := s.Width, Height := s.Height, Snakes := snakes, Apple := s.Apple }

/-! ## `State.Next` on the pointer structure (`state.go` lines 202-290)

In Go, `State` holds `Snakes []*Snake` and `Apple *Apple`: the snakes and
the apple are mutable heap cells reached through pointers.  To state the
frame property ("`Next` never mutates its input arena") we model that
heap explicitly: a snake heap and an apple heap, both addressed by `Nat`,
with a `State`-shaped record holding addresses instead of values.
`clone` allocates fresh cells; the tick loop, the tail pass and the apple
relocation write through the cloned addresses only. -/

/-- The pointer-level `State`: dimensions by value, snakes and apple by
heap address. -/
structure StateRef where
  Width : Int
  Height : Int
  SnakeRefs : List Nat
  AppleRef : Nat
deriving DecidableEq, Repr

/-- Snake heap: address → `Snake` cell. -/
abbrev SnakeHeap := List Snake

/-- Apple heap: address → apple location cell. -/
abbrev AppleHeap := List Location

/-- Dereference a snake pointer (Go would crash on a dangling one; all
states in use are well formed, hypotheses in the theorems make the reads
in-range). -/
def readSnake (σ : SnakeHeap) (a : Nat) : Snake := σ.getD a default

/-- The value-level view of a pointer-level state: what re-reading the
arena through its pointers yields. -/
def StateRef.read (σs : SnakeHeap) (σa : AppleHeap) (st : StateRef) : State :=
  { Width := st.Width
    Height := st.Height
    Snakes := st.SnakeRefs.map (readSnake σs)
    Apple := σa.getD st.AppleRef default }

/-- Write through `refs[i]`; out-of-range slots write nothing (Go's map
values are always in range, see the value-level model). -/
def writeSnakeAt (σ : SnakeHeap) (refs : List Nat) (i : Nat) (v : Snake) : SnakeHeap :=
  match refs[i]? with
  | some a => σ.set a v
  | none => σ

/-- `State.clone` (`state.go` lines 202-229): a fresh state with fresh
snake cells (copied fields, copied pieces) and a fresh apple cell; also
computes `maxLength` (used by Go only to size a map). -/
def State.clone (σs : SnakeHeap) (σa : AppleHeap) (st : StateRef) :
    SnakeHeap × AppleHeap × StateRef × Int :=
  let copies := st.SnakeRefs.map (readSnake σs)
  let maxLength := copies.foldl (fun m sn => if m < sn.Length then sn.Length else m) 0
  (σs ++ copies,
   σa ++ [σa.getD st.AppleRef default],
   { Width := st.Width
     Height := st.Height
     SnakeRefs := (List.range copies.length).map (fun i => σs.length + i)
     AppleRef := σa.length },
   maxLength)

/-- The per-tick maps and flag of the loop in `Next` (the snake array
itself lives in the heap here). -/
structure TickMaps where
  tails : List (Location × Nat)
  headLocations : List (locationPair × Nat)
  nextHeadLocations : List (Location × Nat)
  repositionApple : Bool
deriving Repr

/-- The loop body of `Next` acting on the heap: identical control flow to
`NextStep`, but reading and writing snake cells through the cloned
addresses. -/
def NextStepH (width height : Int) (apple : Location) (dirs : List Direction)
    (refs : List Nat) (state : SnakeHeap × TickMaps) (snakeNo : Nat) :
    Option (SnakeHeap × TickMaps) :=
  let (σ, acc) := state
  match refs[snakeNo]? with
  | none => none
  | some addr =>
    match σ[addr]? with
    | none => none
    | some snake =>
      if !snake.Alive then some (σ, acc) else
      match snake.Pieces with
      | [] => none
      | p0 :: _ =>
        match dirs[snakeNo]? with
        | none => none
        | some dir =>
          let nextLoc := NextLocation p0 dir
          let ate := nextLoc = apple
          let snake := if ate then { snake with Length := snake.Length + 1 } else snake
          let repositionApple := acc.repositionApple || ate
          let snake :=
            if (snake.Pieces.length : Int) < snake.Length then
              { snake with Pieces := snake.Pieces ++ [⟨0, 0⟩] }
            else snake
          let body := snake.Pieces.dropLast
          let tails := body.map (fun l => (l, snakeNo)) ++ acc.tails
          let locPair : locationPair := (p0, nextLoc)
          let snake := { snake with Pieces := nextLoc :: body }
          if !nextLoc.IsInsideBounds width height then
            some (σ.set addr { snake with Alive := false },
                  { acc with tails := tails, repositionApple := repositionApple })
          else
            match alookup acc.nextHeadLocations nextLoc with
            | some otherSnakeNo =>
              let σ := σ.set addr { snake with Alive := false }
              let σ := writeSnakeAt σ refs otherSnakeNo
                { readSnake σ (refs.getD otherSnakeNo 0) with Alive := false }
              some (σ, { acc with tails := tails, repositionApple := repositionApple })
            | none =>
              match alookup acc.headLocations locPair.Swap with
              | some otherSnakeNo =>
                let σ := σ.set addr { snake with Alive := false }
                let σ := writeSnakeAt σ refs otherSnakeNo
                  { readSnake σ (refs.getD otherSnakeNo 0) with Alive := false }
                some (σ, { acc with tails := tails, repositionApple := repositionApple })
              | none =>
                some (σ.set addr snake,
                      { acc with
                        tails := tails
                        headLocations := (locPair, snakeNo) :: acc.headLocations
                        nextHeadLocations := (nextLoc, snakeNo) :: acc.nextHeadLocations
                        repositionApple := repositionApple })

/-- The heap-level loop of `Next` over the slot numbers. -/
def NextLoopH (width height : Int) (apple : Location) (dirs : List Direction)
    (refs : List Nat) : SnakeHeap × TickMaps → List Nat → Option (SnakeHeap × TickMaps)
  | state, [] => some state
  | state, n :: ns =>
    match NextStepH width height apple dirs refs state n with
    | none => none
    | some state' => NextLoopH width height apple dirs refs state' ns

/-- The heap-level tail-collision pass. -/
def tailCollisionsH (tails : List (Location × Nat)) (nhl : List (Location × Nat))
    (refs : List Nat) (σ : SnakeHeap) : SnakeHeap :=
  nhl.foldl
    (fun σ entry =>
      if (alookup tails entry.1).isSome then
        writeSnakeAt σ refs entry.2
          { readSnake σ (refs.getD entry.2 0) with Alive := false }
      else σ)
    σ

/-- `State.Next` on the pointer structure: clone, tick loop, tail pass,
apple relocation — every write lands in a cell allocated by `clone`. -/
def State.NextH (σs : SnakeHeap) (σa : AppleHeap) (st : StateRef)
    (snakeDirections : List Direction) (fuel : Nat) :
    Option (SnakeHeap × AppleHeap × StateRef) :=
  if snakeDirections.length ≠ st.SnakeRefs.length then none
  else
    let (σs, σa, next, _maxLength) := State.clone σs σa st
    let init : TickMaps :=
      { tails := [], headLocations := [],
        nextHeadLocations := [], repositionApple := false }
    match NextLoopH next.Width next.Height (σa.getD next.AppleRef default)
        snakeDirections next.SnakeRefs (σs, init)
        (List.range next.SnakeRefs.length) with
    | none => none
    | some (σs, acc) =>
      let σs := tailCollisionsH acc.tails acc.nextHeadLocations next.SnakeRefs σs
      if acc.repositionApple then
        match GenerateAppleLocation next.Width next.Height
            (next.SnakeRefs.map (readSnake σs)) fuel with
        | none => none
        | some a => some (σs, σa.set next.AppleRef a, next)
      else
        some (σs, σa, next)

/-! ## `State.IsCompleted` (`state.go` lines 292-308) -/

/-- The loop inside `IsCompleted`, with the accumulator variables `alive`
and `nonAlive`; the early `return false, 0` is modeled by returning
immediately. -/
def isCompletedLoop : List (Nat × Snake) → Int → Bool → Bool × Int
  | [], alive, nonAlive => (decide (0 ≤ alive) || nonAlive, alive)
  | (snakeNo, snake) :: rest, alive, nonAlive =>
    if snake.Alive then
      if 0 ≤ alive then (false, 0)
      else isCompletedLoop rest (snakeNo : Int) false
    else isCompletedLoop rest alive nonAlive

/-- `State.IsCompleted`: whether the game is over and the winning slot
(`-1` when no snake is left alive). -/
def State.IsCompleted (s : State) : Bool × Int :=
  isCompletedLoop s.Snakes.enum (-1) true

/-! ## Coordinator models (`server.go`)

Only the state touched by the claims is modeled: the stop signal
(`isStopped` flag + `stopped` channel), the client list with its
coalescing `clientsUpdated` notification, and the control flow of one
pass of `Server.Run` around its wait points. -/

/-- The stop signal of `Server`: `isStopped uint32` and whether the
`stopped` channel has been closed. -/
structure ServerStop where
  isStopped : Nat
  stoppedClosed : Bool
deriving DecidableEq, Repr

/-- `Server.Stop` (`server.go` lines 129-133): compare-and-swap
`isStopped` from 0 to 1; close the channel only on the winning call.
(Closing an already-closed channel would crash — the CAS prevents it.) -/
def Server.Stop (s : ServerStop) : ServerStop :=
  if s.isStopped = 0 then { isStopped := 1, stoppedClosed := true } else s

/-- What one pass of `Server.Run`'s waiting/pre-round section does next.
`returned` would be the run loop terminating — no path in the source
produces it. -/
inductive RunOutcome where
  | continueWaiting
  | unlockPanic
  | blocked
  | proceedsIntoRound
  | returned
deriving DecidableEq, Repr

/-- The control flow of `Server.Run` (`server.go` lines 154-196) from the
top of the `for` loop to the round setup, as a function of the client
count, whether `stopped` is closed, and whether a `clientsUpdated`
signal arrives at the select (when both are ready Go picks either; the
claims below use configurations where only one is ready).

With fewer than two clients the loop broadcasts the waiting message,
unlocks `clientsMu` and selects: a roster change restarts the loop
(`continue`); the stop branch executes `break`, which in Go terminates
only the `select`, so control falls out of the `if` block to the
pre-round broadcast and then to `s.clientsMu.Unlock()` — a second unlock
of an already-unlocked mutex, which crashes at run time
(`unlockPanic`).  With two or more clients the pre-round select's stop
branch likewise only exits its `select`, and control proceeds into the
round setup (`proceedsIntoRound`); there is no `return` anywhere in
`Run`. -/
def Server.RunWaitIteration (clientCount : Nat) (stoppedClosed updatePending : Bool) :
    RunOutcome :=
  if clientCount < 2 then
    if updatePending then .continueWaiting
    else if stoppedClosed then .unlockPanic
    else .blocked
  else .proceedsIntoRound

/-- A registered client, reduced to the identity the registry inspects. -/
structure ClientRec where
  id : String
deriving DecidableEq, Repr

/-- The registry state of `Server`: the client list and the single-slot
`clientsUpdated` channel (a `Bool`: occupied or empty). -/
structure ServerClients where
  clients : List ClientRec
  clientsUpdated : Bool
deriving DecidableEq, Repr

/-- `Server.signalClientsUpdated` (`server.go` lines 115-120): a
non-blocking send on the 1-buffered channel; if a signal is already
pending the new one coalesces into it. -/
def Server.signalClientsUpdated (s : ServerClients) : ServerClients :=
  { s with clientsUpdated := true }

/-- `Server.AddClient` (`server.go` lines 244-258): reject when an
existing client has the same `ID`, otherwise append and signal.  The
result is the registry state after the call (unchanged on the error
path, which returns before any mutation) together with the returned
error, if any. -/
def Server.AddClient (s : ServerClients) (c : ClientRec) :
    ServerClients × Option String :=
  if s.clients.any (fun client => client.id = c.id) then
    (s, some "duplicate client ID")
  else
    (Server.signalClientsUpdated { s with clients := s.clients ++ [c] }, none)

/-! ## Derived observations used by the theorems

Total functions reading slot `n` of a state: its alive flag, current
head, and the head it would move to under a direction vector.  These are
the vocabulary in which the collision claims are stated. -/

/-- The alive flag of slot `n` (`false` when out of range). -/
def aliveAt (s : State) (n : Nat) : Bool :=
  (s.Snakes[n]?.map Snake.Alive).getD false

/-- The current head of slot `n`. -/
def headAt (s : State) (n : Nat) : Option Location :=
  s.Snakes[n]?.bind (fun sn => sn.Pieces.head?)

/-- The head slot `n` would move to this tick. -/
def plannedAt (s : State) (dirs : List Direction) (n : Nat) : Option Location :=
  match headAt s n, dirs[n]? with
  | some h0, some d => some (NextLocation h0 d)
  | _, _ => none

/-- Slot `m` of a snake list holds a dead snake. -/
def deadIn (l : List Snake) (m : Nat) : Prop :=
  l[m]?.map Snake.Alive = some false

/-- The post-shift body of a snake this tick (`state.go` lines 248-258):
after the optional apple growth and the downward shift, the segments at
indices `≥ 1` are the pre-move segments without the last one. -/
def postShiftBody (apple : Location) (sn : Snake) (dir : Direction) : List Location :=
  match sn.Pieces with
  | [] => []
  | p0 :: _ =>
    let nextLoc := NextLocation p0 dir
    let sn := if nextLoc = apple then { sn with Length := sn.Length + 1 } else sn
    let sn :=
      if (sn.Pieces.length : Int) < sn.Length then
        { sn with Pieces := sn.Pieces ++ [⟨0, 0⟩] }
      else sn
    sn.Pieces.dropLast

/-- The post-shift body of slot `m` this tick. -/
def postShiftAt (s : State) (dirs : List Direction) (m : Nat) : List Location :=
  match s.Snakes[m]?, dirs[m]? with
  | some sn, some dir => postShiftBody s.Apple sn dir
  | _, _ => []

/-- Slots `a` and `b` form a head swap this tick: both alive, and each
one's planned head is the other's current head. -/
def swapPairB (s : State) (dirs : List Direction) (a b : Nat) : Bool :=
  aliveAt s a && aliveAt s b && a != b &&
    match headAt s a, headAt s b, plannedAt s dirs a, plannedAt s dirs b with
    | some ha, some hb, some pa, some pb => pa == hb && pb == ha
    | _, _, _, _ => false

/-! ## Closed-form evaluation of the seeding LCG

`seedrand` is the Lehmer generator `x ↦ 48271 · x mod (2^31 - 1)`
implemented with Schrage's decomposition `2^31 - 1 = 48271·44488 + 3399`.
Its `n`-fold iterate therefore has the closed form
`48271^n · x mod (2^31 - 1)`, which the kernel can evaluate with a single
modular power; this is what makes the concrete witnesses below
kernel-checkable. -/

/-- Splitting an iterated burn. -/
theorem seedBurn_add (a b x : Nat) :
    seedBurn (a + b) x = seedBurn b (seedBurn a x) := by
  induction a generalizing x with
  | zero => rw [Nat.zero_add]; rfl
  | succ a ih =>
    rw [show a + 1 + b = (a + b) + 1 by omega]
    exact ih (seedrand x)

/-- The third LCG draw of a seeding entry is three `seedrand` steps. -/
theorem seedEntry_snd (x c : Nat) : (seedEntry x c).2 = seedBurn 3 x := rfl

/-- The seeding fold produces `seedVecList` (reversed, as the loop
conses) and advances the LCG three steps per entry. -/
theorem seedStep_foldl (cs : List Nat) :
    ∀ (acc : List Nat) (x : Nat),
      cs.foldl seedStep (acc, x) =
        ((seedVecList x cs).reverse ++ acc, seedBurn (3 * cs.length) x) := by
  induction cs with
  | nil => intro acc x; rfl
  | cons c rest ih =>
    intro acc x
    show rest.foldl seedStep (seedStep (acc, x) c) = _
    rw [show seedStep (acc, x) c = ((seedEntry x c).1 :: acc, (seedEntry x c).2) from rfl,
        ih ((seedEntry x c).1 :: acc) (seedEntry x c).2]
    simp only [Prod.mk.injEq]
    refine ⟨?_, ?_⟩
    · simp [seedVecList, List.append_assoc]
    · rw [seedEntry_snd, ← seedBurn_add, List.length_cons,
        show 3 + 3 * rest.length = 3 * (rest.length + 1) by ring]

/-- `rngSource.Seed` in terms of `seedVecList`. -/
theorem Seed_eq_vecList (s : Int) :
    rngSource.Seed s =
      ⟨seedVecList (seedBurn 20 (seedInit s)) rngCooked, 0, 334⟩ := by
  show rngSource.mk
      ((rngCooked.foldl seedStep ([], seedBurn 20 (seedInit s))).1.reverse) 0 (607 - 273) = _
  rw [seedStep_foldl]
  simp

/-- `seedVecList` drawn against an explicit chain of LCG checkpoints. -/
theorem seedVecList_eq_zipWith (cs : List Nat) :
    ∀ x : Nat,
      seedVecList x cs =
        List.zipWith (fun xj c => (seedEntry xj c).1) (xchainList x cs.length) cs := by
  induction cs with
  | nil => intro x; rfl
  | cons c rest ih =>
    intro x
    show (seedEntry x c).1 :: seedVecList (seedEntry x c).2 rest = _
    rw [ih (seedEntry x c).2, seedEntry_snd]
    rfl

set_option maxRecDepth 8000 in
/-- The LCG chain for checksum `9957458776116166655` is `xChainA`. -/
theorem xChainA_eq : xchainList 975443161 607 = xChainA := by decide

set_option maxRecDepth 8000 in
/-- The LCG chain for checksum `10941249004091998207` is `xChainB`. -/
theorem xChainB_eq : xchainList 2106503103 607 = xChainB := by decide

set_option maxRecDepth 8000 in
/-- Evaluation of `rngSource.Seed` at checksum `9957458776116166655`. -/
theorem Seed_valA :
    rngSource.Seed (int64OfUint64 9957458776116166655) = ⟨seedVecA, 0, 334⟩ := by
  refine (Seed_eq_vecList _).trans ?_
  refine congrArg (fun v => rngSource.mk v 0 334) ?_
  refine Eq.trans (congrArg (fun x => seedVecList x rngCooked)
    (show seedBurn 20 (seedInit (int64OfUint64 9957458776116166655)) = 975443161 from by
      decide)) ?_
  show seedVecList _ rngCooked = _
  rw [seedVecList_eq_zipWith, show rngCooked.length = 607 from by decide, xChainA_eq]
  decide

set_option maxRecDepth 8000 in
/-- Evaluation of `rngSource.Seed` at checksum `10941249004091998207`. -/
theorem Seed_valB :
    rngSource.Seed (int64OfUint64 10941249004091998207) = ⟨seedVecB, 0, 334⟩ := by
  refine (Seed_eq_vecList _).trans ?_
  refine congrArg (fun v => rngSource.mk v 0 334) ?_
  refine Eq.trans (congrArg (fun x => seedVecList x rngCooked)
    (show seedBurn 20 (seedInit (int64OfUint64 10941249004091998207)) = 2106503103 from by
      decide)) ?_
  show seedVecList _ rngCooked = _
  rw [seedVecList_eq_zipWith, show rngCooked.length = 607 from by decide, xChainB_eq]
  decide

/-- `GenerateAppleLocation` once the checksum is known. -/
theorem GenerateAppleLocation_eq (width height : Int) (snakes : List Snake)
    (fuel : Nat) (u : Nat) (hs : appleSeed snakes = some u) :
    GenerateAppleLocation width height snakes fuel =
      appleLoop width height snakes fuel (rngSource.Seed (int64OfUint64 u)) := by
  unfold GenerateAppleLocation
  rw [hs]

/-- Indexing success implies membership (helper). -/
theorem mem_of_getElem?_eq {α : Type} {l : List α} {i : Nat} {a : α}
    (h : l[i]? = some a) : a ∈ l := by
  rcases List.getElem?_eq_some.mp h with ⟨hlt, rfl⟩
  exact List.getElem_mem _

/-! ## `IsCompleted` loop lemmas -/

/-- A stretch of dead snakes leaves the loop accumulators untouched. -/
theorem isCompletedLoop_none (l : List Snake) :
    ∀ (off : Nat) (a : Int) (na : Bool), (∀ sn ∈ l, sn.Alive = false) →
      isCompletedLoop (List.enumFrom off l) a na = (decide (0 ≤ a) || na, a) := by
  induction l with
  | nil => intro off a na _; rfl
  | cons c rest ih =>
    intro off a na h
    have hc : c.Alive = false := h c (List.mem_cons_self ..)
    show isCompletedLoop ((off, c) :: List.enumFrom (off + 1) rest) a na = _
    rw [isCompletedLoop, hc]
    simpa using ih (off + 1) a na (fun sn hs => h sn (List.mem_cons_of_mem _ hs))

/-- Once a winner candidate is recorded, any further alive snake makes the
loop return `false`. -/
theorem isCompletedLoop_false_of_alive (l : List Snake) :
    ∀ (off : Nat) (a : Int) (na : Bool), 0 ≤ a → (∃ sn ∈ l, sn.Alive = true) →
      (isCompletedLoop (List.enumFrom off l) a na).1 = false := by
  induction l with
  | nil => intro off a na _ h; simp at h
  | cons c rest ih =>
    intro off a na ha h
    show (isCompletedLoop ((off, c) :: List.enumFrom (off + 1) rest) a na).1 = false
    rw [isCompletedLoop]
    by_cases hc : c.Alive = true
    · simp [hc, ha]
    · rcases h with ⟨sn, hmem, halive⟩
      rcases List.mem_cons.mp hmem with rfl | hmem'
      · exact absurd halive hc
      · simp only [hc]
        simpa using ih (off + 1) a na ha ⟨sn, hmem', halive⟩

/-- A single alive snake at index `i` yields `(true, off + i)`. -/
theorem isCompletedLoop_one (l : List Snake) :
    ∀ (off i : Nat) (si : Snake), l[i]? = some si → si.Alive = true →
      (∀ j sj, l[j]? = some sj → sj.Alive = true → j = i) →
      isCompletedLoop (List.enumFrom off l) (-1) true = (true, ((off + i : Nat) : Int)) := by
  induction l with
  | nil => intro off i si hi; simp at hi
  | cons c rest ih =>
    intro off i si hi ha huniq
    show isCompletedLoop ((off, c) :: List.enumFrom (off + 1) rest) (-1) true = _
    rw [isCompletedLoop]
    by_cases hc : c.Alive = true
    · have hi0 : i = 0 := (huniq 0 c (by simp) hc).symm
      subst hi0
      have hnone : ∀ sn ∈ rest, sn.Alive = false := by
        intro sn hmem
        by_contra hne
        rcases List.getElem_of_mem hmem with ⟨j, hj, rfl⟩
        have hj' : (c :: rest)[j + 1]? = some rest[j] := by
          rw [List.getElem?_cons_succ]
          exact List.getElem?_eq_getElem hj
        have := huniq (j + 1) _ hj' (by simpa using hne)
        omega
      rw [if_pos hc, if_neg (by norm_num : ¬(0 : Int) ≤ -1)]
      rw [isCompletedLoop_none rest (off + 1) (off : Int) false hnone]
      simp
    · have hine : i ≠ 0 := by
        intro h0
        subst h0
        simp only [List.getElem?_cons_zero, Option.some.injEq] at hi
        exact hc (hi ▸ ha)
      obtain ⟨i', rfl⟩ := Nat.exists_eq_succ_of_ne_zero hine
      rw [if_neg hc]
      have hrec := ih (off + 1) i' si (by simpa using hi) ha
        (fun j sj hj haj => by
          have := huniq (j + 1) sj (by simpa using hj) haj
          omega)
      rw [hrec, show off + 1 + i' = off + i'.succ from by omega]

/-- Two distinct alive snakes force a `false` verdict whatever the
accumulators are. -/
theorem isCompletedLoop_two (l : List Snake) :
    ∀ (off i j : Nat) (si sj : Snake), i ≠ j →
      l[i]? = some si → si.Alive = true → l[j]? = some sj → sj.Alive = true →
      ∀ (a : Int) (na : Bool), (isCompletedLoop (List.enumFrom off l) a na).1 = false := by
  induction l with
  | nil => intro off i j si sj _ hi; simp at hi
  | cons c rest ih =>
    intro off i j si sj hij hi hai hj haj a na
    show (isCompletedLoop ((off, c) :: List.enumFrom (off + 1) rest) a na).1 = false
    rw [isCompletedLoop]
    by_cases hc : c.Alive = true
    · by_cases ha : (0 : Int) ≤ a
      · rw [if_pos hc, if_pos ha]
      · rw [if_pos hc, if_neg ha]
        have hex : ∃ sn ∈ rest, sn.Alive = true := by
          rcases Nat.eq_zero_or_pos i with rfl | hipos
          · obtain ⟨j', rfl⟩ := Nat.exists_eq_succ_of_ne_zero (Ne.symm hij)
            exact ⟨sj, mem_of_getElem?_eq (by simpa using hj), haj⟩
          · obtain ⟨i', rfl⟩ := Nat.exists_eq_succ_of_ne_zero (Nat.pos_iff_ne_zero.mp hipos)
            exact ⟨si, mem_of_getElem?_eq (by simpa using hi), hai⟩
        exact isCompletedLoop_false_of_alive rest (off + 1) (off : Int) false
          (Int.natCast_nonneg off) hex
    · have hine : i ≠ 0 := by
        intro h0; subst h0
        simp only [List.getElem?_cons_zero, Option.some.injEq] at hi
        exact hc (hi ▸ hai)
      have hjne : j ≠ 0 := by
        intro h0; subst h0
        simp only [List.getElem?_cons_zero, Option.some.injEq] at hj
        exact hc (hj ▸ haj)
      obtain ⟨i', rfl⟩ := Nat.exists_eq_succ_of_ne_zero hine
      obtain ⟨j', rfl⟩ := Nat.exists_eq_succ_of_ne_zero hjne
      rw [if_neg hc]
      exact ih (off + 1) i' j' si sj (by omega) (by simpa using hi) hai
        (by simpa using hj) haj a na

/-! ## Claim theorems: coordinator and registry -/

/-- C8: `IsCompleted` returns `(true, -1)` when zero snakes are alive,
`(true, s)` when exactly one snake is alive and `s` is its slot index,
and `(false, _)` when two or more snakes are alive. -/
theorem C8_IsCompleted_spec (s : State) :
    ((∀ sn ∈ s.Snakes, sn.Alive = false) → s.IsCompleted = (true, -1)) ∧
    (∀ (i : Nat) (si : Snake), s.Snakes[i]? = some si → si.Alive = true →
      (∀ (j : Nat) (sj : Snake), s.Snakes[j]? = some sj → sj.Alive = true → j = i) →
      s.IsCompleted = (true, (i : Int))) ∧
    (∀ (i j : Nat) (si sj : Snake), i ≠ j → s.Snakes[i]? = some si → si.Alive = true →
      s.Snakes[j]? = some sj → sj.Alive = true → (s.IsCompleted).1 = false) := by
  refine ⟨?_, ?_, ?_⟩
  · intro h
    show isCompletedLoop (List.enumFrom 0 s.Snakes) (-1) true = _
    rw [isCompletedLoop_none s.Snakes 0 (-1) true h]
    rfl
  · intro i si hi ha hu
    have h := isCompletedLoop_one s.Snakes 0 i si hi ha hu
    simpa using h
  · intro i j si sj hij hi hai hj haj
    exact isCompletedLoop_two s.Snakes 0 i j si sj hij hi hai hj haj (-1) true

/-- C8 witness: the three cases at concrete states. -/
theorem C8_IsCompleted_spec_witness :
    State.IsCompleted ⟨2, 2, [⟨false, 1, [⟨0, 0⟩]⟩], ⟨1, 1⟩⟩ = (true, -1) ∧
    State.IsCompleted ⟨3, 3, [⟨false, 1, []⟩, ⟨true, 1, [⟨1, 1⟩]⟩], ⟨0, 0⟩⟩ = (true, 1) ∧
    (State.IsCompleted ⟨3, 3, [⟨true, 1, [⟨0, 0⟩]⟩, ⟨true, 1, [⟨1, 1⟩]⟩], ⟨2, 2⟩⟩).1 = false := by
  refine ⟨(C8_IsCompleted_spec _).1 (by decide),
    (C8_IsCompleted_spec _).2.1 1 ⟨true, 1, [⟨1, 1⟩]⟩ (by decide) (by decide) ?_,
    (C8_IsCompleted_spec _).2.2 0 1 ⟨true, 1, [⟨0, 0⟩]⟩ ⟨true, 1, [⟨1, 1⟩]⟩
      (by decide) (by decide) (by decide) (by decide) (by decide)⟩
  intro j sj hj haj
  match j, hj with
  | 0, hj => simp only [List.getElem?_cons_zero, Option.some.injEq] at hj; subst hj; simp at haj
  | 1, _ => rfl
  | n + 2, hj => simp at hj

/-- C9: `AddClient` returns a duplicate-identity error and leaves the
client list unchanged when an already-registered client has the same ID;
otherwise it appends the client, raises the roster-changed signal, and
returns no error. -/
theorem C9_AddClient_spec (s : ServerClients) (c : ClientRec) :
    ((∃ cl ∈ s.clients, cl.id = c.id) →
      Server.AddClient s c = (s, some "duplicate client ID")) ∧
    ((∀ cl ∈ s.clients, cl.id ≠ c.id) →
      Server.AddClient s c =
        ({ clients := s.clients ++ [c], clientsUpdated := true }, none)) := by
  constructor
  · intro h
    have : s.clients.any (fun client => client.id = c.id) = true := by
      rcases h with ⟨cl, hmem, hid⟩
      exact List.any_eq_true.mpr ⟨cl, hmem, by simpa using hid⟩
    simp [Server.AddClient, this]
  · intro h
    have : s.clients.any (fun client => client.id = c.id) = false := by
      rw [List.any_eq_false]
      intro cl hmem
      simpa using h cl hmem
    simp [Server.AddClient, this, Server.signalClientsUpdated]

/-- C9 witness: a duplicate rejection and a successful insertion. -/
theorem C9_AddClient_spec_witness :
    Server.AddClient ⟨[⟨"ann"⟩], false⟩ ⟨"ann"⟩ =
      (⟨[⟨"ann"⟩], false⟩, some "duplicate client ID") ∧
    Server.AddClient ⟨[⟨"ann"⟩], false⟩ ⟨"bob"⟩ =
      (⟨[⟨"ann"⟩, ⟨"bob"⟩], true⟩, none) := by
  exact ⟨(C9_AddClient_spec ⟨[⟨"ann"⟩], false⟩ ⟨"ann"⟩).1 ⟨⟨"ann"⟩, by simp, rfl⟩,
    (C9_AddClient_spec ⟨[⟨"ann"⟩], false⟩ ⟨"bob"⟩).2 (by simp)⟩

/-- C3 (code bug): with a stop requested, the wait point of
`WaitingForPlayers` does not terminate the run loop — the `break` in the
`select` only exits the `select`, control falls through to a second
`Unlock` of the already-unlocked `clientsMu` and crashes; no path of
`Run` produces `returned`.  The one-shot/idempotent half of the claim
does hold: `Stop` is a CAS-guarded close, and repeated calls are
no-ops. -/
theorem C3_stop_observed_as_bug :
    Server.RunWaitIteration 0 true false = RunOutcome.unlockPanic ∧
    (∀ (clientCount : Nat) (stopClosed updatePending : Bool),
      Server.RunWaitIteration clientCount stopClosed updatePending ≠ RunOutcome.returned) ∧
    (∀ st : ServerStop, Server.Stop (Server.Stop st) = Server.Stop st) := by
  refine ⟨rfl, ?_, ?_⟩
  · intro clientCount stopClosed updatePending
    unfold Server.RunWaitIteration
    split
    · split
      · simp
      · split <;> simp
    · simp
  · intro st
    unfold Server.Stop
    by_cases h : st.isStopped = 0 <;> simp [h]

/-! ## Machinery for the tick loop of `Next`

The loop is analyzed through an invariant over the processed prefix of
slots, plus per-step monotonicity (map entries persist, deaths persist,
the apple flag persists). -/

/-- Unfolding lemma for `alookup` on a cons cell. -/
theorem alookup_cons {α β : Type} [DecidableEq α] (k : α) (v : β)
    (l : List (α × β)) (a : α) :
    alookup ((k, v) :: l) a = if a = k then some v else alookup l a := rfl

/-- A hit in the right part of an append is still a hit. -/
theorem alookup_append_isSome {α β : Type} [DecidableEq α]
    (xs ys : List (α × β)) (a : α) (h : (alookup ys a).isSome = true) :
    (alookup (xs ++ ys) a).isSome = true := by
  induction xs with
  | nil => simpa using h
  | cons x rest ih =>
    rcases x with ⟨k, v⟩
    rw [List.cons_append, alookup_cons]
    split
    · rfl
    · exact ih

/-- A lookup hit names an entry of the list. -/
theorem alookup_mem {α β : Type} [DecidableEq α]
    (l : List (α × β)) (a : α) (v : β) (h : alookup l a = some v) : (a, v) ∈ l := by
  induction l with
  | nil => simp [alookup] at h
  | cons x rest ih =>
    rcases x with ⟨k, w⟩
    rw [alookup_cons] at h
    split at h
    · cases h
      subst ‹a = k›
      exact List.mem_cons_self ..
    · exact List.mem_cons_of_mem _ (ih h)

/-- The tick loop over a concatenation is the composition of the loops. -/
theorem NextLoop_append (width height : Int) (apple : Location)
    (dirs : List Direction) (l1 l2 : List Nat) :
    ∀ acc : TickState,
      NextLoop width height apple dirs acc (l1 ++ l2) =
        (NextLoop width height apple dirs acc l1).bind
          (fun acc' => NextLoop width height apple dirs acc' l2) := by
  induction l1 with
  | nil => intro acc; rfl
  | cons n rest ih =>
    intro acc
    show (match NextStep width height apple dirs acc n with
          | none => none
          | some acc' => NextLoop width height apple dirs acc' (rest ++ l2)) = _
    cases hstep : NextStep width height apple dirs acc n with
    | none => simp [NextLoop, hstep]
    | some acc' =>
      simpa [NextLoop, hstep] using ih acc'

/-- The invariant carried through the tick loop after the slots `< n`
have been processed. -/
structure LoopInv (s : State) (dirs : List Direction) (n : Nat)
    (acc : TickState) : Prop where
  len : acc.Snakes.length = s.Snakes.length
  untouched : ∀ j, n ≤ j → acc.Snakes[j]? = s.Snakes[j]?
  nhl_sound : ∀ L m, alookup acc.nextHeadLocations L = some m →
    m < n ∧ aliveAt s m = true ∧ plannedAt s dirs m = some L
  hl_sound : ∀ p q m, alookup acc.headLocations (p, q) = some m →
    m < n ∧ aliveAt s m = true ∧ headAt s m = some p ∧ plannedAt s dirs m = some q
  hl_nhl : ∀ p q m, alookup acc.headLocations (p, q) = some m →
    alookup acc.nextHeadLocations q = some m
  tails_elems : ∀ m, m < n → aliveAt s m = true →
    ∀ L, L ∈ postShiftAt s dirs m → (alookup acc.tails L).isSome = true

/-- The invariant holds initially. -/
theorem LoopInv_init (s : State) (dirs : List Direction) :
    LoopInv s dirs 0
      { Snakes := s.Snakes, tails := [], headLocations := [],
        nextHeadLocations := [], repositionApple := false } where
  len := rfl
  untouched := fun _ _ => rfl
  nhl_sound := fun L m h => by simp [alookup] at h
  hl_sound := fun p q m h => by simp [alookup] at h
  hl_nhl := fun p q m h => by simp [alookup] at h
  tails_elems := fun m hm => by omega

/-- Writing a dead snake anywhere preserves a recorded death. -/
theorem deadIn_set_dead (l : List Snake) (i : Nat) (v : Snake)
    (hv : v.Alive = false) (m : Nat) (hm : deadIn l m) : deadIn (l.set i v) m := by
  by_cases h : i = m
  · subst h
    unfold deadIn at hm ⊢
    rw [List.getElem?_set_self']
    cases hl : l[i]? with
    | none => rw [hl] at hm; cases hm
    | some w => simp [hl, hv]
  · unfold deadIn at hm ⊢
    rw [List.getElem?_set_ne h]
    exact hm

/-- Overwriting a slot that currently holds an alive snake preserves a
recorded death (the dead slot must be a different one). -/
theorem deadIn_set_alive (l : List Snake) (i : Nat) (v : Snake) (m : Nat)
    (hm : deadIn l m) (halive : l[i]?.map Snake.Alive = some true) :
    deadIn (l.set i v) m := by
  have hne : i ≠ m := by
    intro h
    subst h
    unfold deadIn at hm
    rw [hm] at halive
    cases halive
  unfold deadIn at hm ⊢
  rw [List.getElem?_set_ne hne]
  exact hm

/-- A key freshly recorded for every element of `xs` is found. -/
theorem alookup_map_self_isSome (xs : List Location) (v : Nat)
    (ys : List (Location × Nat)) (L : Location) (hm : L ∈ xs) :
    (alookup (xs.map (fun l => (l, v)) ++ ys) L).isSome = true := by
  induction xs with
  | nil => cases hm
  | cons x rest ih =>
    rw [List.map_cons, List.cons_append, alookup_cons]
    split
    · rfl
    · rcases List.mem_cons.mp hm with rfl | hm'
      · simp_all
      · exact ih hm'

/-- One tick-loop step only adds map entries, deaths and the apple flag:
existing `nextHeadLocations`/`headLocations` bindings, `tails` hits,
recorded deaths and a raised flag all persist, and the snake-array length
is unchanged.  The co-registration hypothesis rules out a duplicate
`headLocations` key. -/
theorem NextStep_mono (w h : Int) (apple : Location) (dirs : List Direction)
    (acc acc' : TickState) (n : Nat)
    (hcoreg : ∀ p q m, alookup acc.headLocations (p, q) = some m →
      alookup acc.nextHeadLocations q = some m)
    (hstep : NextStep w h apple dirs acc n = some acc') :
    acc'.Snakes.length = acc.Snakes.length ∧
    (∀ L m, alookup acc.nextHeadLocations L = some m →
      alookup acc'.nextHeadLocations L = some m) ∧
    (∀ p m, alookup acc.headLocations p = some m →
      alookup acc'.headLocations p = some m) ∧
    (∀ L, (alookup acc.tails L).isSome = true →
      (alookup acc'.tails L).isSome = true) ∧
    (∀ m, deadIn acc.Snakes m → deadIn acc'.Snakes m) ∧
    (acc.repositionApple = true → acc'.repositionApple = true) := by
  unfold NextStep at hstep
  cases hsn : acc.Snakes[n]? with
  | none => rw [hsn] at hstep; cases hstep
  | some snake =>
    simp only [hsn] at hstep
    by_cases hal : snake.Alive = true
    case neg =>
      rw [if_pos (by simp [Bool.eq_false_iff.mpr hal])] at hstep
      cases hstep
      exact ⟨rfl, fun _ _ h => h, fun _ _ h => h, fun _ h => h, fun _ h => h, fun h => h⟩
    case pos =>
      rw [if_neg (by simp [hal])] at hstep
      cases hp : snake.Pieces with
      | nil => simp only [hp] at hstep; cases hstep
      | cons p0 prest =>
        simp only [hp] at hstep
        cases hd : dirs[n]? with
        | none => simp only [hd] at hstep; cases hstep
        | some dir =>
          simp only [hd] at hstep
          have halive_n : acc.Snakes[n]?.map Snake.Alive = some true := by
            simp [hsn, hal]
          split at hstep
          · -- wall collision
            cases hstep
            refine ⟨by simp, fun _ _ h => h, fun _ _ h => h,
              fun L hL => alookup_append_isSome _ _ _ hL,
              fun m hm => deadIn_set_dead _ _ _ rfl _ hm, fun hf => by simp [hf]⟩
          · split at hstep
            · -- head collision: both snakes die
              cases hstep
              refine ⟨?_, fun _ _ h => h, fun _ _ h => h,
                fun L hL => alookup_append_isSome _ _ _ hL, ?_, fun hf => by simp [hf]⟩
              · dsimp only
                split <;> simp
              · intro m hm
                dsimp only
                split
                · exact deadIn_set_dead _ _ _ rfl _ (deadIn_set_dead _ _ _ rfl _ hm)
                · exact deadIn_set_dead _ _ _ rfl _ hm
            · split at hstep
              · -- head swap: both snakes die
                cases hstep
                refine ⟨?_, fun _ _ h => h, fun _ _ h => h,
                  fun L hL => alookup_append_isSome _ _ _ hL, ?_, fun hf => by simp [hf]⟩
                · dsimp only
                  split <;> simp
                · intro m hm
                  dsimp only
                  split
                  · exact deadIn_set_dead _ _ _ rfl _ (deadIn_set_dead _ _ _ rfl _ hm)
                  · exact deadIn_set_dead _ _ _ rfl _ hm
              · -- survived: register the pair and the planned head
                cases hstep
                rename_i hbounds hnhl hhl
                refine ⟨by simp, ?_, ?_,
                  fun L hL => alookup_append_isSome _ _ _ hL,
                  fun m hm => deadIn_set_alive _ _ _ _ hm halive_n,
                  fun hf => by simp [hf]⟩
                · intro L m hLm
                  dsimp only
                  rw [alookup_cons]
                  split
                  · rename_i hLeq
                    rw [hLeq] at hLm
                    rw [hbounds] at hLm
                    cases hLm
                  · exact hLm
                · intro p m hpm
                  dsimp only
                  rw [alookup_cons]
                  split
                  · rename_i hpeq
                    rw [hpeq] at hpm
                    have hco := hcoreg _ _ _ hpm
                    rw [hbounds] at hco
                    cases hco
                  · exact hpm

/-- The step at slot `n` preserves the loop invariant, advancing the
processed prefix. -/
theorem LoopInv_step (s : State) (dirs : List Direction) (n : Nat)
    (acc acc' : TickState) (inv : LoopInv s dirs n acc)
    (hstep : NextStep s.Width s.Height s.Apple dirs acc n = some acc') :
    LoopInv s dirs (n + 1) acc' := by
  unfold NextStep at hstep
  cases hsn : acc.Snakes[n]? with
  | none => rw [hsn] at hstep; cases hstep
  | some snake =>
    simp only [hsn] at hstep
    have hsn_s : s.Snakes[n]? = some snake := (inv.untouched n le_rfl).symm.trans hsn
    by_cases hal : snake.Alive = true
    case neg =>
      rw [if_pos (by simp [Bool.eq_false_iff.mpr hal])] at hstep
      cases hstep
      have halive_false : aliveAt s n = false := by
        simp [aliveAt, hsn_s, Bool.eq_false_iff.mpr hal]
      exact
        { len := inv.len
          untouched := fun j hj => inv.untouched j (by omega)
          nhl_sound := fun L m hm => by
            have := inv.nhl_sound L m hm
            exact ⟨by omega, this.2⟩
          hl_sound := fun p q m hm => by
            have := inv.hl_sound p q m hm
            exact ⟨by omega, this.2⟩
          hl_nhl := inv.hl_nhl
          tails_elems := fun m hm halm L hL => by
            rcases Nat.lt_or_ge m n with h' | h'
            · exact inv.tails_elems m h' halm L hL
            · have hmn : m = n := by omega
              subst hmn
              rw [halive_false] at halm
              cases halm }
    case pos =>
      rw [if_neg (by simp [hal])] at hstep
      cases hp : snake.Pieces with
      | nil => simp only [hp] at hstep; cases hstep
      | cons p0 prest =>
        simp only [hp] at hstep
        cases hd : dirs[n]? with
        | none => simp only [hd] at hstep; cases hstep
        | some dir =>
          simp only [hd] at hstep
          have halive_n : aliveAt s n = true := by simp [aliveAt, hsn_s, hal]
          have hplanned_n : plannedAt s dirs n = some (NextLocation p0 dir) := by
            simp [plannedAt, headAt, hsn_s, hp, hd]
          have hhead_n : headAt s n = some p0 := by
            simp [headAt, hsn_s, hp]
          split at hstep
          · -- wall collision
            cases hstep
            refine
              { len := by simpa using inv.len
                untouched := fun j hj => ?_
                nhl_sound := fun L m hm => ?_
                hl_sound := fun p q m hm => ?_
                hl_nhl := inv.hl_nhl
                tails_elems := fun m hm halm L hL => ?_ }
            · dsimp only
              rw [List.getElem?_set_ne (by omega : n ≠ j)]
              exact inv.untouched j (by omega)
            · have := inv.nhl_sound L m hm
              exact ⟨by omega, this.2⟩
            · have := inv.hl_sound p q m hm
              exact ⟨by omega, this.2⟩
            · rcases Nat.lt_or_ge m n with h' | h'
              · exact alookup_append_isSome _ _ _ (inv.tails_elems m h' halm L hL)
              · have hmn : m = n := by omega
                subst hmn
                simp only [postShiftAt, hsn_s, hd, postShiftBody, hp] at hL
                exact alookup_map_self_isSome _ _ _ _ hL
          · split at hstep
            · -- head collision: this snake and the registrant both die
              rename_i other hother
              have hother_lt : other < n := (inv.nhl_sound _ _ hother).1
              cases hstep
              refine
                { len := by dsimp only; split <;> simp [inv.len]
                  untouched := fun j hj => ?_
                  nhl_sound := fun L m hm => ?_
                  hl_sound := fun p q m hm => ?_
                  hl_nhl := inv.hl_nhl
                  tails_elems := fun m hm halm L hL => ?_ }
              · dsimp only
                split
                · rw [List.getElem?_set_ne (by omega : other ≠ j),
                    List.getElem?_set_ne (by omega : n ≠ j)]
                  exact inv.untouched j (by omega)
                · rw [List.getElem?_set_ne (by omega : n ≠ j)]
                  exact inv.untouched j (by omega)
              · have := inv.nhl_sound L m hm
                exact ⟨by omega, this.2⟩
              · have := inv.hl_sound p q m hm
                exact ⟨by omega, this.2⟩
              · rcases Nat.lt_or_ge m n with h' | h'
                · exact alookup_append_isSome _ _ _ (inv.tails_elems m h' halm L hL)
                · have hmn : m = n := by omega
                  subst hmn
                  simp only [postShiftAt, hsn_s, hd, postShiftBody, hp] at hL
                  exact alookup_map_self_isSome _ _ _ _ hL
            · split at hstep
              · -- head swap: this snake and the recorded partner both die
                rename_i other hother
                have hother_lt : other < n := (inv.hl_sound _ _ _ hother).1
                cases hstep
                refine
                  { len := by dsimp only; split <;> simp [inv.len]
                    untouched := fun j hj => ?_
                    nhl_sound := fun L m hm => ?_
                    hl_sound := fun p q m hm => ?_
                    hl_nhl := inv.hl_nhl
                    tails_elems := fun m hm halm L hL => ?_ }
                · dsimp only
                  split
                  · rw [List.getElem?_set_ne (by omega : other ≠ j),
                      List.getElem?_set_ne (by omega : n ≠ j)]
                    exact inv.untouched j (by omega)
                  · rw [List.getElem?_set_ne (by omega : n ≠ j)]
                    exact inv.untouched j (by omega)
                · have := inv.nhl_sound L m hm
                  exact ⟨by omega, this.2⟩
                · have := inv.hl_sound p q m hm
                  exact ⟨by omega, this.2⟩
                · rcases Nat.lt_or_ge m n with h' | h'
                  · exact alookup_append_isSome _ _ _ (inv.tails_elems m h' halm L hL)
                  · have hmn : m = n := by omega
                    subst hmn
                    simp only [postShiftAt, hsn_s, hd, postShiftBody, hp] at hL
                    exact alookup_map_self_isSome _ _ _ _ hL
              · -- survived: the planned head and the pair are registered
                have hnhl_none : alookup acc.nextHeadLocations (NextLocation p0 dir) = none := by
                  assumption
                cases hstep
                refine
                  { len := by simpa using inv.len
                    untouched := fun j hj => ?_
                    nhl_sound := fun L m hm => ?_
                    hl_sound := fun p q m hm => ?_
                    hl_nhl := fun p q m hm => ?_
                    tails_elems := fun m hm halm L hL => ?_ }
                · dsimp only
                  rw [List.getElem?_set_ne (by omega : n ≠ j)]
                  exact inv.untouched j (by omega)
                · dsimp only at hm
                  rw [alookup_cons] at hm
                  split at hm
                  · rename_i hLeq
                    cases hm
                    subst hLeq
                    exact ⟨by omega, halive_n, hplanned_n⟩
                  · have := inv.nhl_sound L m hm
                    exact ⟨by omega, this.2⟩
                · dsimp only at hm
                  rw [alookup_cons] at hm
                  split at hm
                  · rename_i hpeq
                    cases hm
                    have hpq : p = p0 ∧ q = NextLocation p0 dir := by
                      simpa [Prod.ext_iff] using hpeq
                    rcases hpq with ⟨rfl, rfl⟩
                    exact ⟨by omega, halive_n, hhead_n, hplanned_n⟩
                  · have := inv.hl_sound p q m hm
                    exact ⟨by omega, this.2⟩
                · dsimp only at hm ⊢
                  rw [alookup_cons] at hm
                  rw [alookup_cons]
                  split at hm
                  · rename_i hpeq
                    cases hm
                    have hpq : p = p0 ∧ q = NextLocation p0 dir := by
                      simpa [Prod.ext_iff] using hpeq
                    rcases hpq with ⟨rfl, rfl⟩
                    rw [if_pos rfl]
                  · have hold := inv.hl_nhl p q m hm
                    split
                    · rename_i hq
                      rw [hq] at hold
                      rw [hnhl_none] at hold
                      cases hold
                    · exact hold
                · rcases Nat.lt_or_ge m n with h' | h'
                  · exact alookup_append_isSome _ _ _ (inv.tails_elems m h' halm L hL)
                  · have hmn : m = n := by omega
                    subst hmn
                    simp only [postShiftAt, hsn_s, hd, postShiftBody, hp] at hL
                    exact alookup_map_self_isSome _ _ _ _ hL

/-- The invariant is preserved along any contiguous run of slots. -/
theorem LoopInv_loop (s : State) (dirs : List Direction) :
    ∀ (cnt n : Nat) (acc acc' : TickState), LoopInv s dirs n acc →
      NextLoop s.Width s.Height s.Apple dirs acc (List.range' n cnt) = some acc' →
      LoopInv s dirs (n + cnt) acc' := by
  intro cnt
  induction cnt with
  | zero =>
    intro n acc acc' inv hloop
    cases hloop
    exact inv
  | succ cnt ih =>
    intro n acc acc' inv hloop
    rw [List.range'_succ] at hloop
    show LoopInv s dirs (n + (cnt + 1)) acc'
    rw [show n + (cnt + 1) = (n + 1) + cnt from by omega]
    cases hstep : NextStep s.Width s.Height s.Apple dirs acc n with
    | none => rw [NextLoop, hstep] at hloop; cases hloop
    | some acc1 =>
      rw [NextLoop, hstep] at hloop
      exact ih (n + 1) acc1 acc' (LoopInv_step s dirs n acc acc1 inv hstep) hloop

/-- Map entries, tails hits, deaths and the apple flag persist along any
contiguous run of slots. -/
theorem NextLoop_mono (s : State) (dirs : List Direction) :
    ∀ (cnt n : Nat) (acc acc' : TickState), LoopInv s dirs n acc →
      NextLoop s.Width s.Height s.Apple dirs acc (List.range' n cnt) = some acc' →
      (∀ L m, alookup acc.nextHeadLocations L = some m →
        alookup acc'.nextHeadLocations L = some m) ∧
      (∀ p m, alookup acc.headLocations p = some m →
        alookup acc'.headLocations p = some m) ∧
      (∀ L, (alookup acc.tails L).isSome = true →
        (alookup acc'.tails L).isSome = true) ∧
      (∀ m, deadIn acc.Snakes m → deadIn acc'.Snakes m) ∧
      (acc.repositionApple = true → acc'.repositionApple = true) := by
  intro cnt
  induction cnt with
  | zero =>
    intro n acc acc' _ hloop
    cases hloop
    exact ⟨fun _ _ h => h, fun _ _ h => h, fun _ h => h, fun _ h => h, fun h => h⟩
  | succ cnt ih =>
    intro n acc acc' inv hloop
    rw [List.range'_succ] at hloop
    cases hstep : NextStep s.Width s.Height s.Apple dirs acc n with
    | none => rw [NextLoop, hstep] at hloop; cases hloop
    | some acc1 =>
      rw [NextLoop, hstep] at hloop
      have hmono := NextStep_mono s.Width s.Height s.Apple dirs acc acc1 n
        inv.hl_nhl hstep
      have hrest := ih (n + 1) acc1 acc' (LoopInv_step s dirs n acc acc1 inv hstep) hloop
      exact ⟨fun L m h => hrest.1 L m (hmono.2.1 L m h),
        fun p m h => hrest.2.1 p m (hmono.2.2.1 p m h),
        fun L h => hrest.2.2.1 L (hmono.2.2.2.1 L h),
        fun m h => hrest.2.2.2.1 m (hmono.2.2.2.2.1 m h),
        fun h => hrest.2.2.2.2 (hmono.2.2.2.2.2 h)⟩

/-- What the step at an alive slot `n` does, as seen from the input
state: the snake dies on the wall, dies together with the registrant of
the same planned head, dies together with a head-swap partner, or
registers its pair and planned head. -/
theorem NextStep_alive_cases (s : State) (dirs : List Direction) (n : Nat)
    (acc acc' : TickState) (inv : LoopInv s dirs n acc)
    (halive : aliveAt s n = true) (p0 L : Location)
    (hhead : headAt s n = some p0) (hplan : plannedAt s dirs n = some L)
    (hstep : NextStep s.Width s.Height s.Apple dirs acc n = some acc') :
    (L.IsInsideBounds s.Width s.Height = false ∧ deadIn acc'.Snakes n) ∨
    (L.IsInsideBounds s.Width s.Height = true ∧
      ∃ m, alookup acc.nextHeadLocations L = some m ∧
        deadIn acc'.Snakes n ∧ deadIn acc'.Snakes m ∧
        alookup acc'.nextHeadLocations L = some m) ∨
    (L.IsInsideBounds s.Width s.Height = true ∧
      alookup acc.nextHeadLocations L = none ∧
      ∃ k, alookup acc.headLocations (L, p0) = some k ∧
        deadIn acc'.Snakes n ∧ deadIn acc'.Snakes k) ∨
    (L.IsInsideBounds s.Width s.Height = true ∧
      alookup acc.nextHeadLocations L = none ∧
      alookup acc.headLocations (L, p0) = none ∧
      alookup acc'.nextHeadLocations L = some n ∧
      alookup acc'.headLocations (p0, L) = some n) := by
  cases hsq : s.Snakes[n]? with
  | none => rw [aliveAt, hsq] at halive; cases halive
  | some snake =>
    have hsn : acc.Snakes[n]? = some snake := (inv.untouched n le_rfl).trans hsq
    have hal : snake.Alive = true := by
      rw [aliveAt, hsq] at halive
      simpa using halive
    cases hp : snake.Pieces with
    | nil =>
      simp [headAt, hsq, hp] at hhead
    | cons q0 prest =>
      have hq0 : p0 = q0 := by
        have := hhead
        simp [headAt, hsq, hp] at this
        exact this.symm
      subst hq0
      cases hd : dirs[n]? with
      | none =>
        simp [plannedAt, headAt, hsq, hp, hd] at hplan
      | some dir =>
        have hL : NextLocation p0 dir = L := by
          simpa [plannedAt, headAt, hsq, hp, hd] using hplan
        have hnlen : n < acc.Snakes.length := (List.getElem?_eq_some.mp hsn).1
        unfold NextStep at hstep
        simp only [hsn] at hstep
        rw [if_neg (by simp [hal])] at hstep
        simp only [hp] at hstep
        simp only [hd] at hstep
        split at hstep
        · -- wall
          rename_i hwall
          cases hstep
          refine Or.inl ⟨?_, ?_⟩
          · rw [← hL]
            simpa using hwall
          · unfold deadIn
            dsimp only
            rw [List.getElem?_set_self']
            rw [hsn]
            rfl
        · split at hstep
          · -- head collision
            rename_i other hother
            have hbounds : ¬(!(NextLocation p0 dir).IsInsideBounds s.Width s.Height) = true := by
              assumption
            have hother_lt : other < n := (inv.nhl_sound _ _ hother).1
            have holen : other < acc.Snakes.length := by
              have := inv.len
              have h2 := (inv.nhl_sound _ _ hother).1
              omega
            cases hstep
            rw [hL] at hother
            refine Or.inr (Or.inl ⟨by rw [← hL]; simpa using hbounds, other, hother, ?_, ?_, hother⟩)
            · unfold deadIn
              dsimp only
              split
              · rename_i osn hosn
                rw [List.getElem?_set_ne (by omega : other ≠ n),
                  List.getElem?_set_self', hsn]
                rfl
              · rw [List.getElem?_set_self', hsn]
                rfl
            · unfold deadIn
              dsimp only
              split
              · rename_i osn hosn
                rw [List.getElem?_set_self']
                rw [hosn]
                rfl
              · rename_i hnone
                rw [List.getElem?_set_ne (by omega : n ≠ other)] at hnone
                rw [List.getElem?_eq_none_iff] at hnone
                omega
          · split at hstep
            · -- head swap
              rename_i other hother
              have hbounds : ¬(!(NextLocation p0 dir).IsInsideBounds s.Width s.Height) = true := by
                assumption
              have hnone : alookup acc.nextHeadLocations (NextLocation p0 dir) = none := by
                assumption
              have hother_lt : other < n := (inv.hl_sound _ _ _ hother).1
              have holen : other < acc.Snakes.length := by
                have := inv.len
                omega
              cases hstep
              refine Or.inr (Or.inr (Or.inl ⟨by rw [← hL]; simpa using hbounds,
                by rw [← hL]; exact hnone, other, by
                  have : locationPair.Swap (p0, NextLocation p0 dir) =
                      (NextLocation p0 dir, p0) := rfl
                  rw [← hL]
                  exact this ▸ hother, ?_, ?_⟩))
              · unfold deadIn
                dsimp only
                split
                · rw [List.getElem?_set_ne (by omega : other ≠ n),
                    List.getElem?_set_self', hsn]
                  rfl
                · rw [List.getElem?_set_self', hsn]
                  rfl
              · unfold deadIn
                dsimp only
                split
                · rename_i osn hosn
                  rw [List.getElem?_set_self']
                  rw [hosn]
                  rfl
                · rename_i hnone2
                  rw [List.getElem?_set_ne (by omega : n ≠ other)] at hnone2
                  rw [List.getElem?_eq_none_iff] at hnone2
                  omega
            · -- register
              have hbounds : ¬(!(NextLocation p0 dir).IsInsideBounds s.Width s.Height) = true := by
                assumption
              have hguard1 : alookup acc.nextHeadLocations (NextLocation p0 dir) = none := by
                assumption
              have hguard2 : alookup acc.headLocations
                  (locationPair.Swap (p0, NextLocation p0 dir)) = none := by
                assumption
              cases hstep
              refine Or.inr (Or.inr (Or.inr ⟨by rw [← hL]; simpa using hbounds,
                by rw [← hL]; exact hguard1,
                by rw [← hL]; exact hguard2, ?_, ?_⟩))
              · dsimp only
                rw [← hL, alookup_cons, if_pos rfl]
              · dsimp only
                rw [← hL, alookup_cons, if_pos rfl]

/-- A slot whose planned head is the apple raises the reposition flag. -/
theorem NextStep_eats (s : State) (dirs : List Direction) (n : Nat)
    (acc acc' : TickState) (inv : LoopInv s dirs n acc)
    (halive : aliveAt s n = true)
    (hplan : plannedAt s dirs n = some s.Apple)
    (hstep : NextStep s.Width s.Height s.Apple dirs acc n = some acc') :
    acc'.repositionApple = true := by
  cases hsq : s.Snakes[n]? with
  | none => rw [aliveAt, hsq] at halive; cases halive
  | some snake =>
    have hsn : acc.Snakes[n]? = some snake := (inv.untouched n le_rfl).trans hsq
    have hal : snake.Alive = true := by
      rw [aliveAt, hsq] at halive
      simpa using halive
    cases hp : snake.Pieces with
    | nil =>
      simp [plannedAt, headAt, hsq, hp] at hplan
    | cons p0 prest =>
      cases hd : dirs[n]? with
      | none =>
        simp [plannedAt, headAt, hsq, hp, hd] at hplan
      | some dir =>
        have hL : NextLocation p0 dir = s.Apple := by
          simpa [plannedAt, headAt, hsq, hp, hd] using hplan
        unfold NextStep at hstep
        simp only [hsn] at hstep
        rw [if_neg (by simp [hal])] at hstep
        simp only [hp] at hstep
        simp only [hd] at hstep
        split at hstep
        · cases hstep
          simp [hL]
        · split at hstep
          · cases hstep
            simp [hL]
          · split at hstep
            · cases hstep
              simp [hL]
            · cases hstep
              simp [hL]

/-- Deaths persist through the tail-collision pass. -/
theorem tailCollisions_dead_persist (tails : List (Location × Nat)) :
    ∀ (nhl : List (Location × Nat)) (snakes : List Snake) (m : Nat),
      deadIn snakes m → deadIn (tailCollisions tails nhl snakes) m := by
  intro nhl
  induction nhl with
  | nil => intro snakes m hm; exact hm
  | cons e rest ih =>
    intro snakes m hm
    show deadIn (List.foldl _ _ (e :: rest)) m
    rw [List.foldl_cons]
    apply ih
    dsimp only
    split
    · split
      · exact deadIn_set_dead _ _ _ rfl _ hm
      · exact hm
    · exact hm

/-- The tail-collision pass kills the owner of every planned head that
lands on a recorded tail cell. -/
theorem tailCollisions_kills (tails : List (Location × Nat)) :
    ∀ (nhl : List (Location × Nat)) (snakes : List Snake) (L : Location) (n : Nat),
      (L, n) ∈ nhl → (alookup tails L).isSome = true → n < snakes.length →
      deadIn (tailCollisions tails nhl snakes) n := by
  intro nhl
  induction nhl with
  | nil => intro snakes L n hmem; cases hmem
  | cons e rest ih =>
    intro snakes L n hmem htl hlen
    show deadIn (List.foldl _ _ (e :: rest)) n
    rw [List.foldl_cons]
    rcases List.mem_cons.mp hmem with rfl | hmem'
    · -- this entry kills n; the death then persists
      have : deadIn
          (if (alookup tails L).isSome = true then
            match snakes[n]? with
            | some sn => snakes.set n { sn with Alive := false }
            | none => snakes
          else snakes) n := by
        rw [if_pos htl]
        cases hsn : snakes[n]? with
        | none =>
          rw [List.getElem?_eq_none_iff] at hsn
          omega
        | some sn =>
          unfold deadIn
          rw [List.getElem?_set_self', hsn]
          rfl
      exact tailCollisions_dead_persist tails rest _ n this
    · apply ih _ L n hmem' htl
      dsimp only
      split
      · split
        · simpa using hlen
        · exact hlen
      · exact hlen

/-- Decomposition of a successful `Next` call: the direction vector
matches, the tick loop succeeds, and the resulting snake list is the
tail-collision pass applied to the loop result (with the apple
regenerated from the result when the flag is raised). -/
theorem Next_decompose (s : State) (dirs : List Direction) (fuel : Nat)
    (s' : State) (h : State.Next s dirs fuel = some s') :
    dirs.length = s.Snakes.length ∧
    ∃ acc, NextLoop s.Width s.Height s.Apple dirs
        { Snakes := s.Snakes, tails := [], headLocations := [],
          nextHeadLocations := [], repositionApple := false }
        (List.range s.Snakes.length) = some acc ∧
      s'.Snakes = tailCollisions acc.tails acc.nextHeadLocations acc.Snakes ∧
      (acc.repositionApple = true →
        GenerateAppleLocation s.Width s.Height s'.Snakes fuel = some s'.Apple) := by
  unfold State.Next at h
  split at h
  · cases h
  · rename_i hlen
    refine ⟨by omega, ?_⟩
    cases hloop : NextLoop s.Width s.Height s.Apple dirs
        { Snakes := s.Snakes, tails := [], headLocations := [],
          nextHeadLocations := [], repositionApple := false }
        (List.range s.Snakes.length) with
    | none => simp only [hloop] at h; cases h
    | some acc =>
      simp only [hloop] at h
      refine ⟨acc, rfl, ?_⟩
      by_cases hflag : acc.repositionApple = true
      · rw [if_pos hflag] at h
        cases hgen : GenerateAppleLocation s.Width s.Height
            (tailCollisions acc.tails acc.nextHeadLocations acc.Snakes) fuel with
        | none => rw [hgen] at h; cases h
        | some a =>
          rw [hgen] at h
          cases h
          exact ⟨rfl, fun _ => hgen⟩
      · rw [if_neg hflag] at h
        cases h
        exact ⟨rfl, fun hf => absurd hf hflag⟩

/-! ## Loop extraction: isolating the step at one slot -/

/-- Splitting a contiguous slot range at an interior slot `i`. -/
theorem range'_split_at (n cnt i : Nat) (hni : n ≤ i) (hic : i < n + cnt) :
    List.range' n cnt =
      List.range' n (i - n) ++ i :: List.range' (i + 1) (n + cnt - i - 1) := by
  have h1 := List.range'_append n (i - n) (cnt - (i - n)) 1
  rw [Nat.one_mul] at h1
  have h2 : n + (i - n) = i := by omega
  rw [h2] at h1
  have h3 : cnt - (i - n) + (i - n) = cnt := by omega
  rw [h3] at h1
  rw [← h1]
  congr 1
  have h4 : cnt - (i - n) = (n + cnt - i - 1) + 1 := by omega
  rw [h4, List.range'_succ]

/-- An alive slot is in range. -/
theorem aliveAt_lt_length (s : State) (n : Nat) (h : aliveAt s n = true) :
    n < s.Snakes.length := by
  cases hsn : s.Snakes[n]? with
  | none => simp [aliveAt, hsn] at h
  | some sn => exact (List.getElem?_eq_some.mp hsn).1

/-- A recorded death read back through `aliveAt`. -/
theorem aliveAt_eq_false_of_deadIn (s' : State) (m : Nat)
    (h : deadIn s'.Snakes m) : aliveAt s' m = false := by
  unfold deadIn at h
  unfold aliveAt
  rw [h]
  rfl

/-- A planned head comes from a current head and a direction. -/
theorem plannedAt_some (s : State) (dirs : List Direction) (n : Nat) (L : Location)
    (h : plannedAt s dirs n = some L) :
    ∃ p0 d, headAt s n = some p0 ∧ dirs[n]? = some d ∧ NextLocation p0 d = L := by
  cases hh : headAt s n with
  | none => simp [plannedAt, hh] at h
  | some p0 =>
    cases hd : dirs[n]? with
    | none => simp [plannedAt, hh, hd] at h
    | some d =>
      simp only [plannedAt, hh, hd, Option.some.injEq] at h
      exact ⟨p0, d, rfl, rfl, h⟩

/-- A move always leaves the current cell. -/
theorem NextLocation_ne (l : Location) (d : Direction) : NextLocation l d ≠ l := by
  cases d <;> intro h <;>
    first
      | (have hx := congrArg Location.X h; simp only [NextLocation] at hx; omega)
      | (have hy := congrArg Location.Y h; simp only [NextLocation] at hy; omega)

/-- Extracting the step at slot `i` out of a successful run over
`range' n cnt`: the prefix run reaches an invariant-carrying accumulator
at `i`, the step at `i` succeeds, and the suffix run completes to the
final accumulator. -/
theorem NextLoop_extract (s : State) (dirs : List Direction)
    (n cnt i : Nat) (hni : n ≤ i) (hic : i < n + cnt)
    (acc accF : TickState) (inv : LoopInv s dirs n acc)
    (hloop : NextLoop s.Width s.Height s.Apple dirs acc
      (List.range' n cnt) = some accF) :
    ∃ acc1 acc2,
      NextLoop s.Width s.Height s.Apple dirs acc
        (List.range' n (i - n)) = some acc1 ∧
      LoopInv s dirs i acc1 ∧
      NextStep s.Width s.Height s.Apple dirs acc1 i = some acc2 ∧
      LoopInv s dirs (i + 1) acc2 ∧
      NextLoop s.Width s.Height s.Apple dirs acc2
        (List.range' (i + 1) (n + cnt - i - 1)) = some accF := by
  rw [range'_split_at n cnt i hni hic, NextLoop_append] at hloop
  cases hpre : NextLoop s.Width s.Height s.Apple dirs acc
      (List.range' n (i - n)) with
  | none => rw [hpre] at hloop; cases hloop
  | some acc1 =>
    rw [hpre, Option.some_bind] at hloop
    have inv1 : LoopInv s dirs i acc1 := by
      have := LoopInv_loop s dirs (i - n) n acc acc1 inv hpre
      rwa [show n + (i - n) = i from by omega] at this
    cases hstep : NextStep s.Width s.Height s.Apple dirs acc1 i with
    | none =>
      rw [NextLoop, hstep] at hloop
      cases hloop
    | some acc2 =>
      rw [NextLoop, hstep] at hloop
      exact ⟨acc1, acc2, rfl, inv1, hstep, LoopInv_step s dirs i acc1 acc2 inv1 hstep,
        hloop⟩

/-! ## C6: planned head on a post-shift body segment -/

/-- C6: for every arena state and direction vector of matching length, an
alive snake whose planned next head equals a post-shift body segment (a
segment at index ≥ 1 after this tick's shift) of any snake processed this
tick — its own body included — is not alive in the state returned by
`Next`. -/
theorem C6_tail_collision_dies (s : State) (dirs : List Direction) (fuel : Nat)
    (s' : State) (n m : Nat) (L : Location)
    (han : aliveAt s n = true) (ham : aliveAt s m = true)
    (hpn : plannedAt s dirs n = some L)
    (hmem : L ∈ postShiftAt s dirs m)
    (hnext : State.Next s dirs fuel = some s') :
    aliveAt s' n = false := by
  obtain ⟨hlen, acc, hloop, hsnakes, -⟩ := Next_decompose s dirs fuel s' hnext
  have hnlt : n < s.Snakes.length := aliveAt_lt_length s n han
  have hmlt : m < s.Snakes.length := aliveAt_lt_length s m ham
  rw [List.range_eq_range'] at hloop
  have invF : LoopInv s dirs (0 + s.Snakes.length) acc :=
    LoopInv_loop s dirs s.Snakes.length 0 _ acc (LoopInv_init s dirs) hloop
  have htl : (alookup acc.tails L).isSome = true :=
    invF.tails_elems m (by omega) ham L hmem
  obtain ⟨p0, d, hh, hd, hLd⟩ := plannedAt_some s dirs n L hpn
  obtain ⟨acc1, acc2, hpre, inv1, hstep, inv2, hsuf⟩ :=
    NextLoop_extract s dirs 0 s.Snakes.length n (Nat.zero_le _) (by omega)
      _ acc (LoopInv_init s dirs) hloop
  have hmono := NextLoop_mono s dirs (0 + s.Snakes.length - n - 1) (n + 1) acc2 acc
    inv2 hsuf
  have hfinal : deadIn acc.Snakes n → aliveAt s' n = false := fun hdead =>
    aliveAt_eq_false_of_deadIn s' n
      (by rw [hsnakes]
          exact tailCollisions_dead_persist acc.tails acc.nextHeadLocations
            acc.Snakes n hdead)
  rcases NextStep_alive_cases s dirs n acc1 acc2 inv1 han p0 L hh hpn hstep with
    ⟨-, hdead⟩ | ⟨-, m', -, hdead, -, -⟩ | ⟨-, -, k, -, hdead, -⟩ |
    ⟨-, -, -, hreg, -⟩
  · exact hfinal (hmono.2.2.2.1 n hdead)
  · exact hfinal (hmono.2.2.2.1 n hdead)
  · exact hfinal (hmono.2.2.2.1 n hdead)
  · have hentry : alookup acc.nextHeadLocations L = some n := hmono.1 L n hreg
    have hmem2 : (L, n) ∈ acc.nextHeadLocations := alookup_mem _ _ _ hentry
    have hkill := tailCollisions_kills acc.tails acc.nextHeadLocations acc.Snakes L n
      hmem2 htl (by rw [invF.len]; omega)
    refine aliveAt_eq_false_of_deadIn s' n ?_
    rw [hsnakes]
    exact hkill

/-- C6 witness: on a 5×5 board, snake 0 (head `(0,0)`, moving east) plans
`(1,0)`, which is the post-shift neck segment of snake 1 (pieces
`[(1,0),(1,1)]`, moving east); the tick kills snake 0. -/
theorem C6_tail_collision_dies_witness :
    ((⟨1, 0⟩ : Location) ∈ postShiftAt
        ⟨5, 5, [⟨true, 1, [⟨0, 0⟩]⟩, ⟨true, 2, [⟨1, 0⟩, ⟨1, 1⟩]⟩], ⟨4, 4⟩⟩
        [.East, .East] 1) ∧
    aliveAt ⟨5, 5, [⟨false, 1, [⟨1, 0⟩]⟩, ⟨true, 2, [⟨2, 0⟩, ⟨1, 0⟩]⟩], ⟨4, 4⟩⟩ 0 =
      false :=
  ⟨by decide,
   C6_tail_collision_dies
     ⟨5, 5, [⟨true, 1, [⟨0, 0⟩]⟩, ⟨true, 2, [⟨1, 0⟩, ⟨1, 1⟩]⟩], ⟨4, 4⟩⟩
     [.East, .East] 1
     ⟨5, 5, [⟨false, 1, [⟨1, 0⟩]⟩, ⟨true, 2, [⟨2, 0⟩, ⟨1, 0⟩]⟩], ⟨4, 4⟩⟩
     0 1 ⟨1, 0⟩ (by decide) (by decide) (by decide) (by decide) (by decide)⟩

/-! ## C4: two snakes planning the same head cell -/

/-- The ordered core of the same-planned-head property: with no head-swap
pair anywhere in the arena, two alive slots `i < j` planning the same
cell both die. -/
theorem C4_aux (s : State) (dirs : List Direction) (fuel : Nat)
    (s' : State) (i j : Nat) (L : Location) (hij : i < j)
    (hai : aliveAt s i = true) (haj : aliveAt s j = true)
    (hpi : plannedAt s dirs i = some L) (hpj : plannedAt s dirs j = some L)
    (hnoswap : ∀ a < s.Snakes.length, ∀ b < s.Snakes.length,
      swapPairB s dirs a b = false)
    (hnext : State.Next s dirs fuel = some s') :
    aliveAt s' i = false ∧ aliveAt s' j = false := by
  obtain ⟨hlen, acc, hloop, hsnakes, -⟩ := Next_decompose s dirs fuel s' hnext
  have hilt : i < s.Snakes.length := aliveAt_lt_length s i hai
  have hjlt : j < s.Snakes.length := aliveAt_lt_length s j haj
  rw [List.range_eq_range'] at hloop
  obtain ⟨pi, di, hhi, hdi, hLi⟩ := plannedAt_some s dirs i L hpi
  obtain ⟨pj, dj, hhj, hdj, hLj⟩ := plannedAt_some s dirs j L hpj
  obtain ⟨acc1, acc2, hpre, inv1, hstep1, inv2, hsuf⟩ :=
    NextLoop_extract s dirs 0 s.Snakes.length i (Nat.zero_le _) (by omega)
      _ acc (LoopInv_init s dirs) hloop
  have hmono2 := NextLoop_mono s dirs (0 + s.Snakes.length - i - 1) (i + 1) acc2 acc
    inv2 hsuf
  have hfinal : ∀ m, deadIn acc.Snakes m → aliveAt s' m = false := fun m hdead =>
    aliveAt_eq_false_of_deadIn s' m
      (by rw [hsnakes]
          exact tailCollisions_dead_persist acc.tails acc.nextHeadLocations
            acc.Snakes m hdead)
  -- extract the step at j inside the suffix
  obtain ⟨acc3, acc4, hpre34, inv3, hstep3, inv4, hsuf4⟩ :=
    NextLoop_extract s dirs (i + 1) (0 + s.Snakes.length - i - 1) j (by omega)
      (by omega) acc2 acc (LoopInv_step s dirs i acc1 acc2 inv1 hstep1) hsuf
  have hmono23 := NextLoop_mono s dirs (j - (i + 1)) (i + 1) acc2 acc3 inv2 hpre34
  have hmono4 := NextLoop_mono s dirs ((i + 1) + (0 + s.Snakes.length - i - 1) - j - 1)
    (j + 1) acc4 acc inv4 hsuf4
  rcases NextStep_alive_cases s dirs i acc1 acc2 inv1 hai pi L hhi hpi hstep1 with
    ⟨hbF, hdead_i⟩ | ⟨hbT, m, hm_pre, hdead_i, hdead_m, hm_post⟩ |
    ⟨hbT, hnone, k, hk, hdead_i, hdead_k⟩ |
    ⟨hbT, hnone, hhlnone, hreg_nhl, hreg_hl⟩
  · -- the shared cell is out of bounds: each step kills its own snake
    have hi_dead : aliveAt s' i = false := hfinal i (hmono2.2.2.2.1 i hdead_i)
    rcases NextStep_alive_cases s dirs j acc3 acc4 inv3 haj pj L hhj hpj hstep3 with
      ⟨-, hdead_j⟩ | ⟨hbT', -⟩ | ⟨hbT', -⟩ | ⟨hbT', -⟩
    · exact ⟨hi_dead, hfinal j (hmono4.2.2.2.1 j hdead_j)⟩
    · rw [hbF] at hbT'; cases hbT'
    · rw [hbF] at hbT'; cases hbT'
    · rw [hbF] at hbT'; cases hbT'
  · -- slot i died against an earlier registrant m of the same cell
    have hi_dead : aliveAt s' i = false := hfinal i (hmono2.2.2.2.1 i hdead_i)
    have hm3 : alookup acc3.nextHeadLocations L = some m := hmono23.1 L m hm_post
    rcases NextStep_alive_cases s dirs j acc3 acc4 inv3 haj pj L hhj hpj hstep3 with
      ⟨hbF', -⟩ | ⟨-, m', hm', hdead_j, -, -⟩ | ⟨-, hnone', -⟩ | ⟨-, hnone', -⟩
    · rw [hbF'] at hbT; cases hbT
    · exact ⟨hi_dead, hfinal j (hmono4.2.2.2.1 j hdead_j)⟩
    · rw [hm3] at hnone'; cases hnone'
    · rw [hm3] at hnone'; cases hnone'
  · -- slot i would be a swap victim: contradicts the no-swap hypothesis
    obtain ⟨hk_lt, hk_alive, hk_head, hk_plan⟩ := inv1.hl_sound L pi k hk
    have hcontra := hnoswap k (by omega) i (by omega)
    rw [swapPairB, hk_alive, hai, hk_head, hhi, hk_plan, hpi] at hcontra
    simp [Nat.ne_of_lt hk_lt] at hcontra
  · -- slot i registered; slot j then finds the binding and both die
    have hreg3 : alookup acc3.nextHeadLocations L = some i := hmono23.1 L i hreg_nhl
    rcases NextStep_alive_cases s dirs j acc3 acc4 inv3 haj pj L hhj hpj hstep3 with
      ⟨hbF', -⟩ | ⟨-, m', hm', hdead_j, hdead_m', -⟩ | ⟨-, hnone', -⟩ | ⟨-, hnone', -⟩
    · rw [hbF'] at hbT; cases hbT
    · have hmi : m' = i := by
        rw [hreg3] at hm'
        exact (Option.some.inj hm').symm
      rw [hmi] at hdead_m'
      exact ⟨hfinal i (hmono4.2.2.2.1 i hdead_m'),
        hfinal j (hmono4.2.2.2.1 j hdead_j)⟩
    · rw [hreg3] at hnone'; cases hnone'
    · rw [hreg3] at hnone'; cases hnone'

/-- C4 (amended): for every arena state and direction vector of matching
length, if two distinct alive snakes plan the same next head cell and no
two alive snakes of the arena form a head swap this tick, then both are
dead in the state returned by `Next`, symmetrically in the two slots. -/
theorem C4_same_planned_head_both_die (s : State) (dirs : List Direction)
    (fuel : Nat) (s' : State) (i j : Nat) (L : Location) (hne : i ≠ j)
    (hai : aliveAt s i = true) (haj : aliveAt s j = true)
    (hpi : plannedAt s dirs i = some L) (hpj : plannedAt s dirs j = some L)
    (hnoswap : ∀ a < s.Snakes.length, ∀ b < s.Snakes.length,
      swapPairB s dirs a b = false)
    (hnext : State.Next s dirs fuel = some s') :
    aliveAt s' i = false ∧ aliveAt s' j = false := by
  rcases Nat.lt_or_ge i j with h | h
  · exact C4_aux s dirs fuel s' i j L h hai haj hpi hpj hnoswap hnext
  · have h' : j < i := by omega
    have := C4_aux s dirs fuel s' j i L h' haj hai hpj hpi hnoswap hnext
    exact ⟨this.2, this.1⟩

/-- C4 witness: two single-piece snakes approach the cell `(1,0)` from
opposite sides (no swap pair exists); both are dead after the tick. -/
theorem C4_same_planned_head_both_die_witness :
    ((1 : Nat) ≠ 0) ∧
    aliveAt ⟨5, 5, [⟨false, 1, [⟨1, 0⟩]⟩, ⟨false, 1, [⟨1, 0⟩]⟩], ⟨4, 4⟩⟩ 1 = false ∧
    aliveAt ⟨5, 5, [⟨false, 1, [⟨1, 0⟩]⟩, ⟨false, 1, [⟨1, 0⟩]⟩], ⟨4, 4⟩⟩ 0 = false :=
  ⟨by decide,
   C4_same_planned_head_both_die
     ⟨5, 5, [⟨true, 1, [⟨0, 0⟩]⟩, ⟨true, 1, [⟨2, 0⟩]⟩], ⟨4, 4⟩⟩
     [.East, .West] 1
     ⟨5, 5, [⟨false, 1, [⟨1, 0⟩]⟩, ⟨false, 1, [⟨1, 0⟩]⟩], ⟨4, 4⟩⟩
     1 0 ⟨1, 0⟩ (by decide) (by decide) (by decide) (by decide) (by decide)
     (by decide) (by decide)⟩

/-- C4 counterexample to the unamended claim: on a 5×5 board with snakes
at `(1,1)`, `(2,1)`, `(1,2)` moving east, west and north, slots 1 and 2
are distinct alive snakes that both plan `(1,1)`, yet slot 2 is still
alive after the tick: slot 1 was killed earlier in the iteration by the
head swap with slot 0, so its planned head was never registered and the
shared-cell check at slot 2 found nothing. -/
theorem C4_counterexample :
    (1 : Nat) ≠ 2 ∧
    aliveAt ⟨5, 5, [⟨true, 1, [⟨1, 1⟩]⟩, ⟨true, 1, [⟨2, 1⟩]⟩, ⟨true, 1, [⟨1, 2⟩]⟩],
      ⟨4, 4⟩⟩ 1 = true ∧
    aliveAt ⟨5, 5, [⟨true, 1, [⟨1, 1⟩]⟩, ⟨true, 1, [⟨2, 1⟩]⟩, ⟨true, 1, [⟨1, 2⟩]⟩],
      ⟨4, 4⟩⟩ 2 = true ∧
    plannedAt ⟨5, 5, [⟨true, 1, [⟨1, 1⟩]⟩, ⟨true, 1, [⟨2, 1⟩]⟩, ⟨true, 1, [⟨1, 2⟩]⟩],
      ⟨4, 4⟩⟩ [.East, .West, .North] 1 = some ⟨1, 1⟩ ∧
    plannedAt ⟨5, 5, [⟨true, 1, [⟨1, 1⟩]⟩, ⟨true, 1, [⟨2, 1⟩]⟩, ⟨true, 1, [⟨1, 2⟩]⟩],
      ⟨4, 4⟩⟩ [.East, .West, .North] 2 = some ⟨1, 1⟩ ∧
    State.Next ⟨5, 5, [⟨true, 1, [⟨1, 1⟩]⟩, ⟨true, 1, [⟨2, 1⟩]⟩, ⟨true, 1, [⟨1, 2⟩]⟩],
      ⟨4, 4⟩⟩ [.East, .West, .North] 1 =
      some ⟨5, 5, [⟨false, 1, [⟨2, 1⟩]⟩, ⟨false, 1, [⟨1, 1⟩]⟩, ⟨true, 1, [⟨1, 1⟩]⟩],
        ⟨4, 4⟩⟩ ∧
    aliveAt ⟨5, 5, [⟨false, 1, [⟨2, 1⟩]⟩, ⟨false, 1, [⟨1, 1⟩]⟩, ⟨true, 1, [⟨1, 1⟩]⟩],
      ⟨4, 4⟩⟩ 2 = true := by
  decide

/-! ## C5: head-swap pairs -/

/-- The ordered core of the head-swap property: with both heads in bounds
and no third alive snake aiming at either head cell, a swap pair `i < j`
dies on both sides. -/
theorem C5_aux (s : State) (dirs : List Direction) (fuel : Nat)
    (s' : State) (i j : Nat) (hi hj : Location) (hij : i < j)
    (hai : aliveAt s i = true) (haj : aliveAt s j = true)
    (hhi : headAt s i = some hi) (hhj : headAt s j = some hj)
    (hpi : plannedAt s dirs i = some hj) (hpj : plannedAt s dirs j = some hi)
    (hbi : hi.IsInsideBounds s.Width s.Height = true)
    (hbj : hj.IsInsideBounds s.Width s.Height = true)
    (hthird : ∀ m < s.Snakes.length, m ≠ i → m ≠ j → aliveAt s m = true →
      plannedAt s dirs m ≠ some hi ∧ plannedAt s dirs m ≠ some hj)
    (hnext : State.Next s dirs fuel = some s') :
    aliveAt s' i = false ∧ aliveAt s' j = false := by
  obtain ⟨hlen, acc, hloop, hsnakes, -⟩ := Next_decompose s dirs fuel s' hnext
  have hilt : i < s.Snakes.length := aliveAt_lt_length s i hai
  have hjlt : j < s.Snakes.length := aliveAt_lt_length s j haj
  rw [List.range_eq_range'] at hloop
  have hne_heads : hi ≠ hj := by
    obtain ⟨p0, d, hh0, -, hLd⟩ := plannedAt_some s dirs i hj hpi
    have hp0 : p0 = hi := by
      rw [hhi] at hh0
      exact (Option.some.inj hh0).symm
    rw [hp0] at hLd
    intro h
    rw [← h] at hLd
    exact NextLocation_ne hi d hLd
  obtain ⟨acc1, acc2, hpre, inv1, hstep1, inv2, hsuf⟩ :=
    NextLoop_extract s dirs 0 s.Snakes.length i (Nat.zero_le _) (by omega)
      _ acc (LoopInv_init s dirs) hloop
  have hfinal : ∀ m, deadIn acc.Snakes m → aliveAt s' m = false := fun m hdead =>
    aliveAt_eq_false_of_deadIn s' m
      (by rw [hsnakes]
          exact tailCollisions_dead_persist acc.tails acc.nextHeadLocations
            acc.Snakes m hdead)
  obtain ⟨acc3, acc4, hpre34, inv3, hstep3, inv4, hsuf4⟩ :=
    NextLoop_extract s dirs (i + 1) (0 + s.Snakes.length - i - 1) j (by omega)
      (by omega) acc2 acc (LoopInv_step s dirs i acc1 acc2 inv1 hstep1) hsuf
  have hmono23 := NextLoop_mono s dirs (j - (i + 1)) (i + 1) acc2 acc3 inv2 hpre34
  have hmono4 := NextLoop_mono s dirs ((i + 1) + (0 + s.Snakes.length - i - 1) - j - 1)
    (j + 1) acc4 acc inv4 hsuf4
  rcases NextStep_alive_cases s dirs i acc1 acc2 inv1 hai hi hj hhi hpi hstep1 with
    ⟨hbF, -⟩ | ⟨-, m, hm_pre, -, -, -⟩ |
    ⟨-, -, k, hk, -, -⟩ |
    ⟨hbT, hnone, hhlnone, hreg_nhl, hreg_hl⟩
  · rw [hbj] at hbF; cases hbF
  · -- an earlier registrant already aimed at j's head cell: impossible
    obtain ⟨hm_lt, hm_alive, hm_plan⟩ := inv1.nhl_sound hj m hm_pre
    exact absurd hm_plan
      (hthird m (by omega) (by omega) (by omega) hm_alive).2
  · -- an earlier snake with head hj planning hi: impossible
    obtain ⟨hk_lt, hk_alive, hk_head, hk_plan⟩ := inv1.hl_sound hj hi k hk
    exact absurd hk_plan
      (hthird k (by omega) (by omega) (by omega) hk_alive).1
  · -- slot i registered its pair; slot j finds it in the swap lookup
    have hreg3_nhl : alookup acc3.nextHeadLocations hj = some i :=
      hmono23.1 hj i hreg_nhl
    have hreg3_hl : alookup acc3.headLocations (hi, hj) = some i :=
      hmono23.2.1 (hi, hj) i hreg_hl
    rcases NextStep_alive_cases s dirs j acc3 acc4 inv3 haj hj hi hhj hpj hstep3 with
      ⟨hbF', -⟩ | ⟨-, m', hm', -, -, -⟩ |
      ⟨-, -, k', hk', hdead_j, hdead_k⟩ | ⟨-, -, hhlnone', -, -⟩
    · rw [hbi] at hbF'; cases hbF'
    · -- a registrant of j's planned cell hi: must be a third snake
      obtain ⟨hm_lt, hm_alive, hm_plan⟩ := inv3.nhl_sound hi m' hm'
      have hmne_i : m' ≠ i := by
        intro h
        rw [h, hpi] at hm_plan
        exact hne_heads (Option.some.inj hm_plan).symm
      exact absurd hm_plan
        (hthird m' (by omega) hmne_i (by omega) hm_alive).1
    · -- the swap branch fires against slot i
      have hki : k' = i := by
        rw [hreg3_hl] at hk'
        exact (Option.some.inj hk').symm
      rw [hki] at hdead_k
      exact ⟨hfinal i (hmono4.2.2.2.1 i hdead_k),
        hfinal j (hmono4.2.2.2.1 j hdead_j)⟩
    · rw [hreg3_hl] at hhlnone'; cases hhlnone'

/-- C5 (amended): for every arena state and direction vector of matching
length, if two distinct alive snakes form a head swap, both head cells
are inside the board, and no other alive snake plans to move onto either
of the two head cells, then both swap partners are dead in the state
returned by `Next`. -/
theorem C5_head_swap_both_die (s : State) (dirs : List Direction) (fuel : Nat)
    (s' : State) (i j : Nat) (hi hj : Location) (hne : i ≠ j)
    (hai : aliveAt s i = true) (haj : aliveAt s j = true)
    (hhi : headAt s i = some hi) (hhj : headAt s j = some hj)
    (hpi : plannedAt s dirs i = some hj) (hpj : plannedAt s dirs j = some hi)
    (hbi : hi.IsInsideBounds s.Width s.Height = true)
    (hbj : hj.IsInsideBounds s.Width s.Height = true)
    (hthird : ∀ m < s.Snakes.length, m ≠ i → m ≠ j → aliveAt s m = true →
      plannedAt s dirs m ≠ some hi ∧ plannedAt s dirs m ≠ some hj)
    (hnext : State.Next s dirs fuel = some s') :
    aliveAt s' i = false ∧ aliveAt s' j = false := by
  rcases Nat.lt_or_ge i j with h | h
  · exact C5_aux s dirs fuel s' i j hi hj h hai haj hhi hhj hpi hpj hbi hbj
      hthird hnext
  · have h' : j < i := by omega
    have hthird' : ∀ m < s.Snakes.length, m ≠ j → m ≠ i → aliveAt s m = true →
        plannedAt s dirs m ≠ some hj ∧ plannedAt s dirs m ≠ some hi := by
      intro m hm hmj hmi halm
      exact ⟨(hthird m hm hmi hmj halm).2, (hthird m hm hmi hmj halm).1⟩
    have := C5_aux s dirs fuel s' j i hj hi h' haj hai hhj hhi hpj hpi hbj hbi
      hthird' hnext
    exact ⟨this.2, this.1⟩

/-- C5 witness: two adjacent single-piece snakes move through each other;
both are dead after the tick. -/
theorem C5_head_swap_both_die_witness :
    aliveAt ⟨5, 5, [⟨false, 1, [⟨2, 0⟩]⟩, ⟨false, 1, [⟨1, 0⟩]⟩], ⟨4, 4⟩⟩ 0 = false ∧
    aliveAt ⟨5, 5, [⟨false, 1, [⟨2, 0⟩]⟩, ⟨false, 1, [⟨1, 0⟩]⟩], ⟨4, 4⟩⟩ 1 = false :=
  C5_head_swap_both_die
    ⟨5, 5, [⟨true, 1, [⟨1, 0⟩]⟩, ⟨true, 1, [⟨2, 0⟩]⟩], ⟨4, 4⟩⟩
    [.East, .West] 1
    ⟨5, 5, [⟨false, 1, [⟨2, 0⟩]⟩, ⟨false, 1, [⟨1, 0⟩]⟩], ⟨4, 4⟩⟩
    0 1 ⟨1, 0⟩ ⟨2, 0⟩ (by decide) (by decide) (by decide) (by decide) (by decide)
    (by decide) (by decide) (by decide) (by decide)
    (by intro m hm h0 h1; have h2 : m < 2 := hm; omega) (by decide)

/-- C5 counterexample to the unamended claim: snakes at `(2,0)`, `(1,1)`,
`(2,1)` moving south, east and west.  Slots 1 and 2 form a head swap
(`nextHead(1) = (2,1) = oldHead(2)`, `nextHead(2) = (1,1) = oldHead(1)`),
yet slot 2 is still alive after the tick: slot 1 was killed at its own
iteration by the shared-cell collision with slot 0, so its pair was never
recorded and the swap check at slot 2 found nothing. -/
theorem C5_counterexample :
    (1 : Nat) ≠ 2 ∧
    aliveAt ⟨5, 5, [⟨true, 1, [⟨2, 0⟩]⟩, ⟨true, 1, [⟨1, 1⟩]⟩, ⟨true, 1, [⟨2, 1⟩]⟩],
      ⟨4, 4⟩⟩ 1 = true ∧
    aliveAt ⟨5, 5, [⟨true, 1, [⟨2, 0⟩]⟩, ⟨true, 1, [⟨1, 1⟩]⟩, ⟨true, 1, [⟨2, 1⟩]⟩],
      ⟨4, 4⟩⟩ 2 = true ∧
    headAt ⟨5, 5, [⟨true, 1, [⟨2, 0⟩]⟩, ⟨true, 1, [⟨1, 1⟩]⟩, ⟨true, 1, [⟨2, 1⟩]⟩],
      ⟨4, 4⟩⟩ 1 = some ⟨1, 1⟩ ∧
    headAt ⟨5, 5, [⟨true, 1, [⟨2, 0⟩]⟩, ⟨true, 1, [⟨1, 1⟩]⟩, ⟨true, 1, [⟨2, 1⟩]⟩],
      ⟨4, 4⟩⟩ 2 = some ⟨2, 1⟩ ∧
    plannedAt ⟨5, 5, [⟨true, 1, [⟨2, 0⟩]⟩, ⟨true, 1, [⟨1, 1⟩]⟩, ⟨true, 1, [⟨2, 1⟩]⟩],
      ⟨4, 4⟩⟩ [.South, .East, .West] 1 = some ⟨2, 1⟩ ∧
    plannedAt ⟨5, 5, [⟨true, 1, [⟨2, 0⟩]⟩, ⟨true, 1, [⟨1, 1⟩]⟩, ⟨true, 1, [⟨2, 1⟩]⟩],
      ⟨4, 4⟩⟩ [.South, .East, .West] 2 = some ⟨1, 1⟩ ∧
    State.Next ⟨5, 5, [⟨true, 1, [⟨2, 0⟩]⟩, ⟨true, 1, [⟨1, 1⟩]⟩, ⟨true, 1, [⟨2, 1⟩]⟩],
      ⟨4, 4⟩⟩ [.South, .East, .West] 1 =
      some ⟨5, 5, [⟨false, 1, [⟨2, 1⟩]⟩, ⟨false, 1, [⟨2, 1⟩]⟩, ⟨true, 1, [⟨1, 1⟩]⟩],
        ⟨4, 4⟩⟩ ∧
    aliveAt ⟨5, 5, [⟨false, 1, [⟨2, 1⟩]⟩, ⟨false, 1, [⟨2, 1⟩]⟩, ⟨true, 1, [⟨1, 1⟩]⟩],
      ⟨4, 4⟩⟩ 2 = true := by
  decide

/-! ## Bounds of the random draws, and the apple-placement invariant -/

/-- The `Int31n` rejection loop returns a value below `n`. -/
theorem int31nLoop_lt (n maxv : Nat) (hn : 0 < n) :
    ∀ (fuel : Nat) (r : rngSource) (v : Nat) (r' : rngSource),
      int31nLoop n maxv fuel r = some (v, r') → v < n := by
  intro fuel
  induction fuel with
  | zero => intro r v r' h; cases h
  | succ fuel ih =>
    intro r v r' h
    rw [int31nLoop] at h
    rcases hdraw : r.Int31 with ⟨w, r2⟩
    simp only [hdraw] at h
    split at h
    · exact ih _ _ _ h
    · cases h
      exact Nat.mod_lt _ hn

/-- The `Int63n` rejection loop returns a value below `n`. -/
theorem int63nLoop_lt (n maxv : Nat) (hn : 0 < n) :
    ∀ (fuel : Nat) (r : rngSource) (v : Nat) (r' : rngSource),
      int63nLoop n maxv fuel r = some (v, r') → v < n := by
  intro fuel
  induction fuel with
  | zero => intro r v r' h; cases h
  | succ fuel ih =>
    intro r v r' h
    rw [int63nLoop] at h
    rcases hdraw : r.Int63 with ⟨w, r2⟩
    simp only [hdraw] at h
    split at h
    · exact ih _ _ _ h
    · cases h
      exact Nat.mod_lt _ hn

/-- `Int31n` returns a value below `n`. -/
theorem Int31n_lt (r : rngSource) (n fuel : Nat) (hn : 0 < n)
    (v : Nat) (r' : rngSource) (h : r.Int31n n fuel = some (v, r')) : v < n := by
  unfold rngSource.Int31n at h
  split at h
  · rcases hdraw : r.Int31 with ⟨w, r2⟩
    simp only [hdraw] at h
    cases h
    have hle : w &&& (n - 1) ≤ n - 1 := Nat.and_le_right
    omega
  · exact int31nLoop_lt n _ hn fuel r v r' h

/-- `Int63n` returns a value below `n`. -/
theorem Int63n_lt (r : rngSource) (n fuel : Nat) (hn : 0 < n)
    (v : Nat) (r' : rngSource) (h : r.Int63n n fuel = some (v, r')) : v < n := by
  unfold rngSource.Int63n at h
  split at h
  · rcases hdraw : r.Int63 with ⟨w, r2⟩
    simp only [hdraw] at h
    cases h
    have hle : w &&& (n - 1) ≤ n - 1 := Nat.and_le_right
    omega
  · exact int63nLoop_lt n _ hn fuel r v r' h

/-- A successful `Intn` draw means `0 < n` and the value is below `n`. -/
theorem Intn_lt (r : rngSource) (n : Int) (fuel : Nat) (v : Nat) (r' : rngSource)
    (h : r.Intn n fuel = some (v, r')) : 0 < n ∧ (v : Int) < n := by
  unfold rngSource.Intn at h
  split at h
  · cases h
  · rename_i hpos
    have hn : 0 < n := by omega
    refine ⟨hn, ?_⟩
    have hcast : (n.toNat : Int) = n := Int.toNat_of_nonneg (by omega)
    split at h
    · have hlt := Int31n_lt r n.toNat fuel (by omega) v r' h
      omega
    · have hlt := Int63n_lt r n.toNat fuel (by omega) v r' h
      omega

/-- Whatever cell the apple rejection loop accepts is inside the board
and on no snake's segment, dead snakes included. -/
theorem appleLoop_spec (width height : Int) (snakes : List Snake) :
    ∀ (fuel : Nat) (r : rngSource) (loc : Location),
      appleLoop width height snakes fuel r = some loc →
      loc.IsInsideBounds width height = true ∧
      ∀ sn ∈ snakes, sn.HasPieceAt loc.X loc.Y = false := by
  intro fuel
  induction fuel with
  | zero => intro r loc h; cases h
  | succ fuel ih =>
    intro r loc h
    rw [appleLoop] at h
    cases hx : r.Intn width (fuel + 1) with
    | none => simp only [hx] at h; cases h
    | some p =>
      rcases p with ⟨x, r1⟩
      simp only [hx] at h
      cases hy : r1.Intn height (fuel + 1) with
      | none => simp only [hy] at h; cases h
      | some q =>
        rcases q with ⟨y, r2⟩
        simp only [hy] at h
        split at h
        · rename_i hok
          cases h
          obtain ⟨hwpos, hxlt⟩ := Intn_lt r width (fuel + 1) x r1 hx
          obtain ⟨hhpos, hylt⟩ := Intn_lt r1 height (fuel + 1) y r2 hy
          constructor
          · simp only [Location.IsInsideBounds, Bool.and_eq_true, decide_eq_true_eq]
            refine ⟨⟨⟨?_, hxlt⟩, ?_⟩, hylt⟩ <;> positivity
          · intro sn hsn
            have hall := List.all_eq_true.mp hok sn hsn
            simpa using hall
        · exact ih _ _ h

/-- Every cell `GenerateAppleLocation` returns is inside the board and on
no snake's segment, dead snakes included. -/
theorem GenerateAppleLocation_spec (width height : Int) (snakes : List Snake)
    (fuel : Nat) (loc : Location)
    (h : GenerateAppleLocation width height snakes fuel = some loc) :
    loc.IsInsideBounds width height = true ∧
    ∀ sn ∈ snakes, sn.HasPieceAt loc.X loc.Y = false := by
  unfold GenerateAppleLocation at h
  cases hs : appleSeed snakes with
  | none => rw [hs] at h; cases h
  | some u =>
    rw [hs] at h
    exact appleLoop_spec width height snakes fuel _ loc h

/-! ## Concrete evaluations shared by the `NewState`/`Next` witnesses -/

/-- A successful `NewState` with the guards discharged, in terms of the
generated apple. -/
theorem NewState_decompose (cfg : StateConfig) (fuel : Nat)
    (h2 : ¬cfg.SnakeCount < 2) (hw : ¬cfg.Width < cfg.SnakeCount) (a : Location)
    (hgen : GenerateAppleLocation cfg.Width cfg.Height
      ((List.range cfg.SnakeCount.toNat).map fun (i : Nat) =>
        { Alive := true, Length := cfg.InitialSnakeLength,
          Pieces := [⟨Int.tdiv (Int.tdiv cfg.Width cfg.SnakeCount) 2 +
            Int.tdiv cfg.Width cfg.SnakeCount * (i : Int),
            Int.tdiv cfg.Height 2⟩] }) fuel = some a) :
    NewState cfg fuel = some
      { Width := cfg.Width, Height := cfg.Height,
        Snakes := (List.range cfg.SnakeCount.toNat).map fun (i : Nat) =>
          { Alive := true, Length := cfg.InitialSnakeLength,
            Pieces := [⟨Int.tdiv (Int.tdiv cfg.Width cfg.SnakeCount) 2 +
              Int.tdiv cfg.Width cfg.SnakeCount * (i : Int),
              Int.tdiv cfg.Height 2⟩] },
        Apple := a } := by
  unfold NewState
  rw [if_neg h2, if_neg hw]
  simp only [hgen]

set_option maxRecDepth 8000 in
/-- Evaluation of `NewState ⟨3, 2, 2, 1⟩`: two snakes at `(0,1)` and
`(1,1)`, apple generated at `(2,0)`. -/
theorem NewState_val :
    NewState ⟨3, 2, 2, 1⟩ 10 =
      some ⟨3, 2, [⟨true, 1, [⟨0, 1⟩]⟩, ⟨true, 1, [⟨1, 1⟩]⟩], ⟨2, 0⟩⟩ := by
  refine (NewState_decompose ⟨3, 2, 2, 1⟩ 10 (by decide) (by decide) ⟨2, 0⟩ ?_).trans ?_
  · rw [GenerateAppleLocation_eq _ _ _ _ 10941249004091998207 (by decide), Seed_valB]
    decide
  · decide

/-- A successful `Next` with the tick loop, flag and generated apple all
given. -/
theorem Next_eval (s : State) (dirs : List Direction) (fuel : Nat) (acc : TickState)
    (hlen : dirs.length = s.Snakes.length)
    (hloop : NextLoop s.Width s.Height s.Apple dirs
      { Snakes := s.Snakes, tails := [], headLocations := [],
        nextHeadLocations := [], repositionApple := false }
      (List.range s.Snakes.length) = some acc)
    (hflag : acc.repositionApple = true) (a : Location)
    (hgen : GenerateAppleLocation s.Width s.Height
      (tailCollisions acc.tails acc.nextHeadLocations acc.Snakes) fuel = some a) :
    State.Next s dirs fuel =
      some { Width := s.Width, Height := s.Height,
             Snakes := tailCollisions acc.tails acc.nextHeadLocations acc.Snakes,
             Apple := a } := by
  unfold State.Next
  rw [if_neg (by omega)]
  simp only [hloop, hflag, hgen, if_true]

set_option maxRecDepth 8000 in
/-- Evaluation of a `Next` call that eats the apple: on the 3×2 board
with snakes at `(0,0)` and `(1,0)` both moving south and the apple at
`(0,1)`, snake 0 eats and grows, and the apple is regenerated at
`(2,0)`. -/
theorem Next_eat_val :
    State.Next ⟨3, 2, [⟨true, 1, [⟨0, 0⟩]⟩, ⟨true, 1, [⟨1, 0⟩]⟩], ⟨0, 1⟩⟩
      [.South, .South] 10 =
      some ⟨3, 2, [⟨true, 2, [⟨0, 1⟩, ⟨0, 0⟩]⟩, ⟨true, 1, [⟨1, 1⟩]⟩], ⟨2, 0⟩⟩ := by
  have hloop : NextLoop 3 2 ⟨0, 1⟩ [.South, .South]
      { Snakes := [⟨true, 1, [⟨0, 0⟩]⟩, ⟨true, 1, [⟨1, 0⟩]⟩], tails := [],
        headLocations := [], nextHeadLocations := [], repositionApple := false }
      (List.range 2) =
      some { Snakes := [⟨true, 2, [⟨0, 1⟩, ⟨0, 0⟩]⟩, ⟨true, 1, [⟨1, 1⟩]⟩],
             tails := [(⟨0, 0⟩, 0)],
             headLocations := [((⟨1, 0⟩, ⟨1, 1⟩), 1), ((⟨0, 0⟩, ⟨0, 1⟩), 0)],
             nextHeadLocations := [(⟨1, 1⟩, 1), (⟨0, 1⟩, 0)],
             repositionApple := true } := by decide
  have hgen : GenerateAppleLocation 3 2
      (tailCollisions [(⟨0, 0⟩, 0)] [(⟨1, 1⟩, 1), (⟨0, 1⟩, 0)]
        [⟨true, 2, [⟨0, 1⟩, ⟨0, 0⟩]⟩, ⟨true, 1, [⟨1, 1⟩]⟩]) 10 = some ⟨2, 0⟩ := by
    rw [show tailCollisions [(⟨0, 0⟩, 0)] [(⟨1, 1⟩, 1), (⟨0, 1⟩, 0)]
        [⟨true, 2, [⟨0, 1⟩, ⟨0, 0⟩]⟩, ⟨true, 1, [⟨1, 1⟩]⟩] =
        [⟨true, 2, [⟨0, 1⟩, ⟨0, 0⟩]⟩, ⟨true, 1, [⟨1, 1⟩]⟩] from by decide]
    rw [GenerateAppleLocation_eq _ _ _ _ 10941249004091998207 (by decide), Seed_valB]
    decide
  exact (Next_eval ⟨3, 2, [⟨true, 1, [⟨0, 0⟩]⟩, ⟨true, 1, [⟨1, 0⟩]⟩], ⟨0, 1⟩⟩
    [.South, .South] 10 _ (by decide) hloop (by decide) ⟨2, 0⟩ hgen).trans
    (by rw [show tailCollisions [(⟨0, 0⟩, 0)] [(⟨1, 1⟩, 1), (⟨0, 1⟩, 0)]
        [⟨true, 2, [⟨0, 1⟩, ⟨0, 0⟩]⟩, ⟨true, 1, [⟨1, 1⟩]⟩] =
        [⟨true, 2, [⟨0, 1⟩, ⟨0, 0⟩]⟩, ⟨true, 1, [⟨1, 1⟩]⟩] from by decide])

/-! ## C7: the initial arena -/

/-- C7: for every configuration with `2 ≤ SnakeCount ≤ Width`, a
successful `NewState` returns an arena of the configured dimensions with
exactly `SnakeCount` snakes, each alive with one segment and target
length `InitialSnakeLength`, snake `i`'s segment at
`x = (Width/SnakeCount)/2 + i·(Width/SnakeCount)`, `y = Height/2`
(Go integer division), and the apple on a cell occupied by no snake. -/
theorem C7_NewState_spec (cfg : StateConfig) (fuel : Nat) (st : State)
    (h2 : 2 ≤ cfg.SnakeCount) (hw : cfg.SnakeCount ≤ cfg.Width)
    (h : NewState cfg fuel = some st) :
    st.Width = cfg.Width ∧ st.Height = cfg.Height ∧
    st.Snakes.length = cfg.SnakeCount.toNat ∧
    (∀ i : Nat, i < cfg.SnakeCount.toNat →
      st.Snakes[i]? = some
        { Alive := true, Length := cfg.InitialSnakeLength,
          Pieces := [⟨Int.tdiv (Int.tdiv cfg.Width cfg.SnakeCount) 2 +
            (i : Int) * Int.tdiv cfg.Width cfg.SnakeCount,
            Int.tdiv cfg.Height 2⟩] }) ∧
    (∀ sn ∈ st.Snakes, sn.HasPieceAt st.Apple.X st.Apple.Y = false) := by
  unfold NewState at h
  rw [if_neg (by omega), if_neg (by omega)] at h
  cases hgen : GenerateAppleLocation cfg.Width cfg.Height
      ((List.range cfg.SnakeCount.toNat).map fun (i : Nat) =>
        { Alive := true, Length := cfg.InitialSnakeLength,
          Pieces := [⟨Int.tdiv (Int.tdiv cfg.Width cfg.SnakeCount) 2 +
            Int.tdiv cfg.Width cfg.SnakeCount * (i : Int),
            Int.tdiv cfg.Height 2⟩] }) fuel with
  | none => simp only [hgen] at h; cases h
  | some a =>
    simp only [hgen] at h
    cases h
    refine ⟨rfl, rfl, by simp, ?_, ?_⟩
    · intro i hi
      simp only [List.getElem?_map, List.getElem?_range hi, Option.map_some,
        Option.some.injEq]
      rw [Int.mul_comm]
      rfl
    · intro sn hsn
      exact (GenerateAppleLocation_spec cfg.Width cfg.Height _ fuel a hgen).2 sn hsn

/-- C7 witness: `NewState ⟨3, 2, 2, 1⟩` yields two alive single-piece
snakes at `(0,1)`, `(1,1)` and the apple at the unoccupied `(2,0)`. -/
theorem C7_NewState_spec_witness :
    (⟨3, 2, [⟨true, 1, [⟨0, 1⟩]⟩, ⟨true, 1, [⟨1, 1⟩]⟩], ⟨2, 0⟩⟩ : State).Width = 3 ∧
    (⟨3, 2, [⟨true, 1, [⟨0, 1⟩]⟩, ⟨true, 1, [⟨1, 1⟩]⟩], ⟨2, 0⟩⟩ : State).Height = 2 ∧
    (⟨3, 2, [⟨true, 1, [⟨0, 1⟩]⟩, ⟨true, 1, [⟨1, 1⟩]⟩], ⟨2, 0⟩⟩ : State).Snakes.length =
      (2 : Int).toNat ∧
    (∀ i : Nat, i < (2 : Int).toNat →
      (⟨3, 2, [⟨true, 1, [⟨0, 1⟩]⟩, ⟨true, 1, [⟨1, 1⟩]⟩], ⟨2, 0⟩⟩ : State).Snakes[i]? =
        some { Alive := true, Length := 1,
               Pieces := [⟨Int.tdiv (Int.tdiv 3 2) 2 + (i : Int) * Int.tdiv 3 2,
                 Int.tdiv 2 2⟩] }) ∧
    (∀ sn ∈ (⟨3, 2, [⟨true, 1, [⟨0, 1⟩]⟩, ⟨true, 1, [⟨1, 1⟩]⟩], ⟨2, 0⟩⟩ : State).Snakes,
      sn.HasPieceAt (2 : Int) (0 : Int) = false) :=
  C7_NewState_spec ⟨3, 2, 2, 1⟩ 10
    ⟨3, 2, [⟨true, 1, [⟨0, 1⟩]⟩, ⟨true, 1, [⟨1, 1⟩]⟩], ⟨2, 0⟩⟩
    (by decide) (by decide) NewState_val

/-! ## C10: the apple never lands on a snake segment -/

/-- C10: every cell `GenerateAppleLocation` returns is inside the board
and on no segment of any snake of the given list, alive or dead;
consequently the arena returned by `NewState`, and by any `Next` call in
which an alive snake moved onto the apple (the relocation case), has its
apple on a cell occupied by no snake's segment, frozen dead bodies
included. -/
theorem C10_apple_unoccupied :
    (∀ (width height : Int) (snakes : List Snake) (fuel : Nat) (loc : Location),
      GenerateAppleLocation width height snakes fuel = some loc →
      loc.IsInsideBounds width height = true ∧
      ∀ sn ∈ snakes, sn.HasPieceAt loc.X loc.Y = false) ∧
    (∀ (cfg : StateConfig) (fuel : Nat) (st : State),
      NewState cfg fuel = some st →
      ∀ sn ∈ st.Snakes, sn.HasPieceAt st.Apple.X st.Apple.Y = false) ∧
    (∀ (s : State) (dirs : List Direction) (fuel : Nat) (s' : State) (n : Nat),
      State.Next s dirs fuel = some s' →
      aliveAt s n = true → plannedAt s dirs n = some s.Apple →
      ∀ sn ∈ s'.Snakes, sn.HasPieceAt s'.Apple.X s'.Apple.Y = false) := by
  refine ⟨fun width height snakes fuel loc h =>
    GenerateAppleLocation_spec width height snakes fuel loc h, ?_, ?_⟩
  · intro cfg fuel st h
    unfold NewState at h
    split at h
    · cases h
    · split at h
      · cases h
      · cases hgen : GenerateAppleLocation cfg.Width cfg.Height
            ((List.range cfg.SnakeCount.toNat).map fun (i : Nat) =>
              { Alive := true, Length := cfg.InitialSnakeLength,
                Pieces := [⟨Int.tdiv (Int.tdiv cfg.Width cfg.SnakeCount) 2 +
                  Int.tdiv cfg.Width cfg.SnakeCount * (i : Int),
                  Int.tdiv cfg.Height 2⟩] }) fuel with
        | none => simp only [hgen] at h; cases h
        | some a =>
          simp only [hgen] at h
          cases h
          intro sn hsn
          exact (GenerateAppleLocation_spec cfg.Width cfg.Height _ fuel a hgen).2 sn hsn
  · intro s dirs fuel s' n hnext halive hplan
    obtain ⟨hlen, acc, hloop, hsnakes, hgen⟩ := Next_decompose s dirs fuel s' hnext
    have hnlt := aliveAt_lt_length s n halive
    rw [List.range_eq_range'] at hloop
    obtain ⟨acc1, acc2, hpre, inv1, hstep, inv2, hsuf⟩ :=
      NextLoop_extract s dirs 0 s.Snakes.length n (Nat.zero_le _) (by omega)
        _ acc (LoopInv_init s dirs) hloop
    have hflag2 : acc2.repositionApple = true :=
      NextStep_eats s dirs n acc1 acc2 inv1 halive hplan hstep
    have hflag : acc.repositionApple = true :=
      (NextLoop_mono s dirs (0 + s.Snakes.length - n - 1) (n + 1) acc2 acc
        inv2 hsuf).2.2.2.2 hflag2
    intro sn hsn
    exact (GenerateAppleLocation_spec s.Width s.Height s'.Snakes fuel s'.Apple
      (hgen hflag)).2 sn hsn

set_option maxRecDepth 8000 in
/-- C10 witness: the three parts at concrete inputs — a direct
`GenerateAppleLocation` call, the `NewState ⟨3, 2, 2, 1⟩` arena, and the
apple-eating `Next` call of `Next_eat_val`. -/
theorem C10_apple_unoccupied_witness :
    ((⟨2, 0⟩ : Location).IsInsideBounds 3 2 = true ∧
      ∀ sn ∈ ([⟨true, 1, [⟨0, 1⟩]⟩, ⟨true, 1, [⟨1, 1⟩]⟩] : List Snake),
        sn.HasPieceAt (⟨2, 0⟩ : Location).X (⟨2, 0⟩ : Location).Y = false) ∧
    (∀ sn ∈ (⟨3, 2, [⟨true, 1, [⟨0, 1⟩]⟩, ⟨true, 1, [⟨1, 1⟩]⟩], ⟨2, 0⟩⟩ : State).Snakes,
      sn.HasPieceAt (2 : Int) (0 : Int) = false) ∧
    (∀ sn ∈ (⟨3, 2, [⟨true, 2, [⟨0, 1⟩, ⟨0, 0⟩]⟩, ⟨true, 1, [⟨1, 1⟩]⟩],
        ⟨2, 0⟩⟩ : State).Snakes,
      sn.HasPieceAt (2 : Int) (0 : Int) = false) :=
  ⟨C10_apple_unoccupied.1 3 2 [⟨true, 1, [⟨0, 1⟩]⟩, ⟨true, 1, [⟨1, 1⟩]⟩] 10 ⟨2, 0⟩
    (by rw [GenerateAppleLocation_eq _ _ _ _ 10941249004091998207 (by decide),
          Seed_valB]
        decide),
   C10_apple_unoccupied.2.1 ⟨3, 2, 2, 1⟩ 10
     ⟨3, 2, [⟨true, 1, [⟨0, 1⟩]⟩, ⟨true, 1, [⟨1, 1⟩]⟩], ⟨2, 0⟩⟩ NewState_val,
   C10_apple_unoccupied.2.2
     ⟨3, 2, [⟨true, 1, [⟨0, 0⟩]⟩, ⟨true, 1, [⟨1, 0⟩]⟩], ⟨0, 1⟩⟩ [.South, .South] 10
     ⟨3, 2, [⟨true, 2, [⟨0, 1⟩, ⟨0, 0⟩]⟩, ⟨true, 1, [⟨1, 1⟩]⟩], ⟨2, 0⟩⟩ 0
     Next_eat_val (by decide) (by decide)⟩

/-! ## C2: what the apple relocation actually depends on -/

/-- The seeding fold only looks at the per-slot seed contributions. -/
theorem appleSeed_foldl_congr (l1 : List Snake) :
    ∀ (l2 : List Snake) (acc : Option Nat),
      l1.map snakeSeedBytes = l2.map snakeSeedBytes →
      l1.foldl
        (fun acc snake =>
          match acc, snakeSeedBytes snake with
          | some crc, some bs => some (crc64Write crc bs)
          | _, _ => none) acc =
      l2.foldl
        (fun acc snake =>
          match acc, snakeSeedBytes snake with
          | some crc, some bs => some (crc64Write crc bs)
          | _, _ => none) acc := by
  induction l1 with
  | nil =>
    intro l2 acc h
    cases l2 with
    | nil => rfl
    | cons b t => simp at h
  | cons a t1 ih =>
    intro l2 acc h
    cases l2 with
    | nil => simp at h
    | cons b t2 =>
      simp only [List.map_cons, List.cons.injEq] at h
      obtain ⟨hab, ht⟩ := h
      rw [List.foldl_cons, List.foldl_cons, hab]
      exact ih t2 _ ht

/-- Two snake lists with the same per-slot seed contributions produce the
same checksum. -/
theorem appleSeed_congr (l1 l2 : List Snake)
    (h : l1.map snakeSeedBytes = l2.map snakeSeedBytes) :
    appleSeed l1 = appleSeed l2 :=
  appleSeed_foldl_congr l1 l2 (some 0) h

/-- `all` of a negated predicate is the negated `any`. -/
theorem all_not_eq_not_any {α : Type} (l : List α) (p : α → Bool) :
    l.all (fun a => !p a) = !l.any p := by
  induction l with
  | nil => rfl
  | cons a rest ih => simp [List.all_cons, List.any_cons, ih, Bool.not_or]

/-- The rejection loop only looks at the occupied-cell predicate. -/
theorem appleLoop_congr (width height : Int) (l1 l2 : List Snake)
    (hocc : ∀ x y : Int, l1.any (fun sn => sn.HasPieceAt x y) =
      l2.any (fun sn => sn.HasPieceAt x y)) :
    ∀ (fuel : Nat) (r : rngSource),
      appleLoop width height l1 fuel r = appleLoop width height l2 fuel r := by
  intro fuel
  induction fuel with
  | zero => intro r; rfl
  | succ fuel ih =>
    intro r
    rw [appleLoop, appleLoop]
    cases hx : r.Intn width (fuel + 1) with
    | none => rfl
    | some p =>
      rcases p with ⟨x, r1⟩
      simp only
      cases hy : r1.Intn height (fuel + 1) with
      | none => rfl
      | some q =>
        rcases q with ⟨y, r2⟩
        simp only
        have hok : l1.all (fun snake => !snake.HasPieceAt (x : Int) (y : Int)) =
            l2.all (fun snake => !snake.HasPieceAt (x : Int) (y : Int)) := by
          rw [all_not_eq_not_any, all_not_eq_not_any, hocc]
        rw [hok]
        by_cases hcond :
          l2.all (fun snake => !snake.HasPieceAt (x : Int) (y : Int)) = true
        · rw [if_pos hcond, if_pos hcond]
        · rw [if_neg hcond, if_neg hcond]
          exact ih r2

/-- C2 (amended): the apple relocation is determined by the per-slot seed
contributions (alive heads; fixed zeros for dead snakes) together with
the set of occupied cells: two snake lists that agree on both, on the
same board, relocate the apple identically for every fuel. -/
theorem C2_gen_determined (width height : Int) (s1 s2 : List Snake)
    (hseed : s1.map snakeSeedBytes = s2.map snakeSeedBytes)
    (hocc : ∀ x y : Int, s1.any (fun sn => sn.HasPieceAt x y) =
      s2.any (fun sn => sn.HasPieceAt x y))
    (fuel : Nat) :
    GenerateAppleLocation width height s1 fuel =
      GenerateAppleLocation width height s2 fuel := by
  unfold GenerateAppleLocation
  rw [← appleSeed_congr s1 s2 hseed]
  cases hs : appleSeed s1 with
  | none => rfl
  | some u => exact appleLoop_congr width height s1 s2 hocc fuel _

/-- C2 witness: a dead snake's target length and duplicated segments do
not matter — only its occupied cells and (zero) seed contribution do. -/
theorem C2_gen_determined_witness :
    GenerateAppleLocation 3 1 [⟨false, 7, [⟨1, 1⟩]⟩] 10 =
      GenerateAppleLocation 3 1 [⟨false, 1, [⟨1, 1⟩, ⟨1, 1⟩]⟩] 10 :=
  C2_gen_determined 3 1 [⟨false, 7, [⟨1, 1⟩]⟩] [⟨false, 1, [⟨1, 1⟩, ⟨1, 1⟩]⟩]
    (by decide)
    (by intro x y
        simp [Snake.HasPieceAt, List.any_cons])
    10

set_option maxRecDepth 8000 in
/-- C2 counterexample to the claim as stated: two one-snake lists with
identical alive-head configurations (no snake is alive in either) but a
different dead body.  The checksum and the drawn cells coincide, but the
rejection filter sees the dead body: list A relocates the apple to
`(2,0)`, list B to `(0,0)`.  The claim's "regardless of the snakes' body
segments or of the dead snakes' contents" is false: the rejection loop
tests `HasPieceAt` on every snake, dead ones included. -/
theorem C2_counterexample :
    ([⟨false, 1, []⟩] : List Snake).map
        (fun sn => if sn.Alive then some sn.Pieces.head? else none) =
      ([⟨false, 1, [⟨2, 0⟩]⟩] : List Snake).map
        (fun sn => if sn.Alive then some sn.Pieces.head? else none) ∧
    GenerateAppleLocation 3 1 [⟨false, 1, []⟩] 10 = some ⟨2, 0⟩ ∧
    GenerateAppleLocation 3 1 [⟨false, 1, [⟨2, 0⟩]⟩] 10 = some ⟨0, 0⟩ := by
  refine ⟨by decide, ?_, ?_⟩
  · rw [GenerateAppleLocation_eq _ _ _ _ 9957458776116166655 (by decide), Seed_valA]
    decide
  · rw [GenerateAppleLocation_eq _ _ _ _ 9957458776116166655 (by decide), Seed_valA]
    decide

/-! ## C1: the tick never writes through the input arena's pointers -/

/-- `writeSnakeAt` preserves the heap size. -/
theorem writeSnakeAt_length (σ : SnakeHeap) (refs : List Nat) (i : Nat) (v : Snake) :
    (writeSnakeAt σ refs i v).length = σ.length := by
  unfold writeSnakeAt
  cases h : refs[i]? with
  | none => rfl
  | some a => simp

/-- A write through `refs` lands at or above `base` when every address in
`refs` does. -/
theorem writeSnakeAt_frame (σ : SnakeHeap) (refs : List Nat) (i : Nat) (v : Snake)
    (base : Nat) (href : ∀ a ∈ refs, base ≤ a) (k : Nat) (hk : k < base) :
    (writeSnakeAt σ refs i v)[k]? = σ[k]? := by
  unfold writeSnakeAt
  cases h : refs[i]? with
  | none => rfl
  | some a =>
    have ha : base ≤ a := href a (mem_of_getElem?_eq h)
    rw [List.getElem?_set_ne (by omega : a ≠ k)]

/-- One heap-level tick step only writes through `refs`: heap cells below
`base` are untouched, and the heap size is unchanged. -/
theorem NextStepH_frame (w h : Int) (apple : Location) (dirs : List Direction)
    (refs : List Nat) (base : Nat) (href : ∀ a ∈ refs, base ≤ a)
    (σ : SnakeHeap) (acc : TickMaps) (n : Nat) (σ' : SnakeHeap) (acc' : TickMaps)
    (hstep : NextStepH w h apple dirs refs (σ, acc) n = some (σ', acc')) :
    σ'.length = σ.length ∧ ∀ k, k < base → σ'[k]? = σ[k]? := by
  unfold NextStepH at hstep
  cases hr : refs[n]? with
  | none => simp only [hr] at hstep; cases hstep
  | some addr =>
    have haddr : base ≤ addr := href addr (mem_of_getElem?_eq hr)
    simp only [hr] at hstep
    cases hsn : σ[addr]? with
    | none => simp only [hsn] at hstep; cases hstep
    | some snake =>
      simp only [hsn] at hstep
      by_cases hal : snake.Alive = true
      case neg =>
        rw [if_pos (by simp [Bool.eq_false_iff.mpr hal])] at hstep
        cases hstep
        exact ⟨rfl, fun k hk => rfl⟩
      case pos =>
        rw [if_neg (by simp [hal])] at hstep
        cases hp : snake.Pieces with
        | nil => simp only [hp] at hstep; cases hstep
        | cons p0 prest =>
          simp only [hp] at hstep
          cases hd : dirs[n]? with
          | none => simp only [hd] at hstep; cases hstep
          | some dir =>
            simp only [hd] at hstep
            split at hstep
            · cases hstep
              refine ⟨by simp, fun k hk => ?_⟩
              rw [List.getElem?_set_ne (by omega : addr ≠ k)]
            · split at hstep
              · cases hstep
                constructor
                · rw [writeSnakeAt_length]; simp
                · intro k hk
                  rw [writeSnakeAt_frame _ refs _ _ base href k hk,
                    List.getElem?_set_ne (by omega : addr ≠ k)]
              · split at hstep
                · cases hstep
                  constructor
                  · rw [writeSnakeAt_length]; simp
                  · intro k hk
                    rw [writeSnakeAt_frame _ refs _ _ base href k hk,
                      List.getElem?_set_ne (by omega : addr ≠ k)]
                · cases hstep
                  refine ⟨by simp, fun k hk => ?_⟩
                  rw [List.getElem?_set_ne (by omega : addr ≠ k)]

/-- The heap-level tick loop only writes through `refs`. -/
theorem NextLoopH_frame (w h : Int) (apple : Location) (dirs : List Direction)
    (refs : List Nat) (base : Nat) (href : ∀ a ∈ refs, base ≤ a) :
    ∀ (idxs : List Nat) (σ : SnakeHeap) (acc : TickMaps) (σ' : SnakeHeap)
      (acc' : TickMaps),
      NextLoopH w h apple dirs refs (σ, acc) idxs = some (σ', acc') →
      σ'.length = σ.length ∧ ∀ k, k < base → σ'[k]? = σ[k]? := by
  intro idxs
  induction idxs with
  | nil =>
    intro σ acc σ' acc' hl
    cases hl
    exact ⟨rfl, fun k hk => rfl⟩
  | cons n rest ih =>
    intro σ acc σ' acc' hl
    rw [NextLoopH] at hl
    cases hstep : NextStepH w h apple dirs refs (σ, acc) n with
    | none => rw [hstep] at hl; cases hl
    | some st1 =>
      rcases st1 with ⟨σ1, acc1⟩
      rw [hstep] at hl
      obtain ⟨hlen1, hfr1⟩ := NextStepH_frame w h apple dirs refs base href σ acc n
        σ1 acc1 hstep
      obtain ⟨hlen2, hfr2⟩ := ih σ1 acc1 σ' acc' hl
      exact ⟨hlen2.trans hlen1, fun k hk => (hfr2 k hk).trans (hfr1 k hk)⟩

/-- The heap-level tail pass only writes through `refs`. -/
theorem tailCollisionsH_frame (tails : List (Location × Nat)) (refs : List Nat)
    (base : Nat) (href : ∀ a ∈ refs, base ≤ a) :
    ∀ (nhl : List (Location × Nat)) (σ : SnakeHeap),
      (tailCollisionsH tails nhl refs σ).length = σ.length ∧
      ∀ k, k < base → (tailCollisionsH tails nhl refs σ)[k]? = σ[k]? := by
  intro nhl
  induction nhl with
  | nil => intro σ; exact ⟨rfl, fun k hk => rfl⟩
  | cons e rest ih =>
    intro σ
    have hunfold : tailCollisionsH tails (e :: rest) refs σ =
        tailCollisionsH tails rest refs
          (if (alookup tails e.1).isSome = true then
            writeSnakeAt σ refs e.2
              { readSnake σ (refs.getD e.2 0) with Alive := false }
          else σ) := rfl
    have hstep_len : (if (alookup tails e.1).isSome = true then
        writeSnakeAt σ refs e.2
          { readSnake σ (refs.getD e.2 0) with Alive := false }
      else σ).length = σ.length := by
      split
      · rw [writeSnakeAt_length]
      · rfl
    have hstep_fr : ∀ k, k < base → (if (alookup tails e.1).isSome = true then
        writeSnakeAt σ refs e.2
          { readSnake σ (refs.getD e.2 0) with Alive := false }
      else σ)[k]? = σ[k]? := by
      intro k hk
      split
      · exact writeSnakeAt_frame σ refs e.2 _ base href k hk
      · rfl
    have hrec := ih (if (alookup tails e.1).isSome = true then
        writeSnakeAt σ refs e.2
          { readSnake σ (refs.getD e.2 0) with Alive := false }
      else σ)
    rw [hunfold]
    exact ⟨hrec.1.trans hstep_len, fun k hk => (hrec.2 k hk).trans (hstep_fr k hk)⟩

/-- `getD` only depends on the optional lookup. -/
theorem getD_congr {α : Type} [Inhabited α] (l1 l2 : List α) (n : Nat) (d : α)
    (h : l1[n]? = l2[n]?) : l1.getD n d = l2.getD n d := by
  rw [List.getD_eq_getElem?_getD, List.getD_eq_getElem?_getD, h]

/-- C1: `Next` never mutates its input arena.  On the pointer model, a
successful `NextH` call (clone, tick loop, tail pass, apple relocation)
leaves every heap cell reachable from the input `StateRef` untouched:
re-reading the input state through its pointers afterwards yields exactly
the value-level state read before the call. -/
theorem C1_Next_frame (σs : SnakeHeap) (σa : AppleHeap) (st : StateRef)
    (dirs : List Direction) (fuel : Nat)
    (σs' : SnakeHeap) (σa' : AppleHeap) (st' : StateRef)
    (hwfS : ∀ a ∈ st.SnakeRefs, a < σs.length) (hwfA : st.AppleRef < σa.length)
    (hnext : State.NextH σs σa st dirs fuel = some (σs', σa', st')) :
    StateRef.read σs' σa' st = StateRef.read σs σa st := by
  unfold State.NextH at hnext
  split at hnext
  · cases hnext
  · simp only [State.clone] at hnext
    have hrefge : ∀ a ∈ (List.range (st.SnakeRefs.map (readSnake σs)).length).map
        (fun i => σs.length + i), σs.length ≤ a := by
      intro a ha
      obtain ⟨i, hi, rfl⟩ := List.mem_map.mp ha
      omega
    cases hloop : NextLoopH st.Width st.Height
        ((σa ++ [σa.getD st.AppleRef default]).getD σa.length default) dirs
        ((List.range (st.SnakeRefs.map (readSnake σs)).length).map
          (fun i => σs.length + i))
        (σs ++ st.SnakeRefs.map (readSnake σs),
         { tails := [], headLocations := [], nextHeadLocations := [],
           repositionApple := false })
        (List.range ((List.range (st.SnakeRefs.map (readSnake σs)).length).map
          (fun i => σs.length + i)).length) with
    | none => simp only [hloop] at hnext; cases hnext
    | some st1 =>
      rcases st1 with ⟨σs1, acc⟩
      simp only [hloop] at hnext
      obtain ⟨hlen1, hfr1⟩ := NextLoopH_frame st.Width st.Height
        ((σa ++ [σa.getD st.AppleRef default]).getD σa.length default) dirs
        ((List.range (st.SnakeRefs.map (readSnake σs)).length).map
          (fun i => σs.length + i)) σs.length hrefge
        (List.range ((List.range (st.SnakeRefs.map (readSnake σs)).length).map
          (fun i => σs.length + i)).length)
        (σs ++ st.SnakeRefs.map (readSnake σs))
        { tails := [], headLocations := [], nextHeadLocations := [],
          repositionApple := false } σs1 acc hloop
      obtain ⟨hlen2, hfr2⟩ := tailCollisionsH_frame acc.tails
        ((List.range (st.SnakeRefs.map (readSnake σs)).length).map
          (fun i => σs.length + i)) σs.length hrefge acc.nextHeadLocations σs1
      have hpres : ∀ a, a < σs.length →
          (tailCollisionsH acc.tails acc.nextHeadLocations
            ((List.range (st.SnakeRefs.map (readSnake σs)).length).map
              (fun i => σs.length + i)) σs1)[a]? = σs[a]? := by
        intro a ha
        rw [hfr2 a ha, hfr1 a ha, List.getElem?_append_left ha]
      have hmap : ∀ σsF : SnakeHeap, (∀ a, a < σs.length → σsF[a]? = σs[a]?) →
          st.SnakeRefs.map (readSnake σsF) = st.SnakeRefs.map (readSnake σs) := by
        intro σsF hF
        refine List.map_congr_left (fun a ha => ?_)
        unfold readSnake
        exact getD_congr _ _ _ _ (hF a (hwfS a ha))
      split at hnext
      · -- the apple was eaten: the cloned apple cell is overwritten
        cases hgen : GenerateAppleLocation st.Width st.Height
            (((List.range (st.SnakeRefs.map (readSnake σs)).length).map
              (fun i => σs.length + i)).map
              (readSnake (tailCollisionsH acc.tails acc.nextHeadLocations
                ((List.range (st.SnakeRefs.map (readSnake σs)).length).map
                  (fun i => σs.length + i)) σs1))) fuel with
        | none => simp only [hgen] at hnext; cases hnext
        | some a =>
          simp only [hgen] at hnext
          cases hnext
          unfold StateRef.read
          rw [hmap _ hpres]
          have happle : ((σa ++ [σa.getD st.AppleRef default]).set σa.length
              a).getD st.AppleRef default = σa.getD st.AppleRef default := by
            refine getD_congr _ _ _ _ ?_
            rw [List.getElem?_set_ne (by omega : σa.length ≠ st.AppleRef),
              List.getElem?_append_left hwfA]
          rw [happle]
      · cases hnext
        unfold StateRef.read
        rw [hmap _ hpres]
        have happle : (σa ++ [σa.getD st.AppleRef default]).getD st.AppleRef
            default = σa.getD st.AppleRef default := by
          refine getD_congr _ _ _ _ ?_
          rw [List.getElem?_append_left hwfA]
        rw [happle]

/-- C1 witness: a two-snake tick on the heap model; re-reading the input
state through its addresses after the call yields the original arena. -/
theorem C1_Next_frame_witness :
    (∀ a ∈ ([0, 1] : List Nat), a <
      ([⟨true, 1, [⟨0, 0⟩]⟩, ⟨true, 1, [⟨2, 2⟩]⟩] : SnakeHeap).length) ∧
    StateRef.read
      [⟨true, 1, [⟨0, 0⟩]⟩, ⟨true, 1, [⟨2, 2⟩]⟩, ⟨true, 1, [⟨1, 0⟩]⟩,
        ⟨true, 1, [⟨3, 2⟩]⟩]
      [⟨4, 4⟩, ⟨4, 4⟩] ⟨5, 5, [0, 1], 0⟩ =
    StateRef.read [⟨true, 1, [⟨0, 0⟩]⟩, ⟨true, 1, [⟨2, 2⟩]⟩] [⟨4, 4⟩]
      ⟨5, 5, [0, 1], 0⟩ :=
  ⟨by decide,
   C1_Next_frame [⟨true, 1, [⟨0, 0⟩]⟩, ⟨true, 1, [⟨2, 2⟩]⟩] [⟨4, 4⟩]
     ⟨5, 5, [0, 1], 0⟩ [.East, .East] 0
     [⟨true, 1, [⟨0, 0⟩]⟩, ⟨true, 1, [⟨2, 2⟩]⟩, ⟨true, 1, [⟨1, 0⟩]⟩,
       ⟨true, 1, [⟨3, 2⟩]⟩]
     [⟨4, 4⟩, ⟨4, 4⟩] ⟨5, 5, [2, 3], 1⟩
     (by decide) (by decide) (by decide)⟩

end Snakes